import Mathlib

/-!
# Qtilities logging core: `src/Logging/source/Logger.cpp`

A shallow embedding of the `Logger` singleton of the Qtilities logging
library: message dispatch (`logMessage`, `logPriorityMessage`), the
attach / detach protocol of logger engines and the binary session codec
(`saveSessionConfig`, `loadSessionConfig`).

Conventions of the embedding.

* Objects live behind pointers.  A pointer is a natural number, `0` is the
  null pointer; the object store is a function from pointers to objects and
  `new` hands out the next unused pointer.  `delete p` is recorded in a log of
  deleted pointers (it does not erase the object, so a dangling pointer that is
  still in a list can be observed).
* Qt signals are recorded in logs; `newMessage` is also delivered to every
  connected engine, one delivery per connection.
* A `QDataStream` over a file is the list of the bytes of the file
  (big-endian integers, length-prefixed UTF-16 strings, one byte per `bool`);
  a read past the end yields zero / the empty string and exhausts the stream.
* Everything that `Logger.cpp` uses but that is declared in a header outside
  the sources at hand (the enumeration values, the `LOG_*` helpers, the engine
  and factory interfaces, compile-time constants, a default argument) is either
  a parameter (`Build`) or a definition whose doc comment says so.
-/

namespace Qtilities

/-! ## Values -/

/-- Modelled from the spec: `Logger::MessageType` is declared in `Logger.h`,
which is not among the sources; the spec lists the enumeration as
`None, Info, Warning, Error, Fatal, Debug, Trace, AllLogLevels`. -/
inductive MessageType
  | None | Info | Warning | Error | Fatal | Debug | Trace | AllLogLevels
  deriving DecidableEq, Repr

/-- Modelled from the spec: the integer value of an enumerator of
`Logger::MessageType` (header not among the sources).  The spec says that the
position in the list is the rank, and the code compares levels with `>` on these
values. -/
def MessageType.toNat : MessageType → Nat
  | .None => 0
  | .Info => 1
  | .Warning => 2
  | .Error => 3
  | .Fatal => 4
  | .Debug => 5
  | .Trace => 6
  | .AllLogLevels => 7

/-- A `QVariant`, as far as `Logger.cpp` looks at one: `isNull()` and
`toString()`. -/
structure QVariant where
  isNull : Bool
  toString : String
  deriving DecidableEq, Repr

/-- The default argument `QVariant()` of the optional message parts. -/
def QVariant.null : QVariant := ⟨true, ""⟩

/-- A `QVariant` holding a string (a non-null one). -/
def QVariant.ofString (s : String) : QVariant := ⟨false, s⟩


/-- What the translation unit takes from headers and the build that are not
among the sources. -/
structure Build where
  /-- Whether `QT_NO_DEBUG` is defined (release mode). -/
  QT_NO_DEBUG : Bool
  /-- The constant `QTILITIES_LOGGER_BINARY_EXPORT_FORMAT` of `LoggingConstants.h`. -/
  QTILITIES_LOGGER_BINARY_EXPORT_FORMAT : Nat
  /-- The constant `PATH_LOG_LAST_CONFIG` of `LoggingConstants.h`. -/
  PATH_LOG_LAST_CONFIG : String
  /-- The value of `QCoreApplication::applicationDirPath()`. -/
  applicationDirPath : String
  /-- The default value that `Logger.h` declares for the parameter
  `initialize_engine` of `attachLoggerEngine`; `loadSessionConfig` calls
  `attachLoggerEngine(engine_list.at(i))` without the second argument. -/
  attach_initialize_engine_default : Bool

/-- Modelled from the spec: the formatting contract (`AbstractFormattingEngine.h`
is not among the sources): `name()`, `fileExtension()` and the pure
`formatMessage(level, parts)`. -/
structure FormattingEngine where
  name : String
  fileExtension : String
  formatMessage : MessageType → List QVariant → String

/-- The data members of a logger engine that the logger reads and writes through
`name()` / `setObjectName`, `isActive()` / `setActive`,
`installFormattingEngine`, together with the private data of the concrete
engine class (`priv`, an uninterpreted list of numbers). -/
structure EngineData where
  name : String
  active : Bool
  formatting_engine : Nat
  priv : List Nat
  deriving DecidableEq, Repr

/-- Modelled from the spec: the virtual interface of a concrete engine class
(`AbstractLoggerEngine.h`, `ILoggerExportable.h` are not among the sources):
`initialize() → success/failure` and, for a class with the export capability
(`qobject_cast<ILoggerExportable*>` succeeds), `factoryTag()`,
`exportBinary(writer) → success` (the bytes it writes and its result) and
`importBinary(reader) → success` (the new data, the rest of the stream and its
result). -/
structure EngineClass where
  exportable : Bool
  initializeEngine : EngineData → EngineData × Bool
  factoryTag : EngineData → String
  exportBinary : EngineData → List Nat × Bool
  importBinary : EngineData → List Nat → EngineData × List Nat × Bool

/-- A logger engine object: its class and its data. -/
structure EngineObj where
  cls : EngineClass
  data : EngineData

/-- The arguments of one `newMessage` signal. -/
structure Message where
  engine_name : String
  message_type : MessageType
  contents : List QVariant
  deriving DecidableEq, Repr

/-- The second argument of the signal `loggerEngineCountChanged`. -/
inductive EngineChangeIndication
  | EngineAdded | EngineRemoved
  deriving DecidableEq, Repr

/-- The values that `writeSettings` stores through `QSettings`. -/
structure StoredSettings where
  global_log_level : Nat
  is_qt_message_handler : Bool
  remember_session_config : Bool
  deriving DecidableEq, Repr

/-- The logger and the part of the world it acts on.  The first group of fields
is `struct LoggerData`; the rest is the object store, the signal connections and
the logs of what was emitted and deleted. -/
structure Logger where
  /-- The member `logger_engine_factory`: `createInstance(tag)` constructs
  the object given here, a null pointer for `none`.  Modelled from the spec
  (`LoggerFactory.h` is not among the sources). -/
  logger_engine_factory : String → Option EngineObj
  logger_engines : List Nat
  formatting_engines : List Nat
  default_formatting_engine : String
  /-- The value of the member `global_log_level` (a `MessageType`, which
  `loadSessionConfig` and `readSettings` fill by a cast from an integer). -/
  global_log_level : Nat
  initialized : Bool
  is_qt_message_handler : Bool
  remember_session_config : Bool
  /-- The `QPointer` named `priority_formatting_engine`, `0` when null. -/
  priority_formatting_engine : Nat
  /-- The engine objects, by pointer. -/
  engines : Nat → EngineObj
  /-- The pointer that the next `new` returns. -/
  next_engine : Nat
  /-- Every `delete` of an engine, in order. -/
  deleted_engines : List Nat
  /-- The formatting engine objects, by pointer. -/
  formatters : Nat → FormattingEngine
  /-- Every `delete` of a formatting engine, in order. -/
  deleted_formatters : List Nat
  /-- The value of `QtMsgLoggerEngine::instance()`. -/
  qtMsgLoggerEngine : Nat
  /-- The value of `ConsoleLoggerEngine::instance()`. -/
  consoleLoggerEngine : Nat
  /-- The receivers connected to the signal `newMessage`, one entry per
  `connect`. -/
  connections : List Nat
  /-- Every emission of `newMessage`, in order. -/
  newMessage : List Message
  /-- Every call of an engine slot `newMessages`, in order. -/
  delivered : List (Nat × Message)
  /-- Every emission of `newPriorityMessage`, in order. -/
  newPriorityMessage : List (MessageType × String)
  /-- Every emission of `loggerEngineCountChanged`, in order. -/
  loggerEngineCountChanged : List (Nat × EngineChangeIndication)
  /-- What `writeSettings` stored last. -/
  settings : Option StoredSettings

namespace Logger

/-! ## Message dispatch -/

/-- The statement `emit newMessage(engine_name, message_type, message_contents)`:
the signal is recorded and the slot of every connected engine is called. -/
def emit_newMessage (s : Logger) (m : Message) : Logger :=
  { s with
    newMessage := s.newMessage ++ [m]
    delivered := s.delivered ++ s.connections.map (fun p => (p, m)) }

/-- The statement `emit newPriorityMessage(message_type, formatted_message)`. -/
def emit_newPriorityMessage (s : Logger) (t : MessageType) (formatted_message : String) :
    Logger :=
  { s with newPriorityMessage := s.newPriorityMessage ++ [(t, formatted_message)] }

/-- The statement `if (!msg.isNull()) message_contents.push_back(msg);`. -/
def push_back_unless_null (message_contents : List QVariant) (msg : QVariant) :
    List QVariant :=
  if msg.isNull = false then message_contents ++ [msg] else message_contents

/-- The block of `logMessage` and `logPriorityMessage` that builds
`message_contents` (lines 173-183 and 201-211). -/
def message_contents (message msg1 msg2 msg3 msg4 msg5 msg6 msg7 msg8 msg9 : QVariant) :
    List QVariant :=
  let c : List QVariant := [] ++ [message]
  let c := push_back_unless_null c msg1
  let c := push_back_unless_null c msg2
  let c := push_back_unless_null c msg3
  let c := push_back_unless_null c msg4
  let c := push_back_unless_null c msg5
  let c := push_back_unless_null c msg6
  let c := push_back_unless_null c msg7
  let c := push_back_unless_null c msg8
  let c := push_back_unless_null c msg9
  c

/-- The function `Logger::logMessage` (lines 160-186). -/
def logMessage (cfg : Build) (s : Logger) (engine_name : String) (message_type : MessageType)
    (message msg1 msg2 msg3 msg4 msg5 msg6 msg7 msg8 msg9 : QVariant) : Logger :=
  if cfg.QT_NO_DEBUG = true ∧ (message_type = .Debug ∨ message_type = .Trace) then s
  else if message_type = .AllLogLevels ∨ message_type = .None then s
  else if message_type.toNat > s.global_log_level then s
  else
    s.emit_newMessage
      ⟨engine_name, message_type,
        message_contents message msg1 msg2 msg3 msg4 msg5 msg6 msg7 msg8 msg9⟩

/-- The function `Logger::logPriorityMessage` (lines 188-222). -/
def logPriorityMessage (cfg : Build) (s : Logger) (engine_name : String)
    (message_type : MessageType)
    (message msg1 msg2 msg3 msg4 msg5 msg6 msg7 msg8 msg9 : QVariant) : Logger :=
  if cfg.QT_NO_DEBUG = true ∧ (message_type = .Debug ∨ message_type = .Trace) then s
  else if message_type = .AllLogLevels ∨ message_type = .None then s
  else if message_type.toNat > s.global_log_level then s
  else
    let contents := message_contents message msg1 msg2 msg3 msg4 msg5 msg6 msg7 msg8 msg9
    let s1 := s.emit_newMessage ⟨engine_name, message_type, contents⟩
    let formatted_message :=
      if s1.priority_formatting_engine ≠ 0 then
        (s1.formatters s1.priority_formatting_engine).formatMessage message_type contents
      else message.toString
    s1.emit_newPriorityMessage message_type formatted_message

/-- The messages that the slot of engine `p` was called with, in order. -/
def observed (s : Logger) (p : Nat) : List Message :=
  (s.delivered.filter (fun d => d.1 = p)).map (fun d => d.2)

/-- The three guards at the head of `logMessage` and `logPriorityMessage`
(lines 162-171 and 190-199) all let the level through. -/
def passes_guards (cfg : Build) (s : Logger) (message_type : MessageType) : Prop :=
  ¬ (cfg.QT_NO_DEBUG = true ∧ (message_type = .Debug ∨ message_type = .Trace)) ∧
  ¬ (message_type = .AllLogLevels ∨ message_type = .None) ∧
  ¬ (message_type.toNat > s.global_log_level)

instance (cfg : Build) (s : Logger) (t : MessageType) : Decidable (passes_guards cfg s t) := by
  unfold passes_guards
  exact inferInstance

/-- A call of `logMessage` whose ten parts are given as a family: `part 0` is the
mandatory part, `part 1` to `part 9` are the optional ones. -/
def logMessageParts (cfg : Build) (s : Logger) (engine_name : String)
    (message_type : MessageType) (part : Fin 10 → QVariant) : Logger :=
  logMessage cfg s engine_name message_type (part 0) (part 1) (part 2) (part 3) (part 4)
    (part 5) (part 6) (part 7) (part 8) (part 9)

/-- The arguments of the `newMessage` signal that `logMessageParts` emits when the
guards let the level through. -/
def partsMessage (engine_name : String) (message_type : MessageType)
    (part : Fin 10 → QVariant) : Message :=
  ⟨engine_name, message_type,
    message_contents (part 0) (part 1) (part 2) (part 3) (part 4) (part 5) (part 6) (part 7)
      (part 8) (part 9)⟩

/-- The scenario of four submissions through `logMessage`, with the levels `Info`,
`Warning`, `Error`, `Debug`, in this order. -/
def four_submissions (cfg : Build) (s : Logger) (n1 n2 n3 n4 : String)
    (part1 part2 part3 part4 : Fin 10 → QVariant) : Logger :=
  logMessageParts cfg
    (logMessageParts cfg
      (logMessageParts cfg
        (logMessageParts cfg s n1 .Info part1) n2 .Warning part2)
      n3 .Error part3) n4 .Debug part4

/-- Modelled from the spec: the helper `LOG_ERROR` is declared in `Logger.h`, which
is not among the sources; the spec says that the core logs its diagnostics
through its own dispatch path, so it is a call of `logMessage` with the level
`Error`, an empty engine name and the text as the only part. -/
def LOG_ERROR (cfg : Build) (s : Logger) (text : String) : Logger :=
  logMessage cfg s "" .Error (QVariant.ofString text) QVariant.null QVariant.null
    QVariant.null QVariant.null QVariant.null QVariant.null QVariant.null QVariant.null
    QVariant.null

/-- Modelled from the spec: the helper `LOG_INFO` of `Logger.h` (see `LOG_ERROR`). -/
def LOG_INFO (cfg : Build) (s : Logger) (text : String) : Logger :=
  logMessage cfg s "" .Info (QVariant.ofString text) QVariant.null QVariant.null
    QVariant.null QVariant.null QVariant.null QVariant.null QVariant.null QVariant.null
    QVariant.null

/-- Modelled from the spec: the helper `LOG_DEBUG` of `Logger.h` (see `LOG_ERROR`). -/
def LOG_DEBUG (cfg : Build) (s : Logger) (text : String) : Logger :=
  logMessage cfg s "" .Debug (QVariant.ofString text) QVariant.null QVariant.null
    QVariant.null QVariant.null QVariant.null QVariant.null QVariant.null QVariant.null
    QVariant.null

/-! ## Engines: object store, attach, detach, lookup -/

/-- The object at `p` gets the data `d` (its class does not change). -/
def setData (s : Logger) (p : Nat) (d : EngineData) : Logger :=
  { s with engines := fun q => if q = p then ⟨(s.engines p).cls, d⟩ else s.engines q }

/-- The statement `delete p` for an engine: nothing for the null pointer; else the
deletion is logged and, as `QObject` does on destruction, the receiver is
disconnected from every signal. -/
def delete_engine (s : Logger) (p : Nat) : Logger :=
  if p = 0 then s
  else
    { s with
      deleted_engines := s.deleted_engines ++ [p]
      connections := s.connections.filter (fun q => q ≠ p) }

/-- The statement `emit loggerEngineCountChanged(engine, indication)`. -/
def emit_loggerEngineCountChanged (s : Logger) (p : Nat)
    (i : EngineChangeIndication) : Logger :=
  { s with loggerEngineCountChanged := s.loggerEngineCountChanged ++ [(p, i)] }

/-- The function `Logger::attachLoggerEngine` (lines 300-318). -/
def attachLoggerEngine (cfg : Build) (s : Logger) (new_logger_engine : Nat)
    (initialize_engine : Bool) : Logger × Bool :=
  let attach (s : Logger) : Logger × Bool :=
    let s1 :=
      if new_logger_engine ≠ 0 then
        { s with
          logger_engines := s.logger_engines ++ [new_logger_engine]
          connections := s.connections ++ [new_logger_engine] }
      else s
    (s1.emit_loggerEngineCountChanged new_logger_engine .EngineAdded, true)
  if initialize_engine = true then
    let r := (s.engines new_logger_engine).cls.initializeEngine
      (s.engines new_logger_engine).data
    let s1 := s.setData new_logger_engine r.1
    if r.2 = false then
      let s2 := LOG_ERROR cfg s1
        "New file logger engine could not be added, it failed during initialization."
      (s2.delete_engine new_logger_engine, false)
    else attach s1
  else attach s

/-- The function `Logger::detachLoggerEngine` (lines 320-330); `QList::removeOne`
removes the first occurrence. -/
def detachLoggerEngine (s : Logger) (logger_engine : Nat) : Logger × Bool :=
  if logger_engine ≠ 0 then
    if logger_engine ∈ s.logger_engines then
      let s1 := { s with logger_engines := s.logger_engines.erase logger_engine }
      let s2 := s1.emit_loggerEngineCountChanged logger_engine .EngineRemoved
      (s2.delete_engine logger_engine, true)
    else (s, false)
  else (s, false)

/-- The function `Logger::attachedLoggerEngineNames` (lines 436-442). -/
def attachedLoggerEngineNames (s : Logger) : List String :=
  s.logger_engines.map (fun p => (s.engines p).data.name)

/-- The function `Logger::attachedLoggerEngineCount` (lines 444-446). -/
def attachedLoggerEngineCount (s : Logger) : Nat :=
  s.logger_engines.length

/-- The function `Logger::loggerEngineReference` (lines 448-456): the first non-null
entry of the live list whose name is `engine_name`, else the null pointer. -/
def loggerEngineReference (s : Logger) (engine_name : String) : Nat :=
  match s.logger_engines.find?
      (fun p => decide (p ≠ 0 ∧ engine_name = (s.engines p).data.name)) with
  | some p => p
  | none => 0

/-- The function `Logger::availableFormattingEngines` (lines 240-246). -/
def availableFormattingEngines (s : Logger) : List String :=
  s.formatting_engines.map (fun f => (s.formatters f).name)

/-- The function `Logger::formattingEngineReference` (lines 248-254). -/
def formattingEngineReference (s : Logger) (name : String) : Nat :=
  match s.formatting_engines.find? (fun f => decide (name = (s.formatters f).name)) with
  | some f => f
  | none => 0

/-- Modelled from the spec: `AbstractLoggerEngine::formattingEngineName()`
(`AbstractLoggerEngine.h` is not among the sources): the name of the installed
formatting engine, and the empty string when none is installed. -/
def formattingEngineName (s : Logger) (p : Nat) : String :=
  if (s.engines p).data.formatting_engine = 0 then ""
  else (s.formatters (s.engines p).data.formatting_engine).name

/-- Modelled from the spec: `AbstractLoggerEngine::installFormattingEngine(ref)`
(header not among the sources) stores the reference. -/
def installFormattingEngine (s : Logger) (p : Nat) (f : Nat) : Logger :=
  s.setData p { (s.engines p).data with formatting_engine := f }

/-- Modelled from the spec: `AbstractLoggerEngine::setActive(bool)` (header not among
the sources) stores the flag. -/
def setActive (s : Logger) (p : Nat) (a : Bool) : Logger :=
  s.setData p { (s.engines p).data with active := a }

/-- The function `Logger::logLevelToString` (lines 332-352), on the integer value of
the level. -/
def logLevelToString (log_level : Nat) : String :=
  if log_level = MessageType.None.toNat then "None"
  else if log_level = MessageType.Info.toNat then "Information"
  else if log_level = MessageType.Warning.toNat then "Warning"
  else if log_level = MessageType.Error.toNat then "Error"
  else if log_level = MessageType.Fatal.toNat then "Fatal"
  else if log_level = MessageType.Debug.toNat then "Debug"
  else if log_level = MessageType.Trace.toNat then "Trace"
  else if log_level = MessageType.AllLogLevels.toNat then "All Log Levels"
  else ""

/-- The function `Logger::stringToLogLevel` (lines 354-371). -/
def stringToLogLevel (log_level_string : String) : MessageType :=
  if log_level_string = "Information" then MessageType.Info
  else if log_level_string = "Warning" then MessageType.Warning
  else if log_level_string = "Error" then MessageType.Error
  else if log_level_string = "Fatal" then MessageType.Fatal
  else if log_level_string = "Debug" then MessageType.Debug
  else if log_level_string = "Trace" then MessageType.Trace
  else if log_level_string = "All Log Levels" then MessageType.AllLogLevels
  else MessageType.None

/-- The function `Logger::allLogLevelStrings` (lines 373-387); the two middle entries
are compiled in when `QT_NO_DEBUG` is not defined. -/
def allLogLevelStrings (cfg : Build) : List String :=
  let strings := ["None", "Information", "Warning", "Error", "Fatal"]
  let strings := if cfg.QT_NO_DEBUG = false then strings ++ ["Debug", "Trace"] else strings
  strings ++ ["All Log Levels"]

/-- The function `Logger::writeSettings` (lines 479-489). -/
def writeSettings (s : Logger) : Logger :=
  { s with
    settings := some
      ⟨s.global_log_level, s.is_qt_message_handler, s.remember_session_config⟩ }

/-- The function `Logger::setGlobalLogLevel` (lines 465-473). -/
def setGlobalLogLevel (cfg : Build) (s : Logger) (new_log_level : Nat) : Logger :=
  if s.global_log_level = new_log_level then s
  else
    let s1 := { s with global_log_level := new_log_level }
    let s2 := s1.writeSettings
    LOG_INFO cfg s2 ("Global log level changed to " ++ logLevelToString new_log_level)

/-- The function `Logger::loggerEngineReferenceAt` (lines 458-463). -/
def loggerEngineReferenceAt (s : Logger) (index : Int) : Nat :=
  if index < 0 ∨ index ≥ (s.logger_engines.length : Int) then 0
  else s.logger_engines.getD index.toNat 0

/-- The function `Logger::deleteEngine` (lines 409-416). -/
def deleteEngine (s : Logger) (engine_name : String) : Logger :=
  let engine := s.loggerEngineReference engine_name
  if engine = 0 then s
  else s.delete_engine engine

/-- The function `Logger::enableEngine` (lines 418-425). -/
def enableEngine (s : Logger) (engine_name : String) : Logger :=
  let engine := s.loggerEngineReference engine_name
  if engine = 0 then s
  else s.setActive engine false

/-- The function `Logger::disableEngine` (lines 427-434). -/
def disableEngine (s : Logger) (engine_name : String) : Logger :=
  let engine := s.loggerEngineReference engine_name
  if engine = 0 then s
  else s.setActive engine true

/-- The loop of `disableAllLoggerEngines` and `enableAllLoggerEngines` over the live
list (lines 398-400 and 404-406). -/
def setActive_all (a : Bool) : List Nat → Logger → Logger
  | [], s => s
  | p :: ps, s => setActive_all a ps (s.setActive p a)

/-- The function `Logger::disableAllLoggerEngines` (lines 397-401). -/
def disableAllLoggerEngines (s : Logger) : Logger :=
  setActive_all false s.logger_engines s

/-- The function `Logger::enableAllLoggerEngines` (lines 403-407). -/
def enableAllLoggerEngines (s : Logger) : Logger :=
  setActive_all true s.logger_engines s

/-- The value of `i << d->logger_engines.count()` on 32-bit integers (line 391). -/
def shift_left (i count : Nat) : Nat :=
  i * 2 ^ count % 4294967296

/-- The loop `for (int i = 0; i << d->logger_engines.count(); i++) delete
d->logger_engines.at(0);` (lines 391-393) from the value `i` on, with a bound
on the number of iterations: `none` when the bound is reached before the
condition of the loop is false. -/
def deleteAll_loop : Nat → Nat → Logger → Option Logger
  | 0, i, s => if shift_left i s.logger_engines.length ≠ 0 then none else some s
  | fuel + 1, i, s =>
    if shift_left i s.logger_engines.length ≠ 0 then
      deleteAll_loop fuel (i + 1) (s.delete_engine (s.logger_engines.getD 0 0))
    else some s

/-- The function `Logger::deleteAllLoggerEngines` (lines 389-395), with a bound on the
number of iterations of its loop. -/
def deleteAllLoggerEngines (fuel : Nat) (s : Logger) : Option Logger :=
  match deleteAll_loop fuel 0 s with
  | some s1 => some { s1 with logger_engines := [] }
  | none => none

/-- The statement `delete f` for a formatting engine: nothing for the null pointer;
else the deletion is logged, and the `QPointer` of the priority slot becomes
null when it pointed to the deleted object. -/
def delete_formatter (s : Logger) (f : Nat) : Logger :=
  if f = 0 then s
  else
    { s with
      deleted_formatters := s.deleted_formatters ++ [f]
      priority_formatting_engine :=
        if s.priority_formatting_engine = f then 0 else s.priority_formatting_engine }

/-- The function `Logger::setPriorityFormattingEngine(const QString&)`
(lines 224-233). -/
def setPriorityFormattingEngine (s : Logger) (name : String) : Logger × Bool :=
  if name ∉ s.availableFormattingEngines then (s, false)
  else
    let s1 :=
      if s.priority_formatting_engine ≠ 0 then s.delete_formatter s.priority_formatting_engine
      else s
    ({ s1 with priority_formatting_engine := s1.formattingEngineReference name }, true)

/-- The function `Logger::setPriorityFormattingEngine(AbstractFormattingEngine*)`
(lines 235-238). -/
def setPriorityFormattingEnginePtr (s : Logger) (engine : Nat) : Logger :=
  if engine ≠ 0 then { s with priority_formatting_engine := engine } else s

/-- The function `Logger::formattingEngineReferenceAt` (lines 264-269). -/
def formattingEngineReferenceAt (s : Logger) (index : Int) : Nat :=
  if index < 0 ∨ index ≥ (s.formatting_engines.length : Int) then 0
  else s.formatting_engines.getD index.toNat 0

/-- A message written with `qDebug()`.  When the logger is installed as the message
handler of Qt, the handler `installLoggerMessageHandler` (lines 557-581) passes
it to `logMessage` with the engine name `All` and the level `Debug`; else it
does not reach the logger.  The field `is_qt_message_handler` stands for the
installed handler. -/
def qDebug (cfg : Build) (s : Logger) (text : String) : Logger :=
  if s.is_qt_message_handler = true then
    logMessage cfg s "All" .Debug (QVariant.ofString text) QVariant.null QVariant.null
      QVariant.null QVariant.null QVariant.null QVariant.null QVariant.null QVariant.null
      QVariant.null
  else s

/-- The loop of `clear` over the live list (lines 150-155). -/
def clear_loop (cfg : Build) : List Nat → Logger → Logger
  | [], s => s
  | p :: ps, s =>
    if p ≠ s.qtMsgLoggerEngine ∧ p ≠ s.consoleLoggerEngine then
      clear_loop cfg ps
        ((qDebug cfg s ("> Deleting logger engine: " ++ (s.engines p).data.name)).delete_engine p)
    else clear_loop cfg ps s

/-- The function `Logger::clear` (lines 147-158). -/
def clear (cfg : Build) (s : Logger) : Logger :=
  let s := qDebug cfg s "Qtilities Logging Framework, clearing started..."
  let s := clear_loop cfg s.logger_engines s
  let s := { s with logger_engines := [] }
  qDebug cfg s "Qtilities Logging Framework, clearing finished successfully..."

/-- The function `Logger::toggleQtMsgEngine` (lines 625-628). -/
def toggleQtMsgEngine (s : Logger) (toggle : Bool) : Logger :=
  if s.qtMsgLoggerEngine ∈ s.logger_engines then s.setActive s.qtMsgLoggerEngine toggle
  else s

/-- The function `Logger::toggleConsoleEngine` (lines 630-633). -/
def toggleConsoleEngine (s : Logger) (toggle : Bool) : Logger :=
  if s.consoleLoggerEngine ∈ s.logger_engines then s.setActive s.consoleLoggerEngine toggle
  else s

/-- The function `Logger::installAsQtMessageHandler` (lines 523-530). -/
def installAsQtMessageHandler (cfg : Build) (s : Logger) (update_stored_settings : Bool) :
    Logger :=
  let s := { s with is_qt_message_handler := true }
  let s := if update_stored_settings = true then s.writeSettings else s
  LOG_INFO cfg s "Capturing of Qt debug system messages is now enabled."

/-- The function `Logger::registerLoggerEngineFactory` (lines 284-286).  Modelled from
the spec (`LoggerFactory.h` is not among the sources): the factory maps the
tag to the constructor, given here by the object it constructs. -/
def registerLoggerEngineFactory (s : Logger) (tag : String) (constructed : EngineObj) :
    Logger :=
  { s with
    logger_engine_factory := fun t => if t = tag then some constructed
      else s.logger_engine_factory t }

end Logger

/-! ## `QDataStream` over the bytes of a file -/

/-- The operator `stream << (quint32) n`: four bytes, most significant first. -/
def putU32 (n : Nat) : List Nat :=
  [n / 16777216 % 256, n / 65536 % 256, n / 256 % 256, n % 256]

/-- The operator `stream >> ui32`: the value and the rest of the stream; with fewer
than four bytes left the value is `0` and the stream is exhausted. -/
def getU32 (bs : List Nat) : Nat × List Nat :=
  match bs with
  | b0 :: b1 :: b2 :: b3 :: rest =>
    (b0 % 256 * 16777216 + b1 % 256 * 65536 + b2 % 256 * 256 + b3 % 256, rest)
  | _ => (0, [])

/-- The operator `stream << bool`: one byte. -/
def putBool (b : Bool) : List Nat := [if b then 1 else 0]

/-- The operator `stream >> bool`: a byte other than zero is `true`; at the end of
the stream the value is `false`. -/
def getBool (bs : List Nat) : Bool × List Nat :=
  match bs with
  | b :: rest => (decide (b % 256 ≠ 0), rest)
  | [] => (false, [])

/-- The two bytes of one UTF-16 code unit, most significant first. -/
def putQChar (c : Char) : List Nat := [c.toNat / 256 % 256, c.toNat % 256]

/-- The UTF-16 code units of a string as bytes. -/
def putQChars : List Char → List Nat
  | [] => []
  | c :: cs => putQChar c ++ putQChars cs

/-- The operator `stream << QString`: the number of bytes as a `quint32`, then the
UTF-16 code units. -/
def putString (str : String) : List Nat :=
  putU32 (2 * str.length) ++ putQChars str.toList

/-- The inverse direction of `putQChars`: pairs of bytes to characters. -/
def getQChars : List Nat → List Char
  | b0 :: b1 :: rest => Char.ofNat (b0 % 256 * 256 + b1 % 256) :: getQChars rest
  | _ => []

/-- The operator `stream >> QString`: the length marker `0xFFFFFFFF` is the null
string, an odd length is corrupt data (the string is cleared), and a string
that ends after the end of the stream is cleared and exhausts the stream. -/
def getString (bs : List Nat) : String × List Nat :=
  let r := getU32 bs
  if r.1 = 4294967295 then ("", r.2)
  else if r.1 = 0 then ("", r.2)
  else if r.1 % 2 = 1 then ("", r.2)
  else if r.2.length < r.1 then ("", [])
  else (String.mk (getQChars (r.2.take r.1)), r.2.drop r.1)

/-- A string that a `QString` holds as it is and that `stream << QString` writes
with its true length: every character is one UTF-16 code unit and the number
of bytes fits below the null marker `0xFFFFFFFF`. -/
def QStringOk (str : String) : Prop :=
  (∀ c ∈ str.toList, c.toNat < 65536) ∧ 2 * str.length < 4294967295

instance (str : String) : Decidable (QStringOk str) := by
  unfold QStringOk
  exact inferInstance

/-- The conversion `int import_count_int = import_count;` of a `quint32` to a 32-bit
`int`. -/
def toInt32 (n : Nat) : Int :=
  if n % 4294967296 < 2147483648 then (n % 4294967296 : Nat)
  else ((n % 4294967296 : Nat) : Int) - 4294967296

/-- The global `quint32 MARKER_LOGGER_CONFIG_TAG = 0xFAC0000F;` (line 635). -/
def MARKER_LOGGER_CONFIG_TAG : Nat := 0xFAC0000F

namespace Logger

/-! ## The session codec -/

/-- The first lines of `saveSessionConfig` and `loadSessionConfig`: an empty file
name stands for the default configuration file. -/
def session_file_name (cfg : Build) (file_name : String) : String :=
  if file_name.isEmpty then cfg.applicationDirPath ++ cfg.PATH_LOG_LAST_CONFIG
  else file_name

/-- The list `export_list` of `saveSessionConfig` (lines 653-658), which is also the
list `iface_list` of `loadSessionConfig` (lines 756-761): the attached engines
with the export capability, in the order of the live list.  The cast
`qobject_cast<ILoggerExportable*>` of a null pointer is null, so a null entry
of the live list is left out. -/
def export_list (s : Logger) : List Nat :=
  s.logger_engines.filter (fun p => decide (p ≠ 0) && (s.engines p).cls.exportable)

/-- The loop of `saveSessionConfig` over `export_list` (lines 664-672): the state,
the bytes written and the flag `success`. -/
def save_records (cfg : Build) :
    List Nat → Logger → List Nat → Bool → Logger × List Nat × Bool
  | [], s, out, success => (s, out, success)
  | p :: ps, s, out, success =>
    if success = true then
      let tag := (s.engines p).cls.factoryTag (s.engines p).data
      let s1 := LOG_DEBUG cfg s ("Exporting factory instance: " ++ tag)
      let r := (s.engines p).cls.exportBinary (s.engines p).data
      save_records cfg ps s1 (out ++ putString tag ++ r.1) r.2
    else (s, out, success)

/-- The loop of `saveSessionConfig` over the live list (lines 677-682). -/
def save_properties (cfg : Build) : List Nat → Logger → List Nat → Logger × List Nat
  | [], s, out => (s, out)
  | p :: ps, s, out =>
    let s1 := LOG_DEBUG cfg s ("Saving properties for engine: " ++ (s.engines p).data.name)
    save_properties cfg ps s1
      (out ++ putString (s1.engines p).data.name ++ putString (s1.formattingEngineName p)
        ++ putBool (s1.engines p).data.active)

/-- The function `Logger::saveSessionConfig` (lines 637-696).  `file_open` is the
result of `file.open(QIODevice::ReadWrite)`; the result is the state, the
returned value and the bytes written to the stream. -/
def saveSessionConfig (cfg : Build) (s : Logger) (file_name : String) (file_open : Bool) :
    Logger × Bool × List Nat :=
  let file_name := session_file_name cfg file_name
  let s := LOG_DEBUG cfg s ("Logging configuration export started to " ++ file_name)
  if file_open = false then
    (LOG_DEBUG cfg s ("Logging configuration export failed to " ++ file_name
      ++ ". The file could not be opened."), false, [])
  else
    let out := putU32 cfg.QTILITIES_LOGGER_BINARY_EXPORT_FORMAT
    let export_list := s.export_list
    let out := out ++ putU32 MARKER_LOGGER_CONFIG_TAG
    let out := out ++ putU32 s.global_log_level
    let out := out ++ putU32 export_list.length
    let r := save_records cfg export_list s out true
    let s := r.1
    let out := r.2.1
    let success := r.2.2
    let r2 :=
      if success = true then
        save_properties cfg s.logger_engines s (out ++ putU32 s.logger_engines.length)
      else (s, out)
    let s := r2.1
    let out := r2.2
    if success = true then
      let out := out ++ putU32 MARKER_LOGGER_CONFIG_TAG
      (LOG_INFO cfg s ("Logging configuration successfully exported to " ++ file_name),
        true, out)
    else
      (LOG_INFO cfg s ("Logging configuration export failed to " ++ file_name), false, out)

/-- The statement `d->logger_engine_factory.createInstance(tag)`: a new object at the
next unused pointer, or the null pointer when the factory constructs nothing
for the tag. -/
def createInstance (s : Logger) (tag : String) : Logger × Nat :=
  match s.logger_engine_factory tag with
  | some obj =>
    ({ s with
       engines := fun q => if q = s.next_engine then obj else s.engines q
       next_engine := s.next_engine + 1 }, s.next_engine)
  | none => (s, 0)

/-- The loop of `loadSessionConfig` that creates the engines (lines 731-750), with
the number of iterations left: the state, the stream, `engine_list` and
`success`. -/
def load_create (cfg : Build) :
    Nat → Logger → List Nat → List Nat → Bool →
      Logger × List Nat × List Nat × Bool
  | 0, s, stream, engine_list, success => (s, stream, engine_list, success)
  | n + 1, s, stream, engine_list, success =>
    if success = false then (s, stream, engine_list, success)
    else
      let r := getString stream
      let tag := r.1
      let s1 := LOG_DEBUG cfg s ("Create factory instance: " ++ tag)
      let c := s1.createInstance tag
      let s2 := c.1
      let engine := c.2
      if engine ≠ 0 then
        if (s2.engines engine).cls.exportable = true then
          let i := (s2.engines engine).cls.importBinary (s2.engines engine).data r.2
          load_create cfg n (s2.setData engine i.1) i.2.1 (engine_list ++ [engine]) success
        else load_create cfg n s2 r.2 engine_list false
      else load_create cfg n s2 r.2 engine_list false

/-- The loop `for (...) detachLoggerEngine(iface_list.at(i));` (lines 762-764). -/
def load_detach : List Nat → Logger → Logger
  | [], s => s
  | p :: ps, s => load_detach ps (s.detachLoggerEngine p).1

/-- The loop that attaches the created engines (lines 766-769); the call leaves the
argument `initialize_engine` to its default. -/
def load_attach (cfg : Build) : List Nat → Logger → Bool → Logger × Bool
  | [], s, success => (s, success)
  | p :: ps, s, success =>
    let r := s.attachLoggerEngine cfg p cfg.attach_initialize_engine_default
    load_attach cfg ps r.1 (if r.2 = false then false else success)

/-- The loop `for (int i = 0; i < count; i++) delete engine_list.at(0);`
(lines 771-773), with the number of iterations left. -/
def load_delete (engine_list : List Nat) : Nat → Logger → Logger
  | 0, s => s
  | n + 1, s => load_delete engine_list n (s.delete_engine (engine_list.getD 0 0))

/-- The body of the loop that restores the formatting engine and the activity of an
engine found by name, after the three reads (lines 791-797). -/
def restore_properties (cfg : Build) (s : Logger) (current_name current_engine : String)
    (is_active : Bool) : Logger :=
  let engine := s.loggerEngineReference current_name
  if engine ≠ 0 then
    let s1 := LOG_DEBUG cfg s ("Restoring properties for engine: " ++ current_name)
    let s2 := s1.installFormattingEngine engine (s1.formattingEngineReference current_engine)
    s2.setActive engine is_active
  else s

/-- The loop that restores the formatting engine and the activity of the engines
found by name (lines 783-798), with the number of iterations left.  The loop
is entered with `success` true and does not assign it, so its `break` is never
taken. -/
def load_properties (cfg : Build) : Nat → Logger → List Nat → Logger × List Nat
  | 0, s, stream => (s, stream)
  | n + 1, s, stream =>
    let r1 := getString stream
    let current_name := r1.1
    let r2 := getString r1.2
    let current_engine := r2.1
    let r3 := getBool r2.2
    let is_active := r3.1
    load_properties cfg n (restore_properties cfg s current_name current_engine is_active) r3.2

/-- The function `Logger::loadSessionConfig` (lines 698-812).  `content` is what the
stream over the opened file yields (no bytes when the file cannot be opened);
the result is the state and the returned value. -/
def loadSessionConfig (cfg : Build) (s : Logger) (file_name : String) (content : List Nat) :
    Logger × Bool :=
  let file_name := session_file_name cfg file_name
  let s := LOG_DEBUG cfg s ("Logging configuration import started from " ++ file_name)
  let r := getU32 content
  let s := LOG_INFO cfg s
    ("Inspecting logger configuration file format: Found binary export file format version: "
      ++ toString r.1)
  if r.1 ≠ cfg.QTILITIES_LOGGER_BINARY_EXPORT_FORMAT % 4294967296 then
    (LOG_ERROR cfg s
      ("Logger configuration file format does not match the expected binary export file "
        ++ "format (expected version: "
        ++ toString cfg.QTILITIES_LOGGER_BINARY_EXPORT_FORMAT ++ "). Import will fail."),
      false)
  else
    let r := getU32 r.2
    if r.1 ≠ MARKER_LOGGER_CONFIG_TAG then
      (LOG_INFO cfg s ("Logging configuration import failed from " ++ file_name
        ++ ". The file contains invalid data or does not exist."), false)
    else
      let r := getU32 r.2
      let global_log_level := r.1
      let r := getU32 r.2
      let import_count_int := toInt32 r.1
      let c := load_create cfg import_count_int.toNat s r.2 [] true
      let s := c.1
      let stream := c.2.1
      let engine_list := c.2.2.1
      let success := c.2.2.2
      let count := engine_list.length
      let a :=
        if success = true then
          load_attach cfg engine_list (load_detach s.export_list s) success
        else (load_delete engine_list count s, success)
      let s := a.1
      let success := a.2
      let s :=
        if success = true then
          let r := getU32 stream
          (load_properties cfg (toInt32 r.1).toNat s r.2).1
        else s
      if success = true then
        (LOG_INFO cfg (s.setGlobalLogLevel cfg global_log_level)
          ("Logging configuration successfully imported from " ++ file_name), true)
      else
        (LOG_INFO cfg s ("Logging configuration import failed from " ++ file_name), false)

end Logger

/-! ## Start and end of the logger -/

/-- What `Logger::initialize` takes from the rest of the library and from the process:
the formatting engine singletons, two constants of `LoggingConstants.h`, the
constructor registered for the file engine, whether the application details of
`QCoreApplication` are unset, and the bytes of the default configuration file
(none when it does not exist). -/
structure Startup where
  FormattingEngine_Default : Nat
  FormattingEngine_Rich_Text : Nat
  FormattingEngine_XML : Nat
  FormattingEngine_HTML : Nat
  FormattingEngine_QtMsgEngineFormat : Nat
  FORMATTING_ENGINE_DEFAULT : String
  TAG_LOGGER_ENGINE_FILE : String
  FileLoggerEngine_factory : EngineObj
  application_details_unset : Bool
  last_config_file : List Nat

namespace Logger

/-- The function `Logger::readSettings` (lines 491-509).  The store of `QSettings` is
the field `settings`; without stored values the defaults of the calls of
`settings.value` apply (`Fatal`, `false`, `true`). -/
def readSettings (cfg : Build) (env : Startup) (s : Logger) : Logger :=
  let s :=
    if env.application_details_unset = true then
      qDebug cfg s ("The logger may not be able to restore paramaters from previous sessions "
        ++ "since the correct details in QCoreApplication have not been set.")
    else s
  let stored : StoredSettings := s.settings.getD ⟨MessageType.Fatal.toNat, false, true⟩
  let s := { s with global_log_level := stored.global_log_level }
  let s :=
    if stored.is_qt_message_handler = true then installAsQtMessageHandler cfg s false else s
  { s with remember_session_config := stored.remember_session_config }

/-- The function `Logger::initialize` (lines 96-137).  The numbers that two of the
`qDebug()` lines print are left out of their text; the call
`loadSessionConfig()` passes the empty default file name. -/
def initializeLogger (cfg : Build) (env : Startup) (s : Logger) : Logger :=
  if s.initialized = true then s
  else
    let s := qDebug cfg s "Qtilities Logging Framework, initialization started..."
    let s := { s with
      formatting_engines := s.formatting_engines ++
        [env.FormattingEngine_Default, env.FormattingEngine_Rich_Text,
          env.FormattingEngine_XML, env.FormattingEngine_HTML,
          env.FormattingEngine_QtMsgEngineFormat]
      default_formatting_engine := env.FORMATTING_ENGINE_DEFAULT }
    let s := s.registerLoggerEngineFactory env.TAG_LOGGER_ENGINE_FILE
      env.FileLoggerEngine_factory
    let s := qDebug cfg s "> Number of formatting engines available: "
    let s := qDebug cfg s "> Number of logger engine factories available: "
    let s := s.installFormattingEngine s.qtMsgLoggerEngine
      env.FormattingEngine_QtMsgEngineFormat
    let s := (s.attachLoggerEngine cfg s.qtMsgLoggerEngine true).1
    let s := s.toggleQtMsgEngine false
    let s := s.installFormattingEngine s.consoleLoggerEngine env.FormattingEngine_Default
    let s := (s.attachLoggerEngine cfg s.consoleLoggerEngine true).1
    let s := s.toggleConsoleEngine false
    let s := readSettings cfg env s
    let s :=
      if s.remember_session_config = true then
        (loadSessionConfig cfg s "" env.last_config_file).1
      else s
    let s := { s with initialized := true }
    qDebug cfg s "Qtilities Logging Framework, initialization finished successfully..."

/-- The function `Logger::finalize` (lines 139-145); `file_open` is the result of
opening the default configuration file for writing.  The result is the state
and the bytes that `saveSessionConfig` wrote, if it was called. -/
def finalize (cfg : Build) (s : Logger) (file_open : Bool) : Logger × List Nat :=
  if s.remember_session_config = true then
    let r := saveSessionConfig cfg s "" file_open
    (clear cfg r.1, r.2.2)
  else (clear cfg s, [])

end Logger

/-! ## The convenience function for file engines -/

/-- Modelled from the spec: what `newFileEngine` uses of the class `FileLoggerEngine`
(`FileLoggerEngine.h` is not among the sources): whether
`qobject_cast<FileLoggerEngine*>` succeeds on an object, and what
`setFileName(file_name)` makes of the data of the engine. -/
structure FileLoggerEngine where
  is_instance : EngineObj → Bool
  setFileName : EngineData → String → EngineData

/-- The characters after the last occurrence of `sep` (all of them when there is
none), as `split(sep).last()` gives them; `acc` is the segment read so far. -/
def last_segment (sep : Char) : List Char → List Char → List Char
  | acc, [] => acc
  | acc, c :: cs => if c = sep then last_segment sep [] cs else last_segment sep (acc ++ [c]) cs

/-- The expression `fi.fileName().split(".").last()` of line 608: `QFileInfo::fileName`
is the part of the path after the last `/`. -/
def file_extension (file_name : String) : String :=
  String.mk (last_segment '.' [] (last_segment '/' [] file_name.data))

namespace Logger

/-- The function `Logger::formattingEngineReferenceFromExtension` (lines 256-262). -/
def formattingEngineReferenceFromExtension (s : Logger) (file_extension : String) : Nat :=
  match s.formatting_engines.find?
      (fun f => decide (file_extension = (s.formatters f).fileExtension)) with
  | some f => f
  | none => 0

/-- The function `Logger::newFileEngine` (lines 586-623).  The result is `none` where
the code calls a member function through a null pointer: `setObjectName` when
the factory constructs nothing for `"File"`, and `setFileName` when the
constructed object is not a `FileLoggerEngine`.  `setObjectName` sets what
`name()` returns. -/
def newFileEngine (cfg : Build) (api : FileLoggerEngine) (s : Logger)
    (engine_name file_name formatting_engine : String) : Option (Logger × Bool) :=
  if file_name = "" then some (s, false)
  else
    let c := s.createInstance "File"
    let s := c.1
    let new_engine := c.2
    if new_engine = 0 then none
    else
      let s := s.setData new_engine { (s.engines new_engine).data with name := engine_name }
      if api.is_instance (s.engines new_engine) = false then none
      else
        let s := s.setData new_engine (api.setFileName (s.engines new_engine).data file_name)
        let r : Logger × Bool :=
          if s.formattingEngineReference formatting_engine ≠ 0 then
            let formatting_engine_inst := s.formattingEngineReference formatting_engine
            if formatting_engine_inst = 0 then (s.delete_engine new_engine, false)
            else (s.installFormattingEngine new_engine formatting_engine_inst, true)
          else
            let extension := file_extension file_name
            let formatting_engine_inst := s.formattingEngineReferenceFromExtension extension
            if formatting_engine_inst = 0 then (s.delete_engine new_engine, false)
            else (s.installFormattingEngine new_engine formatting_engine_inst, true)
        if r.2 = false then some r
        else
          let a := r.1.attachLoggerEngine cfg new_engine true
          if a.2 = true then some (a.1, true)
          else some (a.1.delete_engine new_engine, false)

end Logger

namespace Logger

/-- The mapping from an engine name to the name of the formatting engine and the
activity of the attached engine of that name (the one that
`loggerEngineReference` finds), `none` when no engine of that name is
attached. -/
def engine_properties (s : Logger) (name : String) : Option (String × Bool) :=
  if s.loggerEngineReference name = 0 then none
  else some (s.formattingEngineName (s.loggerEngineReference name),
    (s.engines (s.loggerEngineReference name)).data.active)

/-- The bytes of the record that `saveSessionConfig` writes for an exportable engine:
its factory tag and what its `exportBinary` writes. -/
def record_bytes (o : EngineObj) : List Nat :=
  putString (o.cls.factoryTag o.data) ++ (o.cls.exportBinary o.data).1

/-- The bytes that `saveSessionConfig` writes for the properties of an engine. -/
def properties_bytes (t : String × String × Bool) : List Nat :=
  putString t.1 ++ putString t.2.1 ++ putBool t.2.2

/-- An engine object for which `initialize()`, when `attachLoggerEngine` runs it by
default, succeeds and keeps the name. -/
def InitializeOk (cfg : Build) (o : EngineObj) : Prop :=
  cfg.attach_initialize_engine_default = true →
    (o.cls.initializeEngine o.data).2 = true ∧
    (o.cls.initializeEngine o.data).1.name = o.data.name

/-- The export and import capabilities are mutually inverse for the engine object
`o` with the factory `F`: the factory constructs an exportable engine for the
tag of `o`, and its `importBinary` consumes exactly the bytes that the
`exportBinary` of `o` wrote, restores the name of `o`, and leaves an engine
whose `initialize()` succeeds. -/
def Reimports (cfg : Build) (F : String → Option EngineObj) (o : EngineObj) : Prop :=
  QStringOk (o.cls.factoryTag o.data) ∧
  ∃ obj : EngineObj, F (o.cls.factoryTag o.data) = some obj ∧ obj.cls.exportable = true ∧
    ∀ rest : List Nat,
      (obj.cls.importBinary obj.data ((o.cls.exportBinary o.data).1 ++ rest)).2.1 = rest ∧
      (obj.cls.importBinary obj.data ((o.cls.exportBinary o.data).1 ++ rest)).1.name =
        o.data.name ∧
      InitializeOk cfg
        ⟨obj.cls, (obj.cls.importBinary obj.data ((o.cls.exportBinary o.data).1 ++ rest)).1⟩

/-- The state `s'` extends `s`: the live list, the threshold, the deletions, the
connections, the registries and every object allocated in `s` are the same;
only new objects may have been allocated (and signals emitted). -/
def Frame (s s' : Logger) : Prop :=
  s'.logger_engines = s.logger_engines ∧
  s'.global_log_level = s.global_log_level ∧
  s'.deleted_engines = s.deleted_engines ∧
  s'.connections = s.connections ∧
  s'.formatting_engines = s.formatting_engines ∧
  s'.formatters = s.formatters ∧
  s'.logger_engine_factory = s.logger_engine_factory ∧
  s.next_engine ≤ s'.next_engine ∧
  ∀ p, p < s.next_engine → s'.engines p = s.engines p

/-- The step from `s` to `s'` keeps the engine `p` attached if it was, and does not
delete it. -/
def Keeps (p : Nat) (s s' : Logger) : Prop :=
  (p ∈ s.logger_engines → p ∈ s'.logger_engines) ∧
  (p ∈ s'.deleted_engines → p ∈ s.deleted_engines)

/-- The step from `s` to `s'` allocates, attaches, detaches and deletes nothing and
keeps the class of every object and the two singleton pointers. -/
def Quiet (s s' : Logger) : Prop :=
  s'.qtMsgLoggerEngine = s.qtMsgLoggerEngine ∧
  s'.consoleLoggerEngine = s.consoleLoggerEngine ∧
  s'.next_engine = s.next_engine ∧
  (∀ p, (s'.engines p).cls = (s.engines p).cls) ∧
  s'.logger_engines = s.logger_engines ∧
  s'.deleted_engines = s.deleted_engines

/-- Two states with the same factory and the same object store. -/
def SameStore (s s' : Logger) : Prop :=
  s'.logger_engine_factory = s.logger_engine_factory ∧
  s'.engines = s.engines ∧
  s'.next_engine = s.next_engine

end Logger

/-! ## Example world

A small concrete world, used to evaluate the definitions: one formatting
engine, a console-like engine class without the export capability and a
file-like engine class with it. -/

/-- A formatting engine that renders the level rank and the first part. -/
def exampleFormatter : FormattingEngine where
  name := "Default"
  fileExtension := "log"
  formatMessage := fun t parts => toString t.toNat ++ ":" ++ (parts.headD QVariant.null).toString

/-- An engine class without the export capability whose `initialize()` succeeds. -/
def plainClass : EngineClass where
  exportable := false
  initializeEngine := fun d => (d, true)
  factoryTag := fun _ => ""
  exportBinary := fun _ => ([], false)
  importBinary := fun d stream => (d, stream, false)

/-- An engine class with the export capability: it exports its name and its private
bytes, and imports them again. -/
def fileClass : EngineClass where
  exportable := true
  initializeEngine := fun d => (d, true)
  factoryTag := fun _ => "File"
  exportBinary := fun d => (putString d.name ++ putU32 d.priv.length ++ d.priv, true)
  importBinary := fun d stream =>
    let n := getString stream
    let k := getU32 n.2
    ({ d with name := n.1, priv := k.2.take k.1 }, k.2.drop k.1, true)

/-- An engine class with the export capability whose `importBinary` reads nothing
and reports failure. -/
def brokenClass : EngineClass where
  exportable := true
  initializeEngine := fun d => (d, true)
  factoryTag := fun _ => "Broken"
  exportBinary := fun _ => ([], true)
  importBinary := fun d stream => (d, stream, false)

/-- An engine class with the export capability whose `initialize()` fails. -/
def failingInitClass : EngineClass where
  exportable := true
  initializeEngine := fun d => (d, false)
  factoryTag := fun _ => "NoInit"
  exportBinary := fun _ => ([], true)
  importBinary := fun d stream => (d, stream, true)

/-- A build in debug mode with format version `1`. -/
def exampleBuild : Build where
  QT_NO_DEBUG := false
  QTILITIES_LOGGER_BINARY_EXPORT_FORMAT := 1
  PATH_LOG_LAST_CONFIG := "/last.logconfig"
  applicationDirPath := "/app"
  attach_initialize_engine_default := false

/-- A logger with a console engine (pointer `1`, inactive) and a file engine
(pointer `2`, active) attached, threshold `Warning`. -/
def exampleLogger : Logger where
  logger_engine_factory := fun tag =>
    if tag = "File" then some ⟨fileClass, ⟨"", false, 0, []⟩⟩
    else if tag = "Broken" then some ⟨brokenClass, ⟨"Broken1", false, 0, []⟩⟩
    else none
  logger_engines := [1, 2]
  formatting_engines := [1]
  default_formatting_engine := "Default"
  global_log_level := 2
  initialized := true
  is_qt_message_handler := false
  remember_session_config := false
  priority_formatting_engine := 0
  engines := fun p =>
    if p = 2 then ⟨fileClass, ⟨"File1", true, 1, [7, 8]⟩⟩
    else ⟨plainClass, ⟨"Console", false, 1, []⟩⟩
  next_engine := 3
  deleted_engines := []
  formatters := fun _ => exampleFormatter
  deleted_formatters := []
  qtMsgLoggerEngine := 0
  consoleLoggerEngine := 1
  connections := [1, 2]
  newMessage := []
  delivered := []
  newPriorityMessage := []
  loggerEngineCountChanged := []
  settings := none

/-- A file whose version is right and whose leading marker has its first byte
flipped (`0xFB` for `0xFA`). -/
def badMarkerFile : List Nat :=
  putU32 1 ++ [0xFB, 0xC0, 0x00, 0x0F] ++ putU32 5 ++ putU32 0 ++ putU32 0 ++
    putU32 MARKER_LOGGER_CONFIG_TAG

/-- A file with a good header and one record whose tag no factory knows. -/
def unknownTagFile : List Nat :=
  putU32 1 ++ putU32 MARKER_LOGGER_CONFIG_TAG ++ putU32 5 ++ putU32 1 ++ putString "Nope" ++
    putU32 0 ++ putU32 MARKER_LOGGER_CONFIG_TAG

/-- A well-formed file (threshold `Debug`) with one record of the class whose
`importBinary` reports failure, no properties, and the trailing marker. -/
def brokenImportFile : List Nat :=
  putU32 1 ++ putU32 MARKER_LOGGER_CONFIG_TAG ++ putU32 5 ++ putU32 1 ++ putString "Broken" ++
    putU32 0 ++ putU32 MARKER_LOGGER_CONFIG_TAG

/-- A file (threshold `Debug`) with no record and no properties that ends before
the trailing marker. -/
def missingTrailerFile : List Nat :=
  putU32 1 ++ putU32 MARKER_LOGGER_CONFIG_TAG ++ putU32 5 ++ putU32 0 ++ putU32 0

/-- The same file with a `quint32` other than the marker where the trailing marker
belongs. -/
def wrongTrailerFile : List Nat :=
  missingTrailerFile ++ putU32 0xDEADBEEF

/-- The example build with the other default for `initialize_engine`. -/
def exampleBuildInit : Build :=
  { exampleBuild with attach_initialize_engine_default := true }

/-- The example logger with a factory that also constructs engines of the class whose
`initialize()` fails. -/
def exampleLoggerNoInit : Logger :=
  { exampleLogger with
    logger_engine_factory := fun tag =>
      if tag = "NoInit" then some ⟨failingInitClass, ⟨"NoInit1", false, 0, []⟩⟩
      else exampleLogger.logger_engine_factory tag }

/-- A well-formed file (threshold `Debug`) with one record of the class whose
`initialize()` fails. -/
def noInitFile : List Nat :=
  putU32 1 ++ putU32 MARKER_LOGGER_CONFIG_TAG ++ putU32 5 ++ putU32 1 ++ putString "NoInit" ++
    putU32 0 ++ putU32 MARKER_LOGGER_CONFIG_TAG

/-- An engine class with the export capability whose `exportBinary` writes one byte
and reports failure. -/
def failingExportClass : EngineClass where
  exportable := true
  initializeEngine := fun d => (d, true)
  factoryTag := fun _ => "NoExport"
  exportBinary := fun _ => ([9], false)
  importBinary := fun d stream => (d, stream, true)

/-- A logger with four engines attached: a console engine (`1`), a file engine (`2`),
an engine whose export fails (`4`) and another file engine (`5`). -/
def exampleLoggerExportFails : Logger :=
  { exampleLogger with
    logger_engines := [1, 2, 4, 5]
    connections := [1, 2, 4, 5]
    engines := fun p =>
      if p = 2 then ⟨fileClass, ⟨"File1", true, 1, [7, 8]⟩⟩
      else if p = 4 then ⟨failingExportClass, ⟨"Bad", true, 1, []⟩⟩
      else if p = 5 then ⟨fileClass, ⟨"File2", false, 1, []⟩⟩
      else ⟨plainClass, ⟨"Console", false, 1, []⟩⟩
    next_engine := 6 }

/-- A file with a good header and three records: two of the file-like class and one
whose tag no factory knows. -/
def twoThenUnknownFile : List Nat :=
  putU32 1 ++ putU32 MARKER_LOGGER_CONFIG_TAG ++ putU32 5 ++ putU32 3 ++
    putString "File" ++ (putString "A" ++ putU32 0) ++
    putString "File" ++ (putString "B" ++ putU32 0) ++
    putString "Nope" ++
    putU32 0 ++ putU32 MARKER_LOGGER_CONFIG_TAG

/-- A well-formed file (threshold `Debug`) with two records of the file-like class, no
properties and the trailing marker. -/
def twoRecordsFile : List Nat :=
  putU32 1 ++ putU32 MARKER_LOGGER_CONFIG_TAG ++ putU32 5 ++ putU32 2 ++
    putString "File" ++ (putString "A" ++ putU32 0) ++
    putString "File" ++ (putString "B" ++ putU32 0) ++
    putU32 0 ++ putU32 MARKER_LOGGER_CONFIG_TAG

/-- The example logger after two more engines were constructed and not yet attached:
object `3` of the class whose `initialize()` fails and object `4` of the file-like
class. -/
def exampleLoggerWithNew : Logger :=
  { exampleLogger with
    engines := fun p =>
      if p = 2 then ⟨fileClass, ⟨"File1", true, 1, [7, 8]⟩⟩
      else if p = 3 then ⟨failingInitClass, ⟨"New1", false, 1, []⟩⟩
      else if p = 4 then ⟨fileClass, ⟨"New2", false, 1, []⟩⟩
      else ⟨plainClass, ⟨"Console", false, 1, []⟩⟩
    next_engine := 5 }

/-- The singletons and constants of an example process whose default configuration
file does not exist. -/
def exampleStartup : Startup where
  FormattingEngine_Default := 1
  FormattingEngine_Rich_Text := 2
  FormattingEngine_XML := 3
  FormattingEngine_HTML := 4
  FormattingEngine_QtMsgEngineFormat := 5
  FORMATTING_ENGINE_DEFAULT := "Default"
  TAG_LOGGER_ENGINE_FILE := "File"
  FileLoggerEngine_factory := ⟨fileClass, ⟨"", false, 0, []⟩⟩
  application_details_unset := false
  last_config_file := []

/-- A logger as its constructor leaves it (lines 79-88), in a process whose Qt
message engine is the object `1` and whose console engine is the object `2`. -/
def exampleFreshLogger : Logger where
  logger_engine_factory := fun _ => none
  logger_engines := []
  formatting_engines := []
  default_formatting_engine := "Uninitialized"
  global_log_level := MessageType.Debug.toNat
  initialized := false
  is_qt_message_handler := false
  remember_session_config := false
  priority_formatting_engine := 0
  engines := fun p =>
    if p = 1 then ⟨plainClass, ⟨"Qt Message", true, 0, []⟩⟩
    else ⟨plainClass, ⟨"Console", true, 0, []⟩⟩
  next_engine := 3
  deleted_engines := []
  formatters := fun _ => exampleFormatter
  deleted_formatters := []
  qtMsgLoggerEngine := 1
  consoleLoggerEngine := 2
  connections := []
  newMessage := []
  delivered := []
  newPriorityMessage := []
  loggerEngineCountChanged := []
  settings := none

/-- An example of the parts of `FileLoggerEngine`: every object is one, and
`setFileName` keeps the file name as the private bytes of the engine. -/
def exampleFileApi : FileLoggerEngine where
  is_instance := fun _ => true
  setFileName := fun d file_name => { d with priv := putString file_name }

/-- The example logger with a factory whose file engines fail to initialize (as when
the log file cannot be opened). -/
def exampleLoggerFileFails : Logger :=
  { exampleLogger with
    logger_engine_factory := fun tag =>
      if tag = "File" then some ⟨failingInitClass, ⟨"", false, 0, []⟩⟩ else none }

/-! ## Theorems: message dispatch -/

namespace Logger

theorem message_contents_eq (message msg1 msg2 msg3 msg4 msg5 msg6 msg7 msg8 msg9 : QVariant) :
    message_contents message msg1 msg2 msg3 msg4 msg5 msg6 msg7 msg8 msg9 =
      message :: [msg1, msg2, msg3, msg4, msg5, msg6, msg7, msg8, msg9].filter
        (fun v => !v.isNull) := by
  unfold message_contents push_back_unless_null
  cases h1 : msg1.isNull <;> cases h2 : msg2.isNull <;> cases h3 : msg3.isNull <;>
  cases h4 : msg4.isNull <;> cases h5 : msg5.isNull <;> cases h6 : msg6.isNull <;>
  cases h7 : msg7.isNull <;> cases h8 : msg8.isNull <;> cases h9 : msg9.isNull <;>
  simp [List.filter, h1, h2, h3, h4, h5, h6, h7, h8, h9]

theorem logMessage_of_passes (cfg : Build) (s : Logger) (engine_name : String)
    (t : MessageType) (message msg1 msg2 msg3 msg4 msg5 msg6 msg7 msg8 msg9 : QVariant)
    (h : passes_guards cfg s t) :
    logMessage cfg s engine_name t message msg1 msg2 msg3 msg4 msg5 msg6 msg7 msg8 msg9 =
      s.emit_newMessage ⟨engine_name, t,
        message_contents message msg1 msg2 msg3 msg4 msg5 msg6 msg7 msg8 msg9⟩ := by
  obtain ⟨h1, h2, h3⟩ := h
  unfold logMessage
  rw [if_neg h1, if_neg h2, if_neg h3]

theorem logMessage_of_not_passes (cfg : Build) (s : Logger) (engine_name : String)
    (t : MessageType) (message msg1 msg2 msg3 msg4 msg5 msg6 msg7 msg8 msg9 : QVariant)
    (h : ¬ passes_guards cfg s t) :
    logMessage cfg s engine_name t message msg1 msg2 msg3 msg4 msg5 msg6 msg7 msg8 msg9 = s := by
  unfold logMessage
  unfold passes_guards at h
  split_ifs with h1 h2 h3
  · rfl
  · rfl
  · rfl
  · exact absurd ⟨h1, h2, h3⟩ h

theorem passes_guards_iff (cfg : Build) (s : Logger) (t : MessageType)
    (hbuild : cfg.QT_NO_DEBUG = false) :
    passes_guards cfg s t ↔
      (t.toNat ≤ s.global_log_level ∧ t ≠ .None ∧ t ≠ .AllLogLevels) := by
  unfold passes_guards
  simp only [hbuild, Bool.false_eq_true, false_and, not_false_eq_true, true_and, not_or,
    gt_iff_lt, not_lt]
  tauto

theorem observed_emit_newMessage (s : Logger) (m : Message) (p : Nat) :
    (s.emit_newMessage m).observed p = s.observed p ++ List.replicate (s.connections.count p) m := by
  unfold observed emit_newMessage
  simp only [List.filter_append, List.map_append, List.append_cancel_left_eq]
  induction s.connections with
  | nil => simp
  | cons q qs ih =>
    by_cases hq : q = p
    · subst hq
      simp only [List.map_cons, decide_True, List.filter_cons_of_pos, List.count_cons_self,
        List.replicate_succ, ih]
    · have hne : (q == p) = false := by simpa using hq
      simp [List.filter_cons, hq, List.count_cons, hne, ih]

theorem logMessageParts_of_passes (cfg : Build) (s : Logger) (engine_name : String)
    (t : MessageType) (part : Fin 10 → QVariant) (h : passes_guards cfg s t) :
    logMessageParts cfg s engine_name t part =
      s.emit_newMessage (partsMessage engine_name t part) := by
  unfold logMessageParts partsMessage
  exact logMessage_of_passes cfg s engine_name t _ _ _ _ _ _ _ _ _ _ h

theorem logMessageParts_of_not_passes (cfg : Build) (s : Logger) (engine_name : String)
    (t : MessageType) (part : Fin 10 → QVariant) (h : ¬ passes_guards cfg s t) :
    logMessageParts cfg s engine_name t part = s := by
  unfold logMessageParts
  exact logMessage_of_not_passes cfg s engine_name t _ _ _ _ _ _ _ _ _ _ h

theorem four_submissions_eq (cfg : Build) (s : Logger) (n1 n2 n3 n4 : String)
    (part1 part2 part3 part4 : Fin 10 → QVariant)
    (hT : s.global_log_level = MessageType.Warning.toNat) :
    four_submissions cfg s n1 n2 n3 n4 part1 part2 part3 part4 =
      (s.emit_newMessage (partsMessage n1 .Info part1)).emit_newMessage
        (partsMessage n2 .Warning part2) := by
  have h1 : passes_guards cfg s .Info := by
    unfold passes_guards
    rw [hT]
    simp [MessageType.toNat]
  have h2 : passes_guards cfg (s.emit_newMessage (partsMessage n1 .Info part1)) .Warning := by
    unfold passes_guards
    show _ ∧ _ ∧ ¬ (MessageType.Warning.toNat > s.global_log_level)
    rw [hT]
    simp
  have h3 : ¬ passes_guards cfg ((s.emit_newMessage (partsMessage n1 .Info part1)).emit_newMessage
      (partsMessage n2 .Warning part2)) .Error := by
    unfold passes_guards
    intro h
    apply h.2.2
    show MessageType.Error.toNat > s.global_log_level
    rw [hT]
    simp [MessageType.toNat]
  have h4 : ¬ passes_guards cfg ((s.emit_newMessage (partsMessage n1 .Info part1)).emit_newMessage
      (partsMessage n2 .Warning part2)) .Debug := by
    unfold passes_guards
    intro h
    apply h.2.2
    show MessageType.Debug.toNat > s.global_log_level
    rw [hT]
    simp [MessageType.toNat]
  unfold four_submissions
  rw [logMessageParts_of_passes cfg s n1 .Info part1 h1,
    logMessageParts_of_passes cfg _ n2 .Warning part2 h2,
    logMessageParts_of_not_passes cfg _ n3 .Error part3 h3,
    logMessageParts_of_not_passes cfg _ n4 .Debug part4 h4]

theorem logPriorityMessage_of_passes (cfg : Build) (s : Logger) (engine_name : String)
    (t : MessageType) (message msg1 msg2 msg3 msg4 msg5 msg6 msg7 msg8 msg9 : QVariant)
    (h : passes_guards cfg s t) :
    logPriorityMessage cfg s engine_name t message msg1 msg2 msg3 msg4 msg5 msg6 msg7 msg8 msg9 =
      (s.emit_newMessage ⟨engine_name, t,
        message_contents message msg1 msg2 msg3 msg4 msg5 msg6 msg7 msg8 msg9⟩).emit_newPriorityMessage
        t (if s.priority_formatting_engine ≠ 0 then
            (s.formatters s.priority_formatting_engine).formatMessage t
              (message_contents message msg1 msg2 msg3 msg4 msg5 msg6 msg7 msg8 msg9)
          else message.toString) := by
  obtain ⟨h1, h2, h3⟩ := h
  unfold logPriorityMessage
  rw [if_neg h1, if_neg h2, if_neg h3]
  rfl

theorem logPriorityMessage_of_not_passes (cfg : Build) (s : Logger) (engine_name : String)
    (t : MessageType) (message msg1 msg2 msg3 msg4 msg5 msg6 msg7 msg8 msg9 : QVariant)
    (h : ¬ passes_guards cfg s t) :
    logPriorityMessage cfg s engine_name t message msg1 msg2 msg3 msg4 msg5 msg6 msg7 msg8 msg9
      = s := by
  unfold logPriorityMessage
  unfold passes_guards at h
  split_ifs with h1 h2 h3
  · rfl
  · rfl
  · rfl
  · exact absurd ⟨h1, h2, h3⟩ h

end Logger

/-! ## Theorems: what the diagnostics leave alone -/

namespace Logger

@[simp] theorem logMessage_logger_engine_factory (cfg : Build) (s : Logger) (engine_name : String)
    (t : MessageType) (m m1 m2 m3 m4 m5 m6 m7 m8 m9 : QVariant) :
    (logMessage cfg s engine_name t m m1 m2 m3 m4 m5 m6 m7 m8 m9).logger_engine_factory = s.logger_engine_factory := by
  unfold logMessage
  split_ifs <;> rfl

@[simp] theorem logMessage_logger_engines (cfg : Build) (s : Logger) (engine_name : String)
    (t : MessageType) (m m1 m2 m3 m4 m5 m6 m7 m8 m9 : QVariant) :
    (logMessage cfg s engine_name t m m1 m2 m3 m4 m5 m6 m7 m8 m9).logger_engines = s.logger_engines := by
  unfold logMessage
  split_ifs <;> rfl

@[simp] theorem logMessage_formatting_engines (cfg : Build) (s : Logger) (engine_name : String)
    (t : MessageType) (m m1 m2 m3 m4 m5 m6 m7 m8 m9 : QVariant) :
    (logMessage cfg s engine_name t m m1 m2 m3 m4 m5 m6 m7 m8 m9).formatting_engines = s.formatting_engines := by
  unfold logMessage
  split_ifs <;> rfl

@[simp] theorem logMessage_default_formatting_engine (cfg : Build) (s : Logger) (engine_name : String)
    (t : MessageType) (m m1 m2 m3 m4 m5 m6 m7 m8 m9 : QVariant) :
    (logMessage cfg s engine_name t m m1 m2 m3 m4 m5 m6 m7 m8 m9).default_formatting_engine = s.default_formatting_engine := by
  unfold logMessage
  split_ifs <;> rfl

@[simp] theorem logMessage_global_log_level (cfg : Build) (s : Logger) (engine_name : String)
    (t : MessageType) (m m1 m2 m3 m4 m5 m6 m7 m8 m9 : QVariant) :
    (logMessage cfg s engine_name t m m1 m2 m3 m4 m5 m6 m7 m8 m9).global_log_level = s.global_log_level := by
  unfold logMessage
  split_ifs <;> rfl

@[simp] theorem logMessage_initialized (cfg : Build) (s : Logger) (engine_name : String)
    (t : MessageType) (m m1 m2 m3 m4 m5 m6 m7 m8 m9 : QVariant) :
    (logMessage cfg s engine_name t m m1 m2 m3 m4 m5 m6 m7 m8 m9).initialized = s.initialized := by
  unfold logMessage
  split_ifs <;> rfl

@[simp] theorem logMessage_is_qt_message_handler (cfg : Build) (s : Logger) (engine_name : String)
    (t : MessageType) (m m1 m2 m3 m4 m5 m6 m7 m8 m9 : QVariant) :
    (logMessage cfg s engine_name t m m1 m2 m3 m4 m5 m6 m7 m8 m9).is_qt_message_handler = s.is_qt_message_handler := by
  unfold logMessage
  split_ifs <;> rfl

@[simp] theorem logMessage_remember_session_config (cfg : Build) (s : Logger) (engine_name : String)
    (t : MessageType) (m m1 m2 m3 m4 m5 m6 m7 m8 m9 : QVariant) :
    (logMessage cfg s engine_name t m m1 m2 m3 m4 m5 m6 m7 m8 m9).remember_session_config = s.remember_session_config := by
  unfold logMessage
  split_ifs <;> rfl

@[simp] theorem logMessage_priority_formatting_engine (cfg : Build) (s : Logger) (engine_name : String)
    (t : MessageType) (m m1 m2 m3 m4 m5 m6 m7 m8 m9 : QVariant) :
    (logMessage cfg s engine_name t m m1 m2 m3 m4 m5 m6 m7 m8 m9).priority_formatting_engine = s.priority_formatting_engine := by
  unfold logMessage
  split_ifs <;> rfl

@[simp] theorem logMessage_engines (cfg : Build) (s : Logger) (engine_name : String)
    (t : MessageType) (m m1 m2 m3 m4 m5 m6 m7 m8 m9 : QVariant) :
    (logMessage cfg s engine_name t m m1 m2 m3 m4 m5 m6 m7 m8 m9).engines = s.engines := by
  unfold logMessage
  split_ifs <;> rfl

@[simp] theorem logMessage_next_engine (cfg : Build) (s : Logger) (engine_name : String)
    (t : MessageType) (m m1 m2 m3 m4 m5 m6 m7 m8 m9 : QVariant) :
    (logMessage cfg s engine_name t m m1 m2 m3 m4 m5 m6 m7 m8 m9).next_engine = s.next_engine := by
  unfold logMessage
  split_ifs <;> rfl

@[simp] theorem logMessage_deleted_engines (cfg : Build) (s : Logger) (engine_name : String)
    (t : MessageType) (m m1 m2 m3 m4 m5 m6 m7 m8 m9 : QVariant) :
    (logMessage cfg s engine_name t m m1 m2 m3 m4 m5 m6 m7 m8 m9).deleted_engines = s.deleted_engines := by
  unfold logMessage
  split_ifs <;> rfl

@[simp] theorem logMessage_formatters (cfg : Build) (s : Logger) (engine_name : String)
    (t : MessageType) (m m1 m2 m3 m4 m5 m6 m7 m8 m9 : QVariant) :
    (logMessage cfg s engine_name t m m1 m2 m3 m4 m5 m6 m7 m8 m9).formatters = s.formatters := by
  unfold logMessage
  split_ifs <;> rfl

@[simp] theorem logMessage_deleted_formatters (cfg : Build) (s : Logger) (engine_name : String)
    (t : MessageType) (m m1 m2 m3 m4 m5 m6 m7 m8 m9 : QVariant) :
    (logMessage cfg s engine_name t m m1 m2 m3 m4 m5 m6 m7 m8 m9).deleted_formatters = s.deleted_formatters := by
  unfold logMessage
  split_ifs <;> rfl

@[simp] theorem logMessage_qtMsgLoggerEngine (cfg : Build) (s : Logger) (engine_name : String)
    (t : MessageType) (m m1 m2 m3 m4 m5 m6 m7 m8 m9 : QVariant) :
    (logMessage cfg s engine_name t m m1 m2 m3 m4 m5 m6 m7 m8 m9).qtMsgLoggerEngine = s.qtMsgLoggerEngine := by
  unfold logMessage
  split_ifs <;> rfl

@[simp] theorem logMessage_consoleLoggerEngine (cfg : Build) (s : Logger) (engine_name : String)
    (t : MessageType) (m m1 m2 m3 m4 m5 m6 m7 m8 m9 : QVariant) :
    (logMessage cfg s engine_name t m m1 m2 m3 m4 m5 m6 m7 m8 m9).consoleLoggerEngine = s.consoleLoggerEngine := by
  unfold logMessage
  split_ifs <;> rfl

@[simp] theorem logMessage_connections (cfg : Build) (s : Logger) (engine_name : String)
    (t : MessageType) (m m1 m2 m3 m4 m5 m6 m7 m8 m9 : QVariant) :
    (logMessage cfg s engine_name t m m1 m2 m3 m4 m5 m6 m7 m8 m9).connections = s.connections := by
  unfold logMessage
  split_ifs <;> rfl

@[simp] theorem logMessage_newPriorityMessage (cfg : Build) (s : Logger) (engine_name : String)
    (t : MessageType) (m m1 m2 m3 m4 m5 m6 m7 m8 m9 : QVariant) :
    (logMessage cfg s engine_name t m m1 m2 m3 m4 m5 m6 m7 m8 m9).newPriorityMessage = s.newPriorityMessage := by
  unfold logMessage
  split_ifs <;> rfl

@[simp] theorem logMessage_loggerEngineCountChanged (cfg : Build) (s : Logger) (engine_name : String)
    (t : MessageType) (m m1 m2 m3 m4 m5 m6 m7 m8 m9 : QVariant) :
    (logMessage cfg s engine_name t m m1 m2 m3 m4 m5 m6 m7 m8 m9).loggerEngineCountChanged = s.loggerEngineCountChanged := by
  unfold logMessage
  split_ifs <;> rfl

@[simp] theorem logMessage_settings (cfg : Build) (s : Logger) (engine_name : String)
    (t : MessageType) (m m1 m2 m3 m4 m5 m6 m7 m8 m9 : QVariant) :
    (logMessage cfg s engine_name t m m1 m2 m3 m4 m5 m6 m7 m8 m9).settings = s.settings := by
  unfold logMessage
  split_ifs <;> rfl

@[simp] theorem LOG_ERROR_logger_engine_factory (cfg : Build) (s : Logger) (text : String) :
    (LOG_ERROR cfg s text).logger_engine_factory = s.logger_engine_factory := by
  unfold LOG_ERROR
  exact logMessage_logger_engine_factory cfg s _ _ _ _ _ _ _ _ _ _ _ _

@[simp] theorem LOG_ERROR_logger_engines (cfg : Build) (s : Logger) (text : String) :
    (LOG_ERROR cfg s text).logger_engines = s.logger_engines := by
  unfold LOG_ERROR
  exact logMessage_logger_engines cfg s _ _ _ _ _ _ _ _ _ _ _ _

@[simp] theorem LOG_ERROR_formatting_engines (cfg : Build) (s : Logger) (text : String) :
    (LOG_ERROR cfg s text).formatting_engines = s.formatting_engines := by
  unfold LOG_ERROR
  exact logMessage_formatting_engines cfg s _ _ _ _ _ _ _ _ _ _ _ _

@[simp] theorem LOG_ERROR_default_formatting_engine (cfg : Build) (s : Logger) (text : String) :
    (LOG_ERROR cfg s text).default_formatting_engine = s.default_formatting_engine := by
  unfold LOG_ERROR
  exact logMessage_default_formatting_engine cfg s _ _ _ _ _ _ _ _ _ _ _ _

@[simp] theorem LOG_ERROR_global_log_level (cfg : Build) (s : Logger) (text : String) :
    (LOG_ERROR cfg s text).global_log_level = s.global_log_level := by
  unfold LOG_ERROR
  exact logMessage_global_log_level cfg s _ _ _ _ _ _ _ _ _ _ _ _

@[simp] theorem LOG_ERROR_initialized (cfg : Build) (s : Logger) (text : String) :
    (LOG_ERROR cfg s text).initialized = s.initialized := by
  unfold LOG_ERROR
  exact logMessage_initialized cfg s _ _ _ _ _ _ _ _ _ _ _ _

@[simp] theorem LOG_ERROR_is_qt_message_handler (cfg : Build) (s : Logger) (text : String) :
    (LOG_ERROR cfg s text).is_qt_message_handler = s.is_qt_message_handler := by
  unfold LOG_ERROR
  exact logMessage_is_qt_message_handler cfg s _ _ _ _ _ _ _ _ _ _ _ _

@[simp] theorem LOG_ERROR_remember_session_config (cfg : Build) (s : Logger) (text : String) :
    (LOG_ERROR cfg s text).remember_session_config = s.remember_session_config := by
  unfold LOG_ERROR
  exact logMessage_remember_session_config cfg s _ _ _ _ _ _ _ _ _ _ _ _

@[simp] theorem LOG_ERROR_priority_formatting_engine (cfg : Build) (s : Logger) (text : String) :
    (LOG_ERROR cfg s text).priority_formatting_engine = s.priority_formatting_engine := by
  unfold LOG_ERROR
  exact logMessage_priority_formatting_engine cfg s _ _ _ _ _ _ _ _ _ _ _ _

@[simp] theorem LOG_ERROR_engines (cfg : Build) (s : Logger) (text : String) :
    (LOG_ERROR cfg s text).engines = s.engines := by
  unfold LOG_ERROR
  exact logMessage_engines cfg s _ _ _ _ _ _ _ _ _ _ _ _

@[simp] theorem LOG_ERROR_next_engine (cfg : Build) (s : Logger) (text : String) :
    (LOG_ERROR cfg s text).next_engine = s.next_engine := by
  unfold LOG_ERROR
  exact logMessage_next_engine cfg s _ _ _ _ _ _ _ _ _ _ _ _

@[simp] theorem LOG_ERROR_deleted_engines (cfg : Build) (s : Logger) (text : String) :
    (LOG_ERROR cfg s text).deleted_engines = s.deleted_engines := by
  unfold LOG_ERROR
  exact logMessage_deleted_engines cfg s _ _ _ _ _ _ _ _ _ _ _ _

@[simp] theorem LOG_ERROR_formatters (cfg : Build) (s : Logger) (text : String) :
    (LOG_ERROR cfg s text).formatters = s.formatters := by
  unfold LOG_ERROR
  exact logMessage_formatters cfg s _ _ _ _ _ _ _ _ _ _ _ _

@[simp] theorem LOG_ERROR_deleted_formatters (cfg : Build) (s : Logger) (text : String) :
    (LOG_ERROR cfg s text).deleted_formatters = s.deleted_formatters := by
  unfold LOG_ERROR
  exact logMessage_deleted_formatters cfg s _ _ _ _ _ _ _ _ _ _ _ _

@[simp] theorem LOG_ERROR_qtMsgLoggerEngine (cfg : Build) (s : Logger) (text : String) :
    (LOG_ERROR cfg s text).qtMsgLoggerEngine = s.qtMsgLoggerEngine := by
  unfold LOG_ERROR
  exact logMessage_qtMsgLoggerEngine cfg s _ _ _ _ _ _ _ _ _ _ _ _

@[simp] theorem LOG_ERROR_consoleLoggerEngine (cfg : Build) (s : Logger) (text : String) :
    (LOG_ERROR cfg s text).consoleLoggerEngine = s.consoleLoggerEngine := by
  unfold LOG_ERROR
  exact logMessage_consoleLoggerEngine cfg s _ _ _ _ _ _ _ _ _ _ _ _

@[simp] theorem LOG_ERROR_connections (cfg : Build) (s : Logger) (text : String) :
    (LOG_ERROR cfg s text).connections = s.connections := by
  unfold LOG_ERROR
  exact logMessage_connections cfg s _ _ _ _ _ _ _ _ _ _ _ _

@[simp] theorem LOG_ERROR_newPriorityMessage (cfg : Build) (s : Logger) (text : String) :
    (LOG_ERROR cfg s text).newPriorityMessage = s.newPriorityMessage := by
  unfold LOG_ERROR
  exact logMessage_newPriorityMessage cfg s _ _ _ _ _ _ _ _ _ _ _ _

@[simp] theorem LOG_ERROR_loggerEngineCountChanged (cfg : Build) (s : Logger) (text : String) :
    (LOG_ERROR cfg s text).loggerEngineCountChanged = s.loggerEngineCountChanged := by
  unfold LOG_ERROR
  exact logMessage_loggerEngineCountChanged cfg s _ _ _ _ _ _ _ _ _ _ _ _

@[simp] theorem LOG_ERROR_settings (cfg : Build) (s : Logger) (text : String) :
    (LOG_ERROR cfg s text).settings = s.settings := by
  unfold LOG_ERROR
  exact logMessage_settings cfg s _ _ _ _ _ _ _ _ _ _ _ _

@[simp] theorem LOG_INFO_logger_engine_factory (cfg : Build) (s : Logger) (text : String) :
    (LOG_INFO cfg s text).logger_engine_factory = s.logger_engine_factory := by
  unfold LOG_INFO
  exact logMessage_logger_engine_factory cfg s _ _ _ _ _ _ _ _ _ _ _ _

@[simp] theorem LOG_INFO_logger_engines (cfg : Build) (s : Logger) (text : String) :
    (LOG_INFO cfg s text).logger_engines = s.logger_engines := by
  unfold LOG_INFO
  exact logMessage_logger_engines cfg s _ _ _ _ _ _ _ _ _ _ _ _

@[simp] theorem LOG_INFO_formatting_engines (cfg : Build) (s : Logger) (text : String) :
    (LOG_INFO cfg s text).formatting_engines = s.formatting_engines := by
  unfold LOG_INFO
  exact logMessage_formatting_engines cfg s _ _ _ _ _ _ _ _ _ _ _ _

@[simp] theorem LOG_INFO_default_formatting_engine (cfg : Build) (s : Logger) (text : String) :
    (LOG_INFO cfg s text).default_formatting_engine = s.default_formatting_engine := by
  unfold LOG_INFO
  exact logMessage_default_formatting_engine cfg s _ _ _ _ _ _ _ _ _ _ _ _

@[simp] theorem LOG_INFO_global_log_level (cfg : Build) (s : Logger) (text : String) :
    (LOG_INFO cfg s text).global_log_level = s.global_log_level := by
  unfold LOG_INFO
  exact logMessage_global_log_level cfg s _ _ _ _ _ _ _ _ _ _ _ _

@[simp] theorem LOG_INFO_initialized (cfg : Build) (s : Logger) (text : String) :
    (LOG_INFO cfg s text).initialized = s.initialized := by
  unfold LOG_INFO
  exact logMessage_initialized cfg s _ _ _ _ _ _ _ _ _ _ _ _

@[simp] theorem LOG_INFO_is_qt_message_handler (cfg : Build) (s : Logger) (text : String) :
    (LOG_INFO cfg s text).is_qt_message_handler = s.is_qt_message_handler := by
  unfold LOG_INFO
  exact logMessage_is_qt_message_handler cfg s _ _ _ _ _ _ _ _ _ _ _ _

@[simp] theorem LOG_INFO_remember_session_config (cfg : Build) (s : Logger) (text : String) :
    (LOG_INFO cfg s text).remember_session_config = s.remember_session_config := by
  unfold LOG_INFO
  exact logMessage_remember_session_config cfg s _ _ _ _ _ _ _ _ _ _ _ _

@[simp] theorem LOG_INFO_priority_formatting_engine (cfg : Build) (s : Logger) (text : String) :
    (LOG_INFO cfg s text).priority_formatting_engine = s.priority_formatting_engine := by
  unfold LOG_INFO
  exact logMessage_priority_formatting_engine cfg s _ _ _ _ _ _ _ _ _ _ _ _

@[simp] theorem LOG_INFO_engines (cfg : Build) (s : Logger) (text : String) :
    (LOG_INFO cfg s text).engines = s.engines := by
  unfold LOG_INFO
  exact logMessage_engines cfg s _ _ _ _ _ _ _ _ _ _ _ _

@[simp] theorem LOG_INFO_next_engine (cfg : Build) (s : Logger) (text : String) :
    (LOG_INFO cfg s text).next_engine = s.next_engine := by
  unfold LOG_INFO
  exact logMessage_next_engine cfg s _ _ _ _ _ _ _ _ _ _ _ _

@[simp] theorem LOG_INFO_deleted_engines (cfg : Build) (s : Logger) (text : String) :
    (LOG_INFO cfg s text).deleted_engines = s.deleted_engines := by
  unfold LOG_INFO
  exact logMessage_deleted_engines cfg s _ _ _ _ _ _ _ _ _ _ _ _

@[simp] theorem LOG_INFO_formatters (cfg : Build) (s : Logger) (text : String) :
    (LOG_INFO cfg s text).formatters = s.formatters := by
  unfold LOG_INFO
  exact logMessage_formatters cfg s _ _ _ _ _ _ _ _ _ _ _ _

@[simp] theorem LOG_INFO_deleted_formatters (cfg : Build) (s : Logger) (text : String) :
    (LOG_INFO cfg s text).deleted_formatters = s.deleted_formatters := by
  unfold LOG_INFO
  exact logMessage_deleted_formatters cfg s _ _ _ _ _ _ _ _ _ _ _ _

@[simp] theorem LOG_INFO_qtMsgLoggerEngine (cfg : Build) (s : Logger) (text : String) :
    (LOG_INFO cfg s text).qtMsgLoggerEngine = s.qtMsgLoggerEngine := by
  unfold LOG_INFO
  exact logMessage_qtMsgLoggerEngine cfg s _ _ _ _ _ _ _ _ _ _ _ _

@[simp] theorem LOG_INFO_consoleLoggerEngine (cfg : Build) (s : Logger) (text : String) :
    (LOG_INFO cfg s text).consoleLoggerEngine = s.consoleLoggerEngine := by
  unfold LOG_INFO
  exact logMessage_consoleLoggerEngine cfg s _ _ _ _ _ _ _ _ _ _ _ _

@[simp] theorem LOG_INFO_connections (cfg : Build) (s : Logger) (text : String) :
    (LOG_INFO cfg s text).connections = s.connections := by
  unfold LOG_INFO
  exact logMessage_connections cfg s _ _ _ _ _ _ _ _ _ _ _ _

@[simp] theorem LOG_INFO_newPriorityMessage (cfg : Build) (s : Logger) (text : String) :
    (LOG_INFO cfg s text).newPriorityMessage = s.newPriorityMessage := by
  unfold LOG_INFO
  exact logMessage_newPriorityMessage cfg s _ _ _ _ _ _ _ _ _ _ _ _

@[simp] theorem LOG_INFO_loggerEngineCountChanged (cfg : Build) (s : Logger) (text : String) :
    (LOG_INFO cfg s text).loggerEngineCountChanged = s.loggerEngineCountChanged := by
  unfold LOG_INFO
  exact logMessage_loggerEngineCountChanged cfg s _ _ _ _ _ _ _ _ _ _ _ _

@[simp] theorem LOG_INFO_settings (cfg : Build) (s : Logger) (text : String) :
    (LOG_INFO cfg s text).settings = s.settings := by
  unfold LOG_INFO
  exact logMessage_settings cfg s _ _ _ _ _ _ _ _ _ _ _ _

@[simp] theorem LOG_DEBUG_logger_engine_factory (cfg : Build) (s : Logger) (text : String) :
    (LOG_DEBUG cfg s text).logger_engine_factory = s.logger_engine_factory := by
  unfold LOG_DEBUG
  exact logMessage_logger_engine_factory cfg s _ _ _ _ _ _ _ _ _ _ _ _

@[simp] theorem LOG_DEBUG_logger_engines (cfg : Build) (s : Logger) (text : String) :
    (LOG_DEBUG cfg s text).logger_engines = s.logger_engines := by
  unfold LOG_DEBUG
  exact logMessage_logger_engines cfg s _ _ _ _ _ _ _ _ _ _ _ _

@[simp] theorem LOG_DEBUG_formatting_engines (cfg : Build) (s : Logger) (text : String) :
    (LOG_DEBUG cfg s text).formatting_engines = s.formatting_engines := by
  unfold LOG_DEBUG
  exact logMessage_formatting_engines cfg s _ _ _ _ _ _ _ _ _ _ _ _

@[simp] theorem LOG_DEBUG_default_formatting_engine (cfg : Build) (s : Logger) (text : String) :
    (LOG_DEBUG cfg s text).default_formatting_engine = s.default_formatting_engine := by
  unfold LOG_DEBUG
  exact logMessage_default_formatting_engine cfg s _ _ _ _ _ _ _ _ _ _ _ _

@[simp] theorem LOG_DEBUG_global_log_level (cfg : Build) (s : Logger) (text : String) :
    (LOG_DEBUG cfg s text).global_log_level = s.global_log_level := by
  unfold LOG_DEBUG
  exact logMessage_global_log_level cfg s _ _ _ _ _ _ _ _ _ _ _ _

@[simp] theorem LOG_DEBUG_initialized (cfg : Build) (s : Logger) (text : String) :
    (LOG_DEBUG cfg s text).initialized = s.initialized := by
  unfold LOG_DEBUG
  exact logMessage_initialized cfg s _ _ _ _ _ _ _ _ _ _ _ _

@[simp] theorem LOG_DEBUG_is_qt_message_handler (cfg : Build) (s : Logger) (text : String) :
    (LOG_DEBUG cfg s text).is_qt_message_handler = s.is_qt_message_handler := by
  unfold LOG_DEBUG
  exact logMessage_is_qt_message_handler cfg s _ _ _ _ _ _ _ _ _ _ _ _

@[simp] theorem LOG_DEBUG_remember_session_config (cfg : Build) (s : Logger) (text : String) :
    (LOG_DEBUG cfg s text).remember_session_config = s.remember_session_config := by
  unfold LOG_DEBUG
  exact logMessage_remember_session_config cfg s _ _ _ _ _ _ _ _ _ _ _ _

@[simp] theorem LOG_DEBUG_priority_formatting_engine (cfg : Build) (s : Logger) (text : String) :
    (LOG_DEBUG cfg s text).priority_formatting_engine = s.priority_formatting_engine := by
  unfold LOG_DEBUG
  exact logMessage_priority_formatting_engine cfg s _ _ _ _ _ _ _ _ _ _ _ _

@[simp] theorem LOG_DEBUG_engines (cfg : Build) (s : Logger) (text : String) :
    (LOG_DEBUG cfg s text).engines = s.engines := by
  unfold LOG_DEBUG
  exact logMessage_engines cfg s _ _ _ _ _ _ _ _ _ _ _ _

@[simp] theorem LOG_DEBUG_next_engine (cfg : Build) (s : Logger) (text : String) :
    (LOG_DEBUG cfg s text).next_engine = s.next_engine := by
  unfold LOG_DEBUG
  exact logMessage_next_engine cfg s _ _ _ _ _ _ _ _ _ _ _ _

@[simp] theorem LOG_DEBUG_deleted_engines (cfg : Build) (s : Logger) (text : String) :
    (LOG_DEBUG cfg s text).deleted_engines = s.deleted_engines := by
  unfold LOG_DEBUG
  exact logMessage_deleted_engines cfg s _ _ _ _ _ _ _ _ _ _ _ _

@[simp] theorem LOG_DEBUG_formatters (cfg : Build) (s : Logger) (text : String) :
    (LOG_DEBUG cfg s text).formatters = s.formatters := by
  unfold LOG_DEBUG
  exact logMessage_formatters cfg s _ _ _ _ _ _ _ _ _ _ _ _

@[simp] theorem LOG_DEBUG_deleted_formatters (cfg : Build) (s : Logger) (text : String) :
    (LOG_DEBUG cfg s text).deleted_formatters = s.deleted_formatters := by
  unfold LOG_DEBUG
  exact logMessage_deleted_formatters cfg s _ _ _ _ _ _ _ _ _ _ _ _

@[simp] theorem LOG_DEBUG_qtMsgLoggerEngine (cfg : Build) (s : Logger) (text : String) :
    (LOG_DEBUG cfg s text).qtMsgLoggerEngine = s.qtMsgLoggerEngine := by
  unfold LOG_DEBUG
  exact logMessage_qtMsgLoggerEngine cfg s _ _ _ _ _ _ _ _ _ _ _ _

@[simp] theorem LOG_DEBUG_consoleLoggerEngine (cfg : Build) (s : Logger) (text : String) :
    (LOG_DEBUG cfg s text).consoleLoggerEngine = s.consoleLoggerEngine := by
  unfold LOG_DEBUG
  exact logMessage_consoleLoggerEngine cfg s _ _ _ _ _ _ _ _ _ _ _ _

@[simp] theorem LOG_DEBUG_connections (cfg : Build) (s : Logger) (text : String) :
    (LOG_DEBUG cfg s text).connections = s.connections := by
  unfold LOG_DEBUG
  exact logMessage_connections cfg s _ _ _ _ _ _ _ _ _ _ _ _

@[simp] theorem LOG_DEBUG_newPriorityMessage (cfg : Build) (s : Logger) (text : String) :
    (LOG_DEBUG cfg s text).newPriorityMessage = s.newPriorityMessage := by
  unfold LOG_DEBUG
  exact logMessage_newPriorityMessage cfg s _ _ _ _ _ _ _ _ _ _ _ _

@[simp] theorem LOG_DEBUG_loggerEngineCountChanged (cfg : Build) (s : Logger) (text : String) :
    (LOG_DEBUG cfg s text).loggerEngineCountChanged = s.loggerEngineCountChanged := by
  unfold LOG_DEBUG
  exact logMessage_loggerEngineCountChanged cfg s _ _ _ _ _ _ _ _ _ _ _ _

@[simp] theorem LOG_DEBUG_settings (cfg : Build) (s : Logger) (text : String) :
    (LOG_DEBUG cfg s text).settings = s.settings := by
  unfold LOG_DEBUG
  exact logMessage_settings cfg s _ _ _ _ _ _ _ _ _ _ _ _

end Logger

/-- C1: in a build without release-mode suppression of `Debug` / `Trace`, for every
threshold `T` and every level `L`, `logMessage` emits `newMessage` exactly once
(and delivers it to every connection) if and only if `rank L ≤ rank T` and `L`
is neither `None` nor `AllLogLevels`; otherwise the state, hence the log of
emitted signals, is unchanged. -/
theorem C1_logMessage_broadcast_iff (cfg : Build) (s : Logger) (T L : MessageType)
    (engine_name : String)
    (message msg1 msg2 msg3 msg4 msg5 msg6 msg7 msg8 msg9 : QVariant)
    (hbuild : cfg.QT_NO_DEBUG = false) (hT : s.global_log_level = T.toNat) :
    ((L.toNat ≤ T.toNat ∧ L ≠ .None ∧ L ≠ .AllLogLevels) ↔
      (Logger.logMessage cfg s engine_name L message msg1 msg2 msg3 msg4 msg5 msg6 msg7 msg8
          msg9).newMessage =
        s.newMessage ++ [⟨engine_name, L, Logger.message_contents message msg1 msg2 msg3 msg4
          msg5 msg6 msg7 msg8 msg9⟩]) ∧
    ((L.toNat ≤ T.toNat ∧ L ≠ .None ∧ L ≠ .AllLogLevels) →
      (Logger.logMessage cfg s engine_name L message msg1 msg2 msg3 msg4 msg5 msg6 msg7 msg8
          msg9).delivered =
        s.delivered ++ s.connections.map (fun p => (p, (⟨engine_name, L,
          Logger.message_contents message msg1 msg2 msg3 msg4 msg5 msg6 msg7 msg8
            msg9⟩ : Message)))) ∧
    (¬ (L.toNat ≤ T.toNat ∧ L ≠ .None ∧ L ≠ .AllLogLevels) →
      Logger.logMessage cfg s engine_name L message msg1 msg2 msg3 msg4 msg5 msg6 msg7 msg8
        msg9 = s) := by
  have hiff := Logger.passes_guards_iff cfg s L hbuild
  rw [hT] at hiff
  have hno : ¬ (L.toNat ≤ T.toNat ∧ L ≠ .None ∧ L ≠ .AllLogLevels) →
      Logger.logMessage cfg s engine_name L message msg1 msg2 msg3 msg4 msg5 msg6 msg7 msg8
        msg9 = s := fun h =>
    Logger.logMessage_of_not_passes cfg s engine_name L message msg1 msg2 msg3 msg4 msg5 msg6
      msg7 msg8 msg9 (fun hp => h (hiff.mp hp))
  refine ⟨⟨fun h => ?_, fun h => ?_⟩, fun h => ?_, hno⟩
  · rw [Logger.logMessage_of_passes cfg s engine_name L message msg1 msg2 msg3 msg4 msg5 msg6
      msg7 msg8 msg9 (hiff.mpr h)]
    rfl
  · by_contra hc
    rw [hno hc] at h
    have := congrArg List.length h
    simp at this
  · rw [Logger.logMessage_of_passes cfg s engine_name L message msg1 msg2 msg3 msg4 msg5 msg6
      msg7 msg8 msg9 (hiff.mpr h)]
    rfl

/-- Witness of C1: the example logger (threshold `Warning`) and a `Warning` message
with one optional part. -/
theorem C1_logMessage_broadcast_iff_witness :
    exampleBuild.QT_NO_DEBUG = false ∧
    exampleLogger.global_log_level = MessageType.Warning.toNat ∧
    (Logger.logMessage exampleBuild exampleLogger "All" .Warning (QVariant.ofString "a")
        QVariant.null (QVariant.ofString "b") QVariant.null QVariant.null QVariant.null
        QVariant.null QVariant.null QVariant.null QVariant.null).newMessage =
      [⟨"All", .Warning, [QVariant.ofString "a", QVariant.ofString "b"]⟩] :=
  ⟨rfl, rfl,
    ((C1_logMessage_broadcast_iff exampleBuild exampleLogger .Warning .Warning "All"
      (QVariant.ofString "a") QVariant.null (QVariant.ofString "b") QVariant.null
      QVariant.null QVariant.null QVariant.null QVariant.null QVariant.null QVariant.null
      rfl rfl).1.mp (by decide))⟩

/-- C2, as the code behaves: with the threshold `Warning`, four messages of the
levels `Info`, `Warning`, `Error`, `Debug`, submitted in this order through
`logMessage`, make the logger emit exactly the two broadcasts of the levels
`Info`, `Warning` (the levels whose rank is at most the rank of `Warning`), in
this order, and every engine that is connected once (as `attachLoggerEngine`
connects an engine that it attaches) observes exactly these two messages, in
this order. -/
theorem C2_warning_threshold_scenario (cfg : Build) (s : Logger)
    (n1 n2 n3 n4 : String) (part1 part2 part3 part4 : Fin 10 → QVariant)
    (hT : s.global_log_level = MessageType.Warning.toNat) :
    (Logger.four_submissions cfg s n1 n2 n3 n4 part1 part2 part3 part4).newMessage =
      s.newMessage ++
        [Logger.partsMessage n1 .Info part1, Logger.partsMessage n2 .Warning part2] ∧
    ∀ p : Nat, s.connections.count p = 1 →
      (Logger.four_submissions cfg s n1 n2 n3 n4 part1 part2 part3 part4).observed p =
        s.observed p ++
          [Logger.partsMessage n1 .Info part1, Logger.partsMessage n2 .Warning part2] := by
  rw [Logger.four_submissions_eq cfg s n1 n2 n3 n4 part1 part2 part3 part4 hT]
  refine ⟨by simp [Logger.emit_newMessage], fun p hp => ?_⟩
  rw [Logger.observed_emit_newMessage, Logger.observed_emit_newMessage]
  have hc : (s.emit_newMessage (Logger.partsMessage n1 .Info part1)).connections.count p = 1 := hp
  rw [hc, hp]
  simp

/-- Witness of C2: the example logger, whose threshold is `Warning` and whose
engine `2` is connected once. -/
theorem C2_warning_threshold_scenario_witness :
    exampleLogger.global_log_level = MessageType.Warning.toNat ∧
    exampleLogger.connections.count 2 = 1 ∧
    ((Logger.four_submissions exampleBuild exampleLogger "a" "b" "c" "d"
        (fun _ => QVariant.ofString "x") (fun _ => QVariant.ofString "x")
        (fun _ => QVariant.ofString "x") (fun _ => QVariant.ofString "x")).observed 2).map
      (fun m => m.message_type) = [.Info, .Warning] :=
  ⟨rfl, by decide, by
    rw [(C2_warning_threshold_scenario exampleBuild exampleLogger "a" "b" "c" "d"
      (fun _ => QVariant.ofString "x") (fun _ => QVariant.ofString "x")
      (fun _ => QVariant.ofString "x") (fun _ => QVariant.ofString "x") rfl).2 2 (by decide)]
    rfl⟩

/-- Counterexample to C2 as stated: on the example logger (threshold `Warning`,
engines `1` and `2` attached and connected), after the four submissions the
attached engine `2` has observed the levels `Info`, `Warning`, not
`Warning`, `Error`. -/
theorem C2_counterexample :
    exampleLogger.global_log_level = MessageType.Warning.toNat ∧
    2 ∈ exampleLogger.logger_engines ∧
    ((Logger.four_submissions exampleBuild exampleLogger "a" "b" "c" "d"
        (fun _ => QVariant.ofString "x") (fun _ => QVariant.ofString "x")
        (fun _ => QVariant.ofString "x") (fun _ => QVariant.ofString "x")).observed 2).map
      (fun m => m.message_type) = [.Info, .Warning] ∧
    ((Logger.four_submissions exampleBuild exampleLogger "a" "b" "c" "d"
        (fun _ => QVariant.ofString "x") (fun _ => QVariant.ofString "x")
        (fun _ => QVariant.ofString "x") (fun _ => QVariant.ofString "x")).observed 2).map
      (fun m => m.message_type) ≠ [.Warning, .Error] := by
  refine ⟨rfl, by decide, ?_, ?_⟩
  · decide
  · decide

/-- C3: for every call of `logMessage` or `logPriorityMessage` that the guards let
through, the broadcast content list is the mandatory part followed by exactly
the optional parts that are not null, in increasing order; its length is
between 1 and 10 and it is a sub-list of `[m, msg1, ..., msg9]`. -/
theorem C3_broadcast_contents (cfg : Build) (s : Logger) (engine_name : String)
    (L : MessageType) (m msg1 msg2 msg3 msg4 msg5 msg6 msg7 msg8 msg9 : QVariant)
    (hpass : Logger.passes_guards cfg s L) :
    (Logger.logMessage cfg s engine_name L m msg1 msg2 msg3 msg4 msg5 msg6 msg7 msg8
        msg9).newMessage =
      s.newMessage ++ [⟨engine_name, L,
        m :: [msg1, msg2, msg3, msg4, msg5, msg6, msg7, msg8, msg9].filter
          (fun v => !v.isNull)⟩] ∧
    (Logger.logPriorityMessage cfg s engine_name L m msg1 msg2 msg3 msg4 msg5 msg6 msg7 msg8
        msg9).newMessage =
      s.newMessage ++ [⟨engine_name, L,
        m :: [msg1, msg2, msg3, msg4, msg5, msg6, msg7, msg8, msg9].filter
          (fun v => !v.isNull)⟩] ∧
    1 ≤ (m :: [msg1, msg2, msg3, msg4, msg5, msg6, msg7, msg8, msg9].filter
          (fun v => !v.isNull)).length ∧
    (m :: [msg1, msg2, msg3, msg4, msg5, msg6, msg7, msg8, msg9].filter
          (fun v => !v.isNull)).length ≤ 10 ∧
    List.Sublist (m :: [msg1, msg2, msg3, msg4, msg5, msg6, msg7, msg8, msg9].filter
          (fun v => !v.isNull)) [m, msg1, msg2, msg3, msg4, msg5, msg6, msg7, msg8, msg9] := by
  refine ⟨?_, ?_, ?_, ?_, ?_⟩
  · rw [Logger.logMessage_of_passes cfg s engine_name L m msg1 msg2 msg3 msg4 msg5 msg6 msg7
      msg8 msg9 hpass, Logger.message_contents_eq]
    rfl
  · rw [Logger.logPriorityMessage_of_passes cfg s engine_name L m msg1 msg2 msg3 msg4 msg5 msg6
      msg7 msg8 msg9 hpass, Logger.message_contents_eq]
    rfl
  · simp
  · have := List.length_filter_le (fun v : QVariant => !v.isNull)
      [msg1, msg2, msg3, msg4, msg5, msg6, msg7, msg8, msg9]
    simp only [List.length_cons, List.length_nil] at this ⊢
    omega
  · exact List.Sublist.cons₂ m (List.filter_sublist _)

/-- Witness of C3: the example logger lets a `Warning` message through; of the
optional parts only the second and the ninth are present. -/
theorem C3_broadcast_contents_witness :
    Logger.passes_guards exampleBuild exampleLogger .Warning ∧
    (Logger.logPriorityMessage exampleBuild exampleLogger "All" .Warning (QVariant.ofString "a")
        QVariant.null (QVariant.ofString "b") QVariant.null QVariant.null QVariant.null
        QVariant.null QVariant.null QVariant.null (QVariant.ofString "c")).newMessage =
      [⟨"All", .Warning, [QVariant.ofString "a", QVariant.ofString "b",
        QVariant.ofString "c"]⟩] :=
  ⟨by decide,
    (C3_broadcast_contents exampleBuild exampleLogger "All" .Warning (QVariant.ofString "a")
      QVariant.null (QVariant.ofString "b") QVariant.null QVariant.null QVariant.null
      QVariant.null QVariant.null QVariant.null (QVariant.ofString "c") (by decide)).2.1⟩

/-- C4: for every call of `logPriorityMessage`: when the guards (the same as those
of `logMessage`, which then broadcasts too) let the level through, exactly one
`newMessage` and exactly one `newPriorityMessage` are emitted, and the string
of the priority event is `formatMessage(level, parts)` of the priority
formatting engine when one is installed, else the text of the first part;
when the guards reject the level, nothing at all changes (and `logMessage`
changes nothing either). -/
theorem C4_logPriorityMessage (cfg : Build) (s : Logger) (engine_name : String)
    (L : MessageType) (m msg1 msg2 msg3 msg4 msg5 msg6 msg7 msg8 msg9 : QVariant) :
    (Logger.passes_guards cfg s L →
      (Logger.logMessage cfg s engine_name L m msg1 msg2 msg3 msg4 msg5 msg6 msg7 msg8
          msg9).newMessage =
        s.newMessage ++ [⟨engine_name, L,
          Logger.message_contents m msg1 msg2 msg3 msg4 msg5 msg6 msg7 msg8 msg9⟩] ∧
      (Logger.logPriorityMessage cfg s engine_name L m msg1 msg2 msg3 msg4 msg5 msg6 msg7 msg8
          msg9).newMessage =
        s.newMessage ++ [⟨engine_name, L,
          Logger.message_contents m msg1 msg2 msg3 msg4 msg5 msg6 msg7 msg8 msg9⟩] ∧
      (Logger.logPriorityMessage cfg s engine_name L m msg1 msg2 msg3 msg4 msg5 msg6 msg7 msg8
          msg9).delivered =
        s.delivered ++ s.connections.map (fun p => (p, (⟨engine_name, L,
          Logger.message_contents m msg1 msg2 msg3 msg4 msg5 msg6 msg7 msg8 msg9⟩ : Message))) ∧
      (Logger.logPriorityMessage cfg s engine_name L m msg1 msg2 msg3 msg4 msg5 msg6 msg7 msg8
          msg9).newPriorityMessage =
        s.newPriorityMessage ++
          [(L, if s.priority_formatting_engine ≠ 0 then
              (s.formatters s.priority_formatting_engine).formatMessage L
                (Logger.message_contents m msg1 msg2 msg3 msg4 msg5 msg6 msg7 msg8 msg9)
            else m.toString)]) ∧
    (¬ Logger.passes_guards cfg s L →
      Logger.logMessage cfg s engine_name L m msg1 msg2 msg3 msg4 msg5 msg6 msg7 msg8 msg9 = s ∧
      Logger.logPriorityMessage cfg s engine_name L m msg1 msg2 msg3 msg4 msg5 msg6 msg7 msg8
        msg9 = s) := by
  refine ⟨fun h => ?_, fun h => ?_⟩
  · rw [Logger.logMessage_of_passes cfg s engine_name L m msg1 msg2 msg3 msg4 msg5 msg6 msg7
      msg8 msg9 h, Logger.logPriorityMessage_of_passes cfg s engine_name L m msg1 msg2 msg3 msg4
      msg5 msg6 msg7 msg8 msg9 h]
    exact ⟨rfl, rfl, rfl, rfl⟩
  · exact ⟨Logger.logMessage_of_not_passes cfg s engine_name L m msg1 msg2 msg3 msg4 msg5 msg6
      msg7 msg8 msg9 h, Logger.logPriorityMessage_of_not_passes cfg s engine_name L m msg1 msg2
      msg3 msg4 msg5 msg6 msg7 msg8 msg9 h⟩

/-- Witness of C4: on the example logger, which has no priority formatting engine, a
`Warning` priority message emits one priority event with the text of the first
part. -/
theorem C4_logPriorityMessage_witness :
    Logger.passes_guards exampleBuild exampleLogger .Warning ∧
    (Logger.logPriorityMessage exampleBuild exampleLogger "All" .Warning (QVariant.ofString "a")
        QVariant.null (QVariant.ofString "b") QVariant.null QVariant.null QVariant.null
        QVariant.null QVariant.null QVariant.null QVariant.null).newPriorityMessage =
      [(.Warning, "a")] :=
  ⟨by decide,
    ((C4_logPriorityMessage exampleBuild exampleLogger "All" .Warning (QVariant.ofString "a")
      QVariant.null (QVariant.ofString "b") QVariant.null QVariant.null QVariant.null
      QVariant.null QVariant.null QVariant.null QVariant.null).1 (by decide)).2.2.2⟩

/-! ## Theorems: the session codec -/

/-! ### Reading back what was written -/

theorem getU32_putU32 (n : Nat) (rest : List Nat) :
    getU32 (putU32 n ++ rest) = (n % 4294967296, rest) := by
  simp only [putU32, getU32, List.cons_append, List.nil_append, Prod.mk.injEq, and_true]
  omega

theorem getU32_putU32_of_lt (n : Nat) (rest : List Nat) (h : n < 4294967296) :
    getU32 (putU32 n ++ rest) = (n, rest) := by
  rw [getU32_putU32, Nat.mod_eq_of_lt h]

theorem getBool_putBool (b : Bool) (rest : List Nat) :
    getBool (putBool b ++ rest) = (b, rest) := by
  cases b <;> simp [putBool, getBool]

theorem length_putQChars (cs : List Char) : (putQChars cs).length = 2 * cs.length := by
  induction cs with
  | nil => rfl
  | cons c cs ih =>
    simp only [putQChars, putQChar, List.cons_append, List.nil_append, List.length_cons, ih]
    omega

theorem getQChars_putQChars (cs : List Char) (h : ∀ c ∈ cs, c.toNat < 65536) :
    getQChars (putQChars cs) = cs := by
  induction cs with
  | nil => rfl
  | cons c cs ih =>
    have hc := h c (List.mem_cons_self c cs)
    have hstep : getQChars (putQChars (c :: cs)) =
        Char.ofNat (c.toNat / 256 % 256 % 256 * 256 + c.toNat % 256 % 256) ::
          getQChars (putQChars cs) := rfl
    rw [hstep, ih (fun d hd => h d (List.mem_cons_of_mem c hd))]
    have : c.toNat / 256 % 256 % 256 * 256 + c.toNat % 256 % 256 = c.toNat := by omega
    rw [this, Char.ofNat_toNat]

theorem getString_putString (str : String) (rest : List Nat) (h : QStringOk str) :
    getString (putString str ++ rest) = (str, rest) := by
  obtain ⟨hc, hl⟩ := h
  unfold getString putString
  rw [List.append_assoc, getU32_putU32_of_lt _ _ (by omega)]
  simp only
  rw [if_neg (by omega)]
  by_cases h0 : str.length = 0
  · have hnil : str.toList = [] := List.length_eq_zero.mp h0
    have hs : str = "" := String.ext hnil
    rw [if_pos (by omega)]
    subst hs
    rfl
  · rw [if_neg (by omega), if_neg (by omega)]
    have hlen : (putQChars str.toList).length = 2 * str.length := length_putQChars _
    rw [if_neg (by rw [List.length_append, hlen]; omega)]
    rw [List.take_left' hlen, ← hlen, List.drop_left, getQChars_putQChars _ hc]
    rfl

namespace Logger

/-- The two early exits of `loadSessionConfig`: on a version or leading marker
mismatch the result is `false` and the state is the initial one up to
diagnostics. -/
theorem loadSessionConfig_header_mismatch (cfg : Build) (s : Logger) (file_name : String)
    (content : List Nat)
    (h : (getU32 content).1 ≠ cfg.QTILITIES_LOGGER_BINARY_EXPORT_FORMAT % 4294967296 ∨
      (getU32 (getU32 content).2).1 ≠ MARKER_LOGGER_CONFIG_TAG) :
    ∃ t1 t2 t3 : String,
      loadSessionConfig cfg s file_name content =
        (LOG_INFO cfg (LOG_INFO cfg (LOG_DEBUG cfg s t1) t2) t3, false) ∨
      loadSessionConfig cfg s file_name content =
        (LOG_ERROR cfg (LOG_INFO cfg (LOG_DEBUG cfg s t1) t2) t3, false) := by
  unfold loadSessionConfig
  by_cases hv : (getU32 content).1 ≠ cfg.QTILITIES_LOGGER_BINARY_EXPORT_FORMAT % 4294967296
  · simp only [hv, ne_eq, not_false_eq_true, if_true]
    exact ⟨_, _, _, Or.inr rfl⟩
  · have hm : (getU32 (getU32 content).2).1 ≠ MARKER_LOGGER_CONFIG_TAG := by
      rcases h with h | h
      · exact absurd h hv
      · exact h
    simp only [hv, hm, ne_eq, not_false_eq_true, if_true, if_false]
    exact ⟨_, _, _, Or.inl rfl⟩

/-- On a version or leading marker mismatch `loadSessionConfig` returns `false` and
touches neither the object store nor the configuration. -/
theorem loadSessionConfig_header_mismatch_fields (cfg : Build) (s : Logger)
    (file_name : String) (content : List Nat)
    (h : (getU32 content).1 ≠ cfg.QTILITIES_LOGGER_BINARY_EXPORT_FORMAT % 4294967296 ∨
      (getU32 (getU32 content).2).1 ≠ MARKER_LOGGER_CONFIG_TAG) :
    (loadSessionConfig cfg s file_name content).2 = false ∧
    (loadSessionConfig cfg s file_name content).1.next_engine = s.next_engine ∧
    (loadSessionConfig cfg s file_name content).1.engines = s.engines ∧
    (loadSessionConfig cfg s file_name content).1.deleted_engines = s.deleted_engines ∧
    (loadSessionConfig cfg s file_name content).1.logger_engines = s.logger_engines ∧
    (loadSessionConfig cfg s file_name content).1.connections = s.connections ∧
    (loadSessionConfig cfg s file_name content).1.global_log_level = s.global_log_level := by
  obtain ⟨t1, t2, t3, hr | hr⟩ := loadSessionConfig_header_mismatch cfg s file_name content h
  · rw [hr]; simp
  · rw [hr]; simp

end Logger

namespace Logger

/-! ### Field lemmas of the object store operations -/

@[simp] theorem setData_logger_engine_factory (s : Logger) (p : Nat) (d : EngineData) :
    (s.setData p d).logger_engine_factory = s.logger_engine_factory := by
  rfl

@[simp] theorem setData_logger_engines (s : Logger) (p : Nat) (d : EngineData) :
    (s.setData p d).logger_engines = s.logger_engines := by
  rfl

@[simp] theorem setData_formatting_engines (s : Logger) (p : Nat) (d : EngineData) :
    (s.setData p d).formatting_engines = s.formatting_engines := by
  rfl

@[simp] theorem setData_default_formatting_engine (s : Logger) (p : Nat) (d : EngineData) :
    (s.setData p d).default_formatting_engine = s.default_formatting_engine := by
  rfl

@[simp] theorem setData_global_log_level (s : Logger) (p : Nat) (d : EngineData) :
    (s.setData p d).global_log_level = s.global_log_level := by
  rfl

@[simp] theorem setData_initialized (s : Logger) (p : Nat) (d : EngineData) :
    (s.setData p d).initialized = s.initialized := by
  rfl

@[simp] theorem setData_is_qt_message_handler (s : Logger) (p : Nat) (d : EngineData) :
    (s.setData p d).is_qt_message_handler = s.is_qt_message_handler := by
  rfl

@[simp] theorem setData_remember_session_config (s : Logger) (p : Nat) (d : EngineData) :
    (s.setData p d).remember_session_config = s.remember_session_config := by
  rfl

@[simp] theorem setData_priority_formatting_engine (s : Logger) (p : Nat) (d : EngineData) :
    (s.setData p d).priority_formatting_engine = s.priority_formatting_engine := by
  rfl

@[simp] theorem setData_next_engine (s : Logger) (p : Nat) (d : EngineData) :
    (s.setData p d).next_engine = s.next_engine := by
  rfl

@[simp] theorem setData_deleted_engines (s : Logger) (p : Nat) (d : EngineData) :
    (s.setData p d).deleted_engines = s.deleted_engines := by
  rfl

@[simp] theorem setData_formatters (s : Logger) (p : Nat) (d : EngineData) :
    (s.setData p d).formatters = s.formatters := by
  rfl

@[simp] theorem setData_deleted_formatters (s : Logger) (p : Nat) (d : EngineData) :
    (s.setData p d).deleted_formatters = s.deleted_formatters := by
  rfl

@[simp] theorem setData_qtMsgLoggerEngine (s : Logger) (p : Nat) (d : EngineData) :
    (s.setData p d).qtMsgLoggerEngine = s.qtMsgLoggerEngine := by
  rfl

@[simp] theorem setData_consoleLoggerEngine (s : Logger) (p : Nat) (d : EngineData) :
    (s.setData p d).consoleLoggerEngine = s.consoleLoggerEngine := by
  rfl

@[simp] theorem setData_connections (s : Logger) (p : Nat) (d : EngineData) :
    (s.setData p d).connections = s.connections := by
  rfl

@[simp] theorem setData_newMessage (s : Logger) (p : Nat) (d : EngineData) :
    (s.setData p d).newMessage = s.newMessage := by
  rfl

@[simp] theorem setData_delivered (s : Logger) (p : Nat) (d : EngineData) :
    (s.setData p d).delivered = s.delivered := by
  rfl

@[simp] theorem setData_newPriorityMessage (s : Logger) (p : Nat) (d : EngineData) :
    (s.setData p d).newPriorityMessage = s.newPriorityMessage := by
  rfl

@[simp] theorem setData_loggerEngineCountChanged (s : Logger) (p : Nat) (d : EngineData) :
    (s.setData p d).loggerEngineCountChanged = s.loggerEngineCountChanged := by
  rfl

@[simp] theorem setData_settings (s : Logger) (p : Nat) (d : EngineData) :
    (s.setData p d).settings = s.settings := by
  rfl

@[simp] theorem installFormattingEngine_logger_engine_factory (s : Logger) (p : Nat) (f : Nat) :
    (s.installFormattingEngine p f).logger_engine_factory = s.logger_engine_factory := by
  rfl

@[simp] theorem installFormattingEngine_logger_engines (s : Logger) (p : Nat) (f : Nat) :
    (s.installFormattingEngine p f).logger_engines = s.logger_engines := by
  rfl

@[simp] theorem installFormattingEngine_formatting_engines (s : Logger) (p : Nat) (f : Nat) :
    (s.installFormattingEngine p f).formatting_engines = s.formatting_engines := by
  rfl

@[simp] theorem installFormattingEngine_default_formatting_engine (s : Logger) (p : Nat) (f : Nat) :
    (s.installFormattingEngine p f).default_formatting_engine = s.default_formatting_engine := by
  rfl

@[simp] theorem installFormattingEngine_global_log_level (s : Logger) (p : Nat) (f : Nat) :
    (s.installFormattingEngine p f).global_log_level = s.global_log_level := by
  rfl

@[simp] theorem installFormattingEngine_initialized (s : Logger) (p : Nat) (f : Nat) :
    (s.installFormattingEngine p f).initialized = s.initialized := by
  rfl

@[simp] theorem installFormattingEngine_is_qt_message_handler (s : Logger) (p : Nat) (f : Nat) :
    (s.installFormattingEngine p f).is_qt_message_handler = s.is_qt_message_handler := by
  rfl

@[simp] theorem installFormattingEngine_remember_session_config (s : Logger) (p : Nat) (f : Nat) :
    (s.installFormattingEngine p f).remember_session_config = s.remember_session_config := by
  rfl

@[simp] theorem installFormattingEngine_priority_formatting_engine (s : Logger) (p : Nat) (f : Nat) :
    (s.installFormattingEngine p f).priority_formatting_engine = s.priority_formatting_engine := by
  rfl

@[simp] theorem installFormattingEngine_next_engine (s : Logger) (p : Nat) (f : Nat) :
    (s.installFormattingEngine p f).next_engine = s.next_engine := by
  rfl

@[simp] theorem installFormattingEngine_deleted_engines (s : Logger) (p : Nat) (f : Nat) :
    (s.installFormattingEngine p f).deleted_engines = s.deleted_engines := by
  rfl

@[simp] theorem installFormattingEngine_formatters (s : Logger) (p : Nat) (f : Nat) :
    (s.installFormattingEngine p f).formatters = s.formatters := by
  rfl

@[simp] theorem installFormattingEngine_deleted_formatters (s : Logger) (p : Nat) (f : Nat) :
    (s.installFormattingEngine p f).deleted_formatters = s.deleted_formatters := by
  rfl

@[simp] theorem installFormattingEngine_qtMsgLoggerEngine (s : Logger) (p : Nat) (f : Nat) :
    (s.installFormattingEngine p f).qtMsgLoggerEngine = s.qtMsgLoggerEngine := by
  rfl

@[simp] theorem installFormattingEngine_consoleLoggerEngine (s : Logger) (p : Nat) (f : Nat) :
    (s.installFormattingEngine p f).consoleLoggerEngine = s.consoleLoggerEngine := by
  rfl

@[simp] theorem installFormattingEngine_connections (s : Logger) (p : Nat) (f : Nat) :
    (s.installFormattingEngine p f).connections = s.connections := by
  rfl

@[simp] theorem installFormattingEngine_newMessage (s : Logger) (p : Nat) (f : Nat) :
    (s.installFormattingEngine p f).newMessage = s.newMessage := by
  rfl

@[simp] theorem installFormattingEngine_delivered (s : Logger) (p : Nat) (f : Nat) :
    (s.installFormattingEngine p f).delivered = s.delivered := by
  rfl

@[simp] theorem installFormattingEngine_newPriorityMessage (s : Logger) (p : Nat) (f : Nat) :
    (s.installFormattingEngine p f).newPriorityMessage = s.newPriorityMessage := by
  rfl

@[simp] theorem installFormattingEngine_loggerEngineCountChanged (s : Logger) (p : Nat) (f : Nat) :
    (s.installFormattingEngine p f).loggerEngineCountChanged = s.loggerEngineCountChanged := by
  rfl

@[simp] theorem installFormattingEngine_settings (s : Logger) (p : Nat) (f : Nat) :
    (s.installFormattingEngine p f).settings = s.settings := by
  rfl

@[simp] theorem setActive_logger_engine_factory (s : Logger) (p : Nat) (a : Bool) :
    (s.setActive p a).logger_engine_factory = s.logger_engine_factory := by
  rfl

@[simp] theorem setActive_logger_engines (s : Logger) (p : Nat) (a : Bool) :
    (s.setActive p a).logger_engines = s.logger_engines := by
  rfl

@[simp] theorem setActive_formatting_engines (s : Logger) (p : Nat) (a : Bool) :
    (s.setActive p a).formatting_engines = s.formatting_engines := by
  rfl

@[simp] theorem setActive_default_formatting_engine (s : Logger) (p : Nat) (a : Bool) :
    (s.setActive p a).default_formatting_engine = s.default_formatting_engine := by
  rfl

@[simp] theorem setActive_global_log_level (s : Logger) (p : Nat) (a : Bool) :
    (s.setActive p a).global_log_level = s.global_log_level := by
  rfl

@[simp] theorem setActive_initialized (s : Logger) (p : Nat) (a : Bool) :
    (s.setActive p a).initialized = s.initialized := by
  rfl

@[simp] theorem setActive_is_qt_message_handler (s : Logger) (p : Nat) (a : Bool) :
    (s.setActive p a).is_qt_message_handler = s.is_qt_message_handler := by
  rfl

@[simp] theorem setActive_remember_session_config (s : Logger) (p : Nat) (a : Bool) :
    (s.setActive p a).remember_session_config = s.remember_session_config := by
  rfl

@[simp] theorem setActive_priority_formatting_engine (s : Logger) (p : Nat) (a : Bool) :
    (s.setActive p a).priority_formatting_engine = s.priority_formatting_engine := by
  rfl

@[simp] theorem setActive_next_engine (s : Logger) (p : Nat) (a : Bool) :
    (s.setActive p a).next_engine = s.next_engine := by
  rfl

@[simp] theorem setActive_deleted_engines (s : Logger) (p : Nat) (a : Bool) :
    (s.setActive p a).deleted_engines = s.deleted_engines := by
  rfl

@[simp] theorem setActive_formatters (s : Logger) (p : Nat) (a : Bool) :
    (s.setActive p a).formatters = s.formatters := by
  rfl

@[simp] theorem setActive_deleted_formatters (s : Logger) (p : Nat) (a : Bool) :
    (s.setActive p a).deleted_formatters = s.deleted_formatters := by
  rfl

@[simp] theorem setActive_qtMsgLoggerEngine (s : Logger) (p : Nat) (a : Bool) :
    (s.setActive p a).qtMsgLoggerEngine = s.qtMsgLoggerEngine := by
  rfl

@[simp] theorem setActive_consoleLoggerEngine (s : Logger) (p : Nat) (a : Bool) :
    (s.setActive p a).consoleLoggerEngine = s.consoleLoggerEngine := by
  rfl

@[simp] theorem setActive_connections (s : Logger) (p : Nat) (a : Bool) :
    (s.setActive p a).connections = s.connections := by
  rfl

@[simp] theorem setActive_newMessage (s : Logger) (p : Nat) (a : Bool) :
    (s.setActive p a).newMessage = s.newMessage := by
  rfl

@[simp] theorem setActive_delivered (s : Logger) (p : Nat) (a : Bool) :
    (s.setActive p a).delivered = s.delivered := by
  rfl

@[simp] theorem setActive_newPriorityMessage (s : Logger) (p : Nat) (a : Bool) :
    (s.setActive p a).newPriorityMessage = s.newPriorityMessage := by
  rfl

@[simp] theorem setActive_loggerEngineCountChanged (s : Logger) (p : Nat) (a : Bool) :
    (s.setActive p a).loggerEngineCountChanged = s.loggerEngineCountChanged := by
  rfl

@[simp] theorem setActive_settings (s : Logger) (p : Nat) (a : Bool) :
    (s.setActive p a).settings = s.settings := by
  rfl

@[simp] theorem emit_loggerEngineCountChanged_logger_engine_factory (s : Logger) (p : Nat) (i : EngineChangeIndication) :
    (s.emit_loggerEngineCountChanged p i).logger_engine_factory = s.logger_engine_factory := by
  rfl

@[simp] theorem emit_loggerEngineCountChanged_logger_engines (s : Logger) (p : Nat) (i : EngineChangeIndication) :
    (s.emit_loggerEngineCountChanged p i).logger_engines = s.logger_engines := by
  rfl

@[simp] theorem emit_loggerEngineCountChanged_formatting_engines (s : Logger) (p : Nat) (i : EngineChangeIndication) :
    (s.emit_loggerEngineCountChanged p i).formatting_engines = s.formatting_engines := by
  rfl

@[simp] theorem emit_loggerEngineCountChanged_default_formatting_engine (s : Logger) (p : Nat) (i : EngineChangeIndication) :
    (s.emit_loggerEngineCountChanged p i).default_formatting_engine = s.default_formatting_engine := by
  rfl

@[simp] theorem emit_loggerEngineCountChanged_global_log_level (s : Logger) (p : Nat) (i : EngineChangeIndication) :
    (s.emit_loggerEngineCountChanged p i).global_log_level = s.global_log_level := by
  rfl

@[simp] theorem emit_loggerEngineCountChanged_initialized (s : Logger) (p : Nat) (i : EngineChangeIndication) :
    (s.emit_loggerEngineCountChanged p i).initialized = s.initialized := by
  rfl

@[simp] theorem emit_loggerEngineCountChanged_is_qt_message_handler (s : Logger) (p : Nat) (i : EngineChangeIndication) :
    (s.emit_loggerEngineCountChanged p i).is_qt_message_handler = s.is_qt_message_handler := by
  rfl

@[simp] theorem emit_loggerEngineCountChanged_remember_session_config (s : Logger) (p : Nat) (i : EngineChangeIndication) :
    (s.emit_loggerEngineCountChanged p i).remember_session_config = s.remember_session_config := by
  rfl

@[simp] theorem emit_loggerEngineCountChanged_priority_formatting_engine (s : Logger) (p : Nat) (i : EngineChangeIndication) :
    (s.emit_loggerEngineCountChanged p i).priority_formatting_engine = s.priority_formatting_engine := by
  rfl

@[simp] theorem emit_loggerEngineCountChanged_engines (s : Logger) (p : Nat) (i : EngineChangeIndication) :
    (s.emit_loggerEngineCountChanged p i).engines = s.engines := by
  rfl

@[simp] theorem emit_loggerEngineCountChanged_next_engine (s : Logger) (p : Nat) (i : EngineChangeIndication) :
    (s.emit_loggerEngineCountChanged p i).next_engine = s.next_engine := by
  rfl

@[simp] theorem emit_loggerEngineCountChanged_deleted_engines (s : Logger) (p : Nat) (i : EngineChangeIndication) :
    (s.emit_loggerEngineCountChanged p i).deleted_engines = s.deleted_engines := by
  rfl

@[simp] theorem emit_loggerEngineCountChanged_formatters (s : Logger) (p : Nat) (i : EngineChangeIndication) :
    (s.emit_loggerEngineCountChanged p i).formatters = s.formatters := by
  rfl

@[simp] theorem emit_loggerEngineCountChanged_deleted_formatters (s : Logger) (p : Nat) (i : EngineChangeIndication) :
    (s.emit_loggerEngineCountChanged p i).deleted_formatters = s.deleted_formatters := by
  rfl

@[simp] theorem emit_loggerEngineCountChanged_qtMsgLoggerEngine (s : Logger) (p : Nat) (i : EngineChangeIndication) :
    (s.emit_loggerEngineCountChanged p i).qtMsgLoggerEngine = s.qtMsgLoggerEngine := by
  rfl

@[simp] theorem emit_loggerEngineCountChanged_consoleLoggerEngine (s : Logger) (p : Nat) (i : EngineChangeIndication) :
    (s.emit_loggerEngineCountChanged p i).consoleLoggerEngine = s.consoleLoggerEngine := by
  rfl

@[simp] theorem emit_loggerEngineCountChanged_connections (s : Logger) (p : Nat) (i : EngineChangeIndication) :
    (s.emit_loggerEngineCountChanged p i).connections = s.connections := by
  rfl

@[simp] theorem emit_loggerEngineCountChanged_newMessage (s : Logger) (p : Nat) (i : EngineChangeIndication) :
    (s.emit_loggerEngineCountChanged p i).newMessage = s.newMessage := by
  rfl

@[simp] theorem emit_loggerEngineCountChanged_delivered (s : Logger) (p : Nat) (i : EngineChangeIndication) :
    (s.emit_loggerEngineCountChanged p i).delivered = s.delivered := by
  rfl

@[simp] theorem emit_loggerEngineCountChanged_newPriorityMessage (s : Logger) (p : Nat) (i : EngineChangeIndication) :
    (s.emit_loggerEngineCountChanged p i).newPriorityMessage = s.newPriorityMessage := by
  rfl

@[simp] theorem emit_loggerEngineCountChanged_settings (s : Logger) (p : Nat) (i : EngineChangeIndication) :
    (s.emit_loggerEngineCountChanged p i).settings = s.settings := by
  rfl

@[simp] theorem writeSettings_logger_engine_factory (s : Logger)  :
    (s.writeSettings ).logger_engine_factory = s.logger_engine_factory := by
  rfl

@[simp] theorem writeSettings_logger_engines (s : Logger)  :
    (s.writeSettings ).logger_engines = s.logger_engines := by
  rfl

@[simp] theorem writeSettings_formatting_engines (s : Logger)  :
    (s.writeSettings ).formatting_engines = s.formatting_engines := by
  rfl

@[simp] theorem writeSettings_default_formatting_engine (s : Logger)  :
    (s.writeSettings ).default_formatting_engine = s.default_formatting_engine := by
  rfl

@[simp] theorem writeSettings_global_log_level (s : Logger)  :
    (s.writeSettings ).global_log_level = s.global_log_level := by
  rfl

@[simp] theorem writeSettings_initialized (s : Logger)  :
    (s.writeSettings ).initialized = s.initialized := by
  rfl

@[simp] theorem writeSettings_is_qt_message_handler (s : Logger)  :
    (s.writeSettings ).is_qt_message_handler = s.is_qt_message_handler := by
  rfl

@[simp] theorem writeSettings_remember_session_config (s : Logger)  :
    (s.writeSettings ).remember_session_config = s.remember_session_config := by
  rfl

@[simp] theorem writeSettings_priority_formatting_engine (s : Logger)  :
    (s.writeSettings ).priority_formatting_engine = s.priority_formatting_engine := by
  rfl

@[simp] theorem writeSettings_engines (s : Logger)  :
    (s.writeSettings ).engines = s.engines := by
  rfl

@[simp] theorem writeSettings_next_engine (s : Logger)  :
    (s.writeSettings ).next_engine = s.next_engine := by
  rfl

@[simp] theorem writeSettings_deleted_engines (s : Logger)  :
    (s.writeSettings ).deleted_engines = s.deleted_engines := by
  rfl

@[simp] theorem writeSettings_formatters (s : Logger)  :
    (s.writeSettings ).formatters = s.formatters := by
  rfl

@[simp] theorem writeSettings_deleted_formatters (s : Logger)  :
    (s.writeSettings ).deleted_formatters = s.deleted_formatters := by
  rfl

@[simp] theorem writeSettings_qtMsgLoggerEngine (s : Logger)  :
    (s.writeSettings ).qtMsgLoggerEngine = s.qtMsgLoggerEngine := by
  rfl

@[simp] theorem writeSettings_consoleLoggerEngine (s : Logger)  :
    (s.writeSettings ).consoleLoggerEngine = s.consoleLoggerEngine := by
  rfl

@[simp] theorem writeSettings_connections (s : Logger)  :
    (s.writeSettings ).connections = s.connections := by
  rfl

@[simp] theorem writeSettings_newMessage (s : Logger)  :
    (s.writeSettings ).newMessage = s.newMessage := by
  rfl

@[simp] theorem writeSettings_delivered (s : Logger)  :
    (s.writeSettings ).delivered = s.delivered := by
  rfl

@[simp] theorem writeSettings_newPriorityMessage (s : Logger)  :
    (s.writeSettings ).newPriorityMessage = s.newPriorityMessage := by
  rfl

@[simp] theorem writeSettings_loggerEngineCountChanged (s : Logger)  :
    (s.writeSettings ).loggerEngineCountChanged = s.loggerEngineCountChanged := by
  rfl

@[simp] theorem delete_engine_logger_engine_factory (s : Logger) (p : Nat) :
    (s.delete_engine p).logger_engine_factory = s.logger_engine_factory := by
  unfold delete_engine
  split_ifs <;> rfl

@[simp] theorem delete_engine_logger_engines (s : Logger) (p : Nat) :
    (s.delete_engine p).logger_engines = s.logger_engines := by
  unfold delete_engine
  split_ifs <;> rfl

@[simp] theorem delete_engine_formatting_engines (s : Logger) (p : Nat) :
    (s.delete_engine p).formatting_engines = s.formatting_engines := by
  unfold delete_engine
  split_ifs <;> rfl

@[simp] theorem delete_engine_default_formatting_engine (s : Logger) (p : Nat) :
    (s.delete_engine p).default_formatting_engine = s.default_formatting_engine := by
  unfold delete_engine
  split_ifs <;> rfl

@[simp] theorem delete_engine_global_log_level (s : Logger) (p : Nat) :
    (s.delete_engine p).global_log_level = s.global_log_level := by
  unfold delete_engine
  split_ifs <;> rfl

@[simp] theorem delete_engine_initialized (s : Logger) (p : Nat) :
    (s.delete_engine p).initialized = s.initialized := by
  unfold delete_engine
  split_ifs <;> rfl

@[simp] theorem delete_engine_is_qt_message_handler (s : Logger) (p : Nat) :
    (s.delete_engine p).is_qt_message_handler = s.is_qt_message_handler := by
  unfold delete_engine
  split_ifs <;> rfl

@[simp] theorem delete_engine_remember_session_config (s : Logger) (p : Nat) :
    (s.delete_engine p).remember_session_config = s.remember_session_config := by
  unfold delete_engine
  split_ifs <;> rfl

@[simp] theorem delete_engine_priority_formatting_engine (s : Logger) (p : Nat) :
    (s.delete_engine p).priority_formatting_engine = s.priority_formatting_engine := by
  unfold delete_engine
  split_ifs <;> rfl

@[simp] theorem delete_engine_engines (s : Logger) (p : Nat) :
    (s.delete_engine p).engines = s.engines := by
  unfold delete_engine
  split_ifs <;> rfl

@[simp] theorem delete_engine_next_engine (s : Logger) (p : Nat) :
    (s.delete_engine p).next_engine = s.next_engine := by
  unfold delete_engine
  split_ifs <;> rfl

@[simp] theorem delete_engine_formatters (s : Logger) (p : Nat) :
    (s.delete_engine p).formatters = s.formatters := by
  unfold delete_engine
  split_ifs <;> rfl

@[simp] theorem delete_engine_deleted_formatters (s : Logger) (p : Nat) :
    (s.delete_engine p).deleted_formatters = s.deleted_formatters := by
  unfold delete_engine
  split_ifs <;> rfl

@[simp] theorem delete_engine_qtMsgLoggerEngine (s : Logger) (p : Nat) :
    (s.delete_engine p).qtMsgLoggerEngine = s.qtMsgLoggerEngine := by
  unfold delete_engine
  split_ifs <;> rfl

@[simp] theorem delete_engine_consoleLoggerEngine (s : Logger) (p : Nat) :
    (s.delete_engine p).consoleLoggerEngine = s.consoleLoggerEngine := by
  unfold delete_engine
  split_ifs <;> rfl

@[simp] theorem delete_engine_newMessage (s : Logger) (p : Nat) :
    (s.delete_engine p).newMessage = s.newMessage := by
  unfold delete_engine
  split_ifs <;> rfl

@[simp] theorem delete_engine_delivered (s : Logger) (p : Nat) :
    (s.delete_engine p).delivered = s.delivered := by
  unfold delete_engine
  split_ifs <;> rfl

@[simp] theorem delete_engine_newPriorityMessage (s : Logger) (p : Nat) :
    (s.delete_engine p).newPriorityMessage = s.newPriorityMessage := by
  unfold delete_engine
  split_ifs <;> rfl

@[simp] theorem delete_engine_loggerEngineCountChanged (s : Logger) (p : Nat) :
    (s.delete_engine p).loggerEngineCountChanged = s.loggerEngineCountChanged := by
  unfold delete_engine
  split_ifs <;> rfl

@[simp] theorem delete_engine_settings (s : Logger) (p : Nat) :
    (s.delete_engine p).settings = s.settings := by
  unfold delete_engine
  split_ifs <;> rfl

@[simp] theorem createInstance_logger_engine_factory (s : Logger) (tag : String) :
    (s.createInstance tag).1.logger_engine_factory = s.logger_engine_factory := by
  unfold createInstance
  split <;> rfl

@[simp] theorem createInstance_logger_engines (s : Logger) (tag : String) :
    (s.createInstance tag).1.logger_engines = s.logger_engines := by
  unfold createInstance
  split <;> rfl

@[simp] theorem createInstance_formatting_engines (s : Logger) (tag : String) :
    (s.createInstance tag).1.formatting_engines = s.formatting_engines := by
  unfold createInstance
  split <;> rfl

@[simp] theorem createInstance_default_formatting_engine (s : Logger) (tag : String) :
    (s.createInstance tag).1.default_formatting_engine = s.default_formatting_engine := by
  unfold createInstance
  split <;> rfl

@[simp] theorem createInstance_global_log_level (s : Logger) (tag : String) :
    (s.createInstance tag).1.global_log_level = s.global_log_level := by
  unfold createInstance
  split <;> rfl

@[simp] theorem createInstance_initialized (s : Logger) (tag : String) :
    (s.createInstance tag).1.initialized = s.initialized := by
  unfold createInstance
  split <;> rfl

@[simp] theorem createInstance_is_qt_message_handler (s : Logger) (tag : String) :
    (s.createInstance tag).1.is_qt_message_handler = s.is_qt_message_handler := by
  unfold createInstance
  split <;> rfl

@[simp] theorem createInstance_remember_session_config (s : Logger) (tag : String) :
    (s.createInstance tag).1.remember_session_config = s.remember_session_config := by
  unfold createInstance
  split <;> rfl

@[simp] theorem createInstance_priority_formatting_engine (s : Logger) (tag : String) :
    (s.createInstance tag).1.priority_formatting_engine = s.priority_formatting_engine := by
  unfold createInstance
  split <;> rfl

@[simp] theorem createInstance_deleted_engines (s : Logger) (tag : String) :
    (s.createInstance tag).1.deleted_engines = s.deleted_engines := by
  unfold createInstance
  split <;> rfl

@[simp] theorem createInstance_formatters (s : Logger) (tag : String) :
    (s.createInstance tag).1.formatters = s.formatters := by
  unfold createInstance
  split <;> rfl

@[simp] theorem createInstance_deleted_formatters (s : Logger) (tag : String) :
    (s.createInstance tag).1.deleted_formatters = s.deleted_formatters := by
  unfold createInstance
  split <;> rfl

@[simp] theorem createInstance_qtMsgLoggerEngine (s : Logger) (tag : String) :
    (s.createInstance tag).1.qtMsgLoggerEngine = s.qtMsgLoggerEngine := by
  unfold createInstance
  split <;> rfl

@[simp] theorem createInstance_consoleLoggerEngine (s : Logger) (tag : String) :
    (s.createInstance tag).1.consoleLoggerEngine = s.consoleLoggerEngine := by
  unfold createInstance
  split <;> rfl

@[simp] theorem createInstance_connections (s : Logger) (tag : String) :
    (s.createInstance tag).1.connections = s.connections := by
  unfold createInstance
  split <;> rfl

@[simp] theorem createInstance_newMessage (s : Logger) (tag : String) :
    (s.createInstance tag).1.newMessage = s.newMessage := by
  unfold createInstance
  split <;> rfl

@[simp] theorem createInstance_delivered (s : Logger) (tag : String) :
    (s.createInstance tag).1.delivered = s.delivered := by
  unfold createInstance
  split <;> rfl

@[simp] theorem createInstance_newPriorityMessage (s : Logger) (tag : String) :
    (s.createInstance tag).1.newPriorityMessage = s.newPriorityMessage := by
  unfold createInstance
  split <;> rfl

@[simp] theorem createInstance_loggerEngineCountChanged (s : Logger) (tag : String) :
    (s.createInstance tag).1.loggerEngineCountChanged = s.loggerEngineCountChanged := by
  unfold createInstance
  split <;> rfl

@[simp] theorem createInstance_settings (s : Logger) (tag : String) :
    (s.createInstance tag).1.settings = s.settings := by
  unfold createInstance
  split <;> rfl

theorem setData_engines (s : Logger) (p : Nat) (d : EngineData) (q : Nat) :
    (s.setData p d).engines q = if q = p then ⟨(s.engines p).cls, d⟩ else s.engines q := rfl

theorem delete_engine_deleted_engines (s : Logger) (p : Nat) :
    (s.delete_engine p).deleted_engines =
      if p = 0 then s.deleted_engines else s.deleted_engines ++ [p] := by
  unfold delete_engine
  split_ifs <;> rfl

theorem createInstance_none (s : Logger) (tag : String)
    (h : s.logger_engine_factory tag = none) : s.createInstance tag = (s, 0) := by
  simp [createInstance, h]

theorem createInstance_some (s : Logger) (tag : String) (obj : EngineObj)
    (h : s.logger_engine_factory tag = some obj) :
    (s.createInstance tag).2 = s.next_engine ∧
    (s.createInstance tag).1.next_engine = s.next_engine + 1 ∧
    (s.createInstance tag).1.engines s.next_engine = obj ∧
    ∀ q, q ≠ s.next_engine → (s.createInstance tag).1.engines q = s.engines q := by
  simp only [createInstance, h, if_true, true_and]
  intro q hq
  simp [hq]

theorem createInstance_cases (s : Logger) (tag : String) :
    ((s.createInstance tag).2 = 0 ∨ (s.createInstance tag).2 = s.next_engine) ∧
    s.next_engine ≤ (s.createInstance tag).1.next_engine ∧
    (s.createInstance tag).1.next_engine ≤ s.next_engine + 1 ∧
    ∀ q, q < s.next_engine → (s.createInstance tag).1.engines q = s.engines q := by
  cases h : s.logger_engine_factory tag with
  | none => simp [createInstance_none s tag h]
  | some obj =>
    obtain ⟨h1, h2, _, h4⟩ := createInstance_some s tag obj h
    refine ⟨Or.inr h1, by omega, by omega, fun q hq => h4 q (by omega)⟩

/-! ### The frame of the loop that creates the engines -/

theorem Frame.refl (s : Logger) : Frame s s :=
  ⟨rfl, rfl, rfl, rfl, rfl, rfl, rfl, le_refl _, fun _ _ => rfl⟩

theorem Frame.trans {s1 s2 s3 : Logger} (h12 : Frame s1 s2) (h23 : Frame s2 s3) :
    Frame s1 s3 := by
  obtain ⟨a1, a2, a3, a4, a5, a6, a7, a8, a9⟩ := h12
  obtain ⟨b1, b2, b3, b4, b5, b6, b7, b8, b9⟩ := h23
  refine ⟨b1.trans a1, b2.trans a2, b3.trans a3, b4.trans a4, b5.trans a5, b6.trans a6,
    b7.trans a7, le_trans a8 b8, fun p hp => ?_⟩
  rw [b9 p (by omega), a9 p hp]

theorem Frame.LOG_DEBUG (cfg : Build) (s : Logger) (text : String) :
    Frame s (LOG_DEBUG cfg s text) :=
  ⟨by simp, by simp, by simp, by simp, by simp, by simp, by simp, by simp, fun _ _ => by simp⟩

theorem Frame.LOG_INFO (cfg : Build) (s : Logger) (text : String) :
    Frame s (LOG_INFO cfg s text) :=
  ⟨by simp, by simp, by simp, by simp, by simp, by simp, by simp, by simp, fun _ _ => by simp⟩

theorem Frame.LOG_ERROR (cfg : Build) (s : Logger) (text : String) :
    Frame s (LOG_ERROR cfg s text) :=
  ⟨by simp, by simp, by simp, by simp, by simp, by simp, by simp, by simp, fun _ _ => by simp⟩

theorem Frame.createInstance (s : Logger) (tag : String) :
    Frame s (s.createInstance tag).1 := by
  obtain ⟨_, h2, _, h4⟩ := createInstance_cases s tag
  exact ⟨by simp, by simp, by simp, by simp, by simp, by simp, by simp, h2, h4⟩

theorem Frame.setData (s : Logger) (p : Nat) (d : EngineData)
    (hp : s.next_engine ≤ p) : Frame s (s.setData p d) := by
  refine ⟨by simp, by simp, by simp, by simp, by simp, by simp, by simp, by simp,
    fun q hq => ?_⟩
  rw [setData_engines, if_neg (by omega)]

/-- What the loop that creates the engines leaves alone: the live list, the
threshold, the deletions, the registries and every object that existed
before; the pointers it appends to `engine_list` are new ones. -/
theorem load_create_frame (cfg : Build) :
    ∀ (n : Nat) (s : Logger) (stream : List Nat) (engine_list : List Nat) (success : Bool),
      Frame s (load_create cfg n s stream engine_list success).1 ∧
      (∀ p ∈ (load_create cfg n s stream engine_list success).2.2.1,
        p ∈ engine_list ∨ s.next_engine ≤ p) := by
  intro n
  induction n with
  | zero =>
    intro s stream engine_list success
    exact ⟨Frame.refl s, fun p hp => Or.inl hp⟩
  | succ n ih =>
    intro s stream engine_list success
    cases success with
    | false => exact ⟨Frame.refl s, fun p hp => Or.inl hp⟩
    | true =>
      rw [load_create]
      simp only [Bool.true_eq_false, if_false]
      have hF1 := Frame.LOG_DEBUG cfg s ("Create factory instance: " ++ (getString stream).1)
      generalize LOG_DEBUG cfg s ("Create factory instance: " ++ (getString stream).1) = s1
        at hF1 ⊢
      have hF2 := Frame.createInstance s1 (getString stream).1
      obtain ⟨hptr, hn1, hn2, -⟩ := createInstance_cases s1 (getString stream).1
      generalize s1.createInstance (getString stream).1 = c at hF2 hptr hn1 hn2 ⊢
      have hs1 : s.next_engine ≤ s1.next_engine := hF1.2.2.2.2.2.2.2.1
      split_ifs with h0 hex
      · have hp : c.2 = s1.next_engine := by
          rcases hptr with h | h
          · exact absurd h h0
          · exact h
        obtain ⟨hF, hl⟩ := ih (c.1.setData c.2 ((c.1.engines c.2).cls.importBinary
          (c.1.engines c.2).data (getString stream).2).1)
          ((c.1.engines c.2).cls.importBinary (c.1.engines c.2).data (getString stream).2).2.1
          (engine_list ++ [c.2]) true
        have hF3 := Frame.setData s1 c.2 ((c.1.engines c.2).cls.importBinary
          (c.1.engines c.2).data (getString stream).2).1 (by omega)
        refine ⟨?_, fun p hp' => ?_⟩
        · refine Frame.trans hF1 (Frame.trans ?_ hF)
          obtain ⟨b1, b2, b3, b4, b5, b6, b7, b8, b9⟩ := hF2
          refine ⟨by simpa using b1, by simpa using b2, by simpa using b3, by simpa using b4,
            by simpa using b5, by simpa using b6, by simpa using b7, by simpa using b8,
            fun q hq => ?_⟩
          rw [setData_engines, if_neg (by omega)]
          exact b9 q hq
        · rcases hl p hp' with h | h
          · rcases List.mem_append.mp h with h | h
            · exact Or.inl h
            · simp only [List.mem_singleton] at h
              exact Or.inr (by omega)
          · simp only [setData_next_engine] at h
            exact Or.inr (by omega)
      · obtain ⟨hF, hl⟩ := ih c.1 (getString stream).2 engine_list false
        refine ⟨Frame.trans hF1 (Frame.trans hF2 hF), fun p hp' => ?_⟩
        rcases hl p hp' with h | h
        · exact Or.inl h
        · exact Or.inr (by omega)
      · obtain ⟨hF, hl⟩ := ih c.1 (getString stream).2 engine_list false
        refine ⟨Frame.trans hF1 (Frame.trans hF2 hF), fun p hp' => ?_⟩
        rcases hl p hp' with h | h
        · exact Or.inl h
        · exact Or.inr (by omega)

end Logger

namespace Logger

theorem attachLoggerEngine_no_init (cfg : Build) (s : Logger) (p : Nat) :
    s.attachLoggerEngine cfg p false =
      ((if p ≠ 0 then
          { s with
            logger_engines := s.logger_engines ++ [p]
            connections := s.connections ++ [p] }
        else s).emit_loggerEngineCountChanged p .EngineAdded, true) := by
  simp [attachLoggerEngine]

/-- The loop that deletes `engine_list.at(0)` again and again touches the log of
deletions at that one pointer only, and nothing else of the configuration. -/
theorem load_delete_frame (engine_list : List Nat) :
    ∀ (n : Nat) (s : Logger),
      (load_delete engine_list n s).logger_engines = s.logger_engines ∧
      (load_delete engine_list n s).global_log_level = s.global_log_level ∧
      (load_delete engine_list n s).engines = s.engines ∧
      ∀ p, p ≠ engine_list.getD 0 0 →
        (load_delete engine_list n s).deleted_engines.count p = s.deleted_engines.count p := by
  intro n
  induction n with
  | zero => intro s; exact ⟨rfl, rfl, rfl, fun _ _ => rfl⟩
  | succ n ih =>
    intro s
    rw [load_delete]
    obtain ⟨h1, h2, h3, h4⟩ := ih (s.delete_engine (engine_list.getD 0 0))
    refine ⟨by simpa using h1, by simpa using h2, by simpa using h3, fun p hp => ?_⟩
    rw [h4 p hp, delete_engine_deleted_engines]
    split_ifs
    · rfl
    · rw [List.count_append, List.count_singleton]
      have : (engine_list.getD 0 0 == p) = false := by
        rw [beq_eq_false_iff_ne]
        exact fun h => hp h.symm
      rw [this]
      rfl

/-- The shape of `loadSessionConfig` after a good header, when the loop that creates
the engines ends with `success` false: the created engines are deleted by the
loop of lines 771-773 and the result is `false`. -/
theorem loadSessionConfig_create_failed (cfg : Build) (s : Logger) (file_name : String)
    (content : List Nat)
    (hv : (getU32 content).1 = cfg.QTILITIES_LOGGER_BINARY_EXPORT_FORMAT % 4294967296)
    (hm : (getU32 (getU32 content).2).1 = MARKER_LOGGER_CONFIG_TAG)
    (s0 : Logger)
    (hs0 : s0 = LOG_INFO cfg
      (LOG_DEBUG cfg s
        ("Logging configuration import started from " ++ session_file_name cfg file_name))
      ("Inspecting logger configuration file format: Found binary export file format version: "
        ++ toString (getU32 content).1))
    (c : Logger × List Nat × List Nat × Bool)
    (hc : c = load_create cfg
      (toInt32 (getU32 (getU32 (getU32 (getU32 content).2).2).2).1).toNat s0
      (getU32 (getU32 (getU32 (getU32 content).2).2).2).2 [] true)
    (hfail : c.2.2.2 = false) :
    loadSessionConfig cfg s file_name content =
      (LOG_INFO cfg (load_delete c.2.2.1 c.2.2.1.length c.1)
        ("Logging configuration import failed from " ++ session_file_name cfg file_name),
        false) := by
  subst hs0
  unfold loadSessionConfig
  dsimp only
  rw [if_neg (not_not.mpr hv), if_neg (not_not.mpr hm), ← hc]
  simp [hfail]

end Logger

namespace Logger

theorem formattingEngineName_congr (s s' : Logger) (p : Nat)
    (he : s'.engines = s.engines) (hf : s'.formatters = s.formatters) :
    s'.formattingEngineName p = s.formattingEngineName p := by
  unfold formattingEngineName
  rw [he, hf]

/-- On a live list without null entries the exportable engines are those whose class
has the export capability. -/
theorem export_list_of_ne_zero (s : Logger) (h : ∀ p ∈ s.logger_engines, p ≠ 0) :
    s.export_list = s.logger_engines.filter (fun p => (s.engines p).cls.exportable) := by
  unfold export_list
  apply List.filter_congr
  intro p hp
  simp [h p hp]

theorem export_list_congr (s s' : Logger) (hl : s'.logger_engines = s.logger_engines)
    (he : s'.engines = s.engines) : s'.export_list = s.export_list := by
  unfold export_list
  rw [hl, he]

/-- The loop of `saveSessionConfig` over the exportable engines emits diagnostics
only. -/
theorem save_records_state (cfg : Build) :
    ∀ (l : List Nat) (s : Logger) (out : List Nat) (success : Bool),
      Frame s (save_records cfg l s out success).1 ∧
      (save_records cfg l s out success).1.engines = s.engines ∧
      (save_records cfg l s out success).1.next_engine = s.next_engine := by
  intro l
  induction l with
  | nil => intro s out success; exact ⟨Frame.refl s, rfl, rfl⟩
  | cons p ps ih =>
    intro s out success
    cases success with
    | false => exact ⟨Frame.refl s, rfl, rfl⟩
    | true =>
      rw [save_records]
      simp only [if_true]
      obtain ⟨h1, h2, h3⟩ := ih
        (LOG_DEBUG cfg s ("Exporting factory instance: " ++
          (s.engines p).cls.factoryTag (s.engines p).data))
        (out ++ putString ((s.engines p).cls.factoryTag (s.engines p).data) ++
          ((s.engines p).cls.exportBinary (s.engines p).data).1)
        ((s.engines p).cls.exportBinary (s.engines p).data).2
      exact ⟨Frame.trans (Frame.LOG_DEBUG cfg s _) h1, by simpa using h2, by simpa using h3⟩

/-- When every export succeeds, the loop writes, for each exportable engine in
order, its factory tag and its exported bytes, and ends with `success`. -/
theorem save_records_ok (cfg : Build) (e : Nat → EngineObj) :
    ∀ (l : List Nat) (s : Logger) (out : List Nat), s.engines = e →
      (∀ p ∈ l, ((e p).cls.exportBinary (e p).data).2 = true) →
      (save_records cfg l s out true).2 =
        (out ++ l.flatMap (fun p =>
          putString ((e p).cls.factoryTag (e p).data) ++ ((e p).cls.exportBinary (e p).data).1),
          true) := by
  intro l
  induction l with
  | nil => intro s out _ _; simp [save_records]
  | cons p ps ih =>
    intro s out he hok
    rw [save_records]
    simp only [if_true]
    rw [he, hok p (List.mem_cons_self p ps)]
    rw [ih _ _ (by simpa using he) (fun q hq => hok q (List.mem_cons_of_mem p hq))]
    simp [List.flatMap_cons, List.append_assoc]

/-- The loop of `saveSessionConfig` over the live list emits diagnostics only and
writes, for each attached engine in order, its name, the name of its
formatting engine and its activity. -/
theorem save_properties_eq (cfg : Build) (e : Nat → EngineObj) (f : Nat → FormattingEngine)
    (s0 : Logger) (he0 : s0.engines = e) (hf0 : s0.formatters = f) :
    ∀ (l : List Nat) (s : Logger) (out : List Nat), s.engines = e → s.formatters = f →
      Frame s (save_properties cfg l s out).1 ∧
      (save_properties cfg l s out).1.engines = e ∧
      (save_properties cfg l s out).2 =
        out ++ l.flatMap (fun p =>
          putString (e p).data.name ++ putString (s0.formattingEngineName p) ++
            putBool (e p).data.active) := by
  intro l
  induction l with
  | nil => intro s out he _; exact ⟨Frame.refl s, he, by simp [save_properties]⟩
  | cons p ps ih =>
    intro s out he hf
    rw [save_properties]
    obtain ⟨h1, h2, h3⟩ := ih
      (LOG_DEBUG cfg s ("Saving properties for engine: " ++ (s.engines p).data.name))
      (out ++ putString
          ((LOG_DEBUG cfg s ("Saving properties for engine: " ++
            (s.engines p).data.name)).engines p).data.name ++
        putString ((LOG_DEBUG cfg s ("Saving properties for engine: " ++
            (s.engines p).data.name)).formattingEngineName p) ++
        putBool ((LOG_DEBUG cfg s ("Saving properties for engine: " ++
            (s.engines p).data.name)).engines p).data.active)
      (by simpa using he) (by simpa using hf)
    refine ⟨Frame.trans (Frame.LOG_DEBUG cfg s _) h1, h2, ?_⟩
    rw [h3]
    have hn : (LOG_DEBUG cfg s ("Saving properties for engine: " ++
        (s.engines p).data.name)).formattingEngineName p = s0.formattingEngineName p :=
      formattingEngineName_congr s0 _ p (by simp [he, he0]) (by simp [hf, hf0])
    rw [hn]
    simp [List.flatMap_cons, List.append_assoc, he]

end Logger

/-- C7: for every input whose first `quint32` differs from the compiled-in format
version, or whose version matches but whose second `quint32` differs from the
marker `0xFAC0000F`, `loadSessionConfig` returns `false`, constructs no engine
(the object store and the next unused pointer are unchanged), deletes none, and
leaves the attached engines and the global threshold unchanged. -/
theorem C7_load_rejects_bad_header (cfg : Build) (s : Logger) (file_name : String)
    (content : List Nat)
    (h : (getU32 content).1 ≠ cfg.QTILITIES_LOGGER_BINARY_EXPORT_FORMAT % 4294967296 ∨
      ((getU32 content).1 = cfg.QTILITIES_LOGGER_BINARY_EXPORT_FORMAT % 4294967296 ∧
        (getU32 (getU32 content).2).1 ≠ 0xFAC0000F)) :
    (Logger.loadSessionConfig cfg s file_name content).2 = false ∧
    (Logger.loadSessionConfig cfg s file_name content).1.next_engine = s.next_engine ∧
    (Logger.loadSessionConfig cfg s file_name content).1.engines = s.engines ∧
    (Logger.loadSessionConfig cfg s file_name content).1.deleted_engines = s.deleted_engines ∧
    (Logger.loadSessionConfig cfg s file_name content).1.logger_engines = s.logger_engines ∧
    (Logger.loadSessionConfig cfg s file_name content).1.connections = s.connections ∧
    (Logger.loadSessionConfig cfg s file_name content).1.global_log_level =
      s.global_log_level := by
  apply Logger.loadSessionConfig_header_mismatch_fields
  rcases h with h | h
  · exact Or.inl h
  · exact Or.inr h.2

/-- Witness of C7: the file whose leading marker has a flipped byte. -/
theorem C7_load_rejects_bad_header_witness :
    ((getU32 badMarkerFile).1 = exampleBuild.QTILITIES_LOGGER_BINARY_EXPORT_FORMAT % 4294967296 ∧
      (getU32 (getU32 badMarkerFile).2).1 ≠ 0xFAC0000F) ∧
    (Logger.loadSessionConfig exampleBuild exampleLogger "" badMarkerFile).2 = false ∧
    (Logger.loadSessionConfig exampleBuild exampleLogger "" badMarkerFile).1.logger_engines
      = [1, 2] ∧
    (Logger.loadSessionConfig exampleBuild exampleLogger "" badMarkerFile).1.global_log_level
      = 2 :=
  have h := C7_load_rejects_bad_header exampleBuild exampleLogger "" badMarkerFile
    (Or.inr (by decide))
  ⟨by decide, h.1, h.2.2.2.2.1, h.2.2.2.2.2.2⟩

/-- C8, the code at the failing input: the file has a good header, one record whose
engine is reconstructed by the factory, and the `importBinary` of that engine
reports failure; yet `loadSessionConfig` returns `true`, the attached
exportable engine `2` is detached and deleted, the engine with the failed import
(pointer `3`) is attached, and the threshold of the file (`5`) is adopted.
The same happens under either default of `initialize_engine`. -/
theorem C8_import_failure_is_ignored :
    (brokenClass.importBinary ⟨"Broken1", false, 0, []⟩
      (putU32 0 ++ putU32 MARKER_LOGGER_CONFIG_TAG)).2.2 = false ∧
    (Logger.loadSessionConfig exampleBuild exampleLogger "" brokenImportFile).2 = true ∧
    (Logger.loadSessionConfig exampleBuild exampleLogger "" brokenImportFile).1.logger_engines
      = [1, 3] ∧
    (Logger.loadSessionConfig exampleBuild exampleLogger "" brokenImportFile).1.deleted_engines
      = [2] ∧
    (Logger.loadSessionConfig exampleBuild exampleLogger "" brokenImportFile).1.global_log_level
      = 5 ∧
    exampleLogger.logger_engines = [1, 2] ∧
    exampleLogger.global_log_level = 2 ∧
    (Logger.loadSessionConfig exampleBuildInit exampleLogger "" brokenImportFile).2 = true ∧
    (Logger.loadSessionConfig exampleBuildInit exampleLogger ""
      brokenImportFile).1.logger_engines = [1, 3] := by
  refine ⟨rfl, ?_, ?_, ?_, ?_, rfl, rfl, ?_, ?_⟩ <;> decide

/-- C9, the code at the failing input: a file that is well formed up to the
properties and then ends, and the same file with a `quint32` other than the
marker at its end; `loadSessionConfig` returns `true` for both and adopts the
threshold of the file (`5`, the logger had `2`). -/
theorem C9_trailing_marker_is_not_read :
    exampleLogger.global_log_level = 2 ∧
    (Logger.loadSessionConfig exampleBuild exampleLogger "" missingTrailerFile).2 = true ∧
    (Logger.loadSessionConfig exampleBuild exampleLogger ""
      missingTrailerFile).1.global_log_level = 5 ∧
    (Logger.loadSessionConfig exampleBuild exampleLogger "" wrongTrailerFile).2 = true ∧
    (Logger.loadSessionConfig exampleBuild exampleLogger ""
      wrongTrailerFile).1.global_log_level = 5 := by
  refine ⟨rfl, ?_, ?_, ?_, ?_⟩ <;> decide

/-! ## Theorems: the round trip of save and load -/

namespace Logger

theorem toInt32_toNat (n : Nat) (h : n < 2147483648) : (toInt32 n).toNat = n := by
  unfold toInt32
  have h1 : n % 4294967296 = n := Nat.mod_eq_of_lt (by omega)
  rw [h1, if_pos h]
  simp

/-- On the bytes of a list of properties the loop of lines 783-798 applies the body
of the loop to the triples in order and stops right after them. -/
theorem load_properties_encoded (cfg : Build) :
    ∀ (T : List (String × String × Bool)) (s : Logger) (rest : List Nat),
      (∀ t ∈ T, QStringOk t.1 ∧ QStringOk t.2.1) →
      load_properties cfg T.length s (T.flatMap properties_bytes ++ rest) =
        (T.foldl (fun s t => restore_properties cfg s t.1 t.2.1 t.2.2) s, rest) := by
  intro T
  induction T with
  | nil => intro s rest _; rfl
  | cons t T ih =>
    intro s rest hok
    obtain ⟨h1, h2⟩ := hok t (List.mem_cons_self t T)
    rw [List.length_cons, load_properties]
    simp only [List.flatMap_cons, properties_bytes, List.append_assoc]
    rw [getString_putString _ _ h1]
    simp only
    rw [getString_putString _ _ h2]
    simp only
    rw [getBool_putBool]
    simp only [List.foldl_cons]
    have := ih (restore_properties cfg s t.1 t.2.1 t.2.2) rest
      (fun u hu => hok u (List.mem_cons_of_mem t hu))
    simp only [properties_bytes, List.append_assoc] at this
    exact this

/-- The engine that `loggerEngineReference` finds: the one attached non-null engine
of that name. -/
theorem loggerEngineReference_eq (s : Logger) (n : String) (p : Nat)
    (hp : p ∈ s.logger_engines) (h0 : p ≠ 0) (hn : (s.engines p).data.name = n)
    (huniq : ∀ q ∈ s.logger_engines, (s.engines q).data.name = n → q = p) :
    s.loggerEngineReference n = p := by
  unfold loggerEngineReference
  generalize s.logger_engines = L at hp huniq
  induction L with
  | nil => simp at hp
  | cons q L ih =>
    rw [List.find?_cons]
    by_cases hq : (s.engines q).data.name = n
    · have hqp : q = p := huniq q (List.mem_cons_self q L) hq
      subst hqp
      have : decide (q ≠ 0 ∧ n = (s.engines q).data.name) = true := by
        simp [h0, hn]
      rw [this]
    · have : decide (q ≠ 0 ∧ n = (s.engines q).data.name) = false := by
        simp only [decide_eq_false_iff_not, not_and]
        exact fun _ h => hq h.symm
      rw [this]
      have hp' : p ∈ L := by
        rcases List.mem_cons.mp hp with h | h
        · subst h; exact absurd hn hq
        · exact h
      exact ih hp' (fun r hr => huniq r (List.mem_cons_of_mem q hr))

/-- No attached engine has the name: `loggerEngineReference` yields the null
pointer. -/
theorem loggerEngineReference_none (s : Logger) (n : String)
    (h : ∀ q ∈ s.logger_engines, (s.engines q).data.name ≠ n) :
    s.loggerEngineReference n = 0 := by
  unfold loggerEngineReference
  have : s.logger_engines.find?
      (fun p => decide (p ≠ 0 ∧ n = (s.engines p).data.name)) = none := by
    rw [List.find?_eq_none]
    intro q hq
    simp only [decide_eq_true_eq, not_and]
    exact fun _ hn => h q hq hn.symm
  rw [this]

/-- The formatting engine that `formattingEngineReference` finds for the name of a
registered formatting engine is a registered one of that name. -/
theorem formattingEngineReference_name (s : Logger) (f : Nat)
    (hf : f ∈ s.formatting_engines) :
    s.formattingEngineReference (s.formatters f).name ∈ s.formatting_engines ∧
    (s.formatters (s.formattingEngineReference (s.formatters f).name)).name =
      (s.formatters f).name := by
  unfold formattingEngineReference
  cases h : s.formatting_engines.find?
      (fun g => decide ((s.formatters f).name = (s.formatters g).name)) with
  | none =>
    rw [List.find?_eq_none] at h
    exact absurd (by simp) (h f hf)
  | some g =>
    have h1 := List.find?_some h
    have h2 := List.mem_of_find?_eq_some h
    simp only [decide_eq_true_eq] at h1
    exact ⟨h2, h1.symm⟩

theorem loggerEngineReference_spec (s : Logger) (n : String) :
    s.loggerEngineReference n = 0 ∨
    (s.loggerEngineReference n ∈ s.logger_engines ∧
      (s.engines (s.loggerEngineReference n)).data.name = n) := by
  unfold loggerEngineReference
  cases h : s.logger_engines.find?
      (fun p => decide (p ≠ 0 ∧ n = (s.engines p).data.name)) with
  | none => exact Or.inl rfl
  | some p =>
    have h1 := List.find?_some h
    have h2 := List.mem_of_find?_eq_some h
    simp only [decide_eq_true_eq] at h1
    exact Or.inr ⟨h2, h1.2.symm⟩

theorem formattingEngineReference_congr (s s' : Logger) (name : String)
    (h1 : s'.formatting_engines = s.formatting_engines) (h2 : s'.formatters = s.formatters) :
    s'.formattingEngineReference name = s.formattingEngineReference name := by
  unfold formattingEngineReference
  rw [h1, h2]

/-- What the body of the loop of lines 783-798 does: nothing but diagnostics and the
update of the formatting engine and of the activity of the engine found by
name. -/
theorem restore_properties_spec (cfg : Build) (s : Logger) (n f : String) (a : Bool) :
    (restore_properties cfg s n f a).logger_engines = s.logger_engines ∧
    (restore_properties cfg s n f a).formatting_engines = s.formatting_engines ∧
    (restore_properties cfg s n f a).formatters = s.formatters ∧
    (restore_properties cfg s n f a).global_log_level = s.global_log_level ∧
    (∀ q, ((restore_properties cfg s n f a).engines q).data.name = (s.engines q).data.name) ∧
    (∀ q, q ≠ s.loggerEngineReference n →
      (restore_properties cfg s n f a).engines q = s.engines q) ∧
    (s.loggerEngineReference n ≠ 0 →
      ((restore_properties cfg s n f a).engines (s.loggerEngineReference n)).data.formatting_engine
          = s.formattingEngineReference f ∧
      ((restore_properties cfg s n f a).engines (s.loggerEngineReference n)).data.active = a) := by
  unfold restore_properties
  by_cases h0 : s.loggerEngineReference n = 0
  · simp [h0]
  · simp only [ne_eq, h0, not_false_eq_true, if_true]
    have hfr : (LOG_DEBUG cfg s ("Restoring properties for engine: " ++ n)).formattingEngineReference f
        = s.formattingEngineReference f :=
      formattingEngineReference_congr s _ f (by simp) (by simp)
    rw [hfr]
    refine ⟨by simp [setActive, installFormattingEngine],
      by simp [setActive, installFormattingEngine],
      by simp [setActive, installFormattingEngine],
      by simp [setActive, installFormattingEngine], fun q => ?_, fun q hq => ?_, ?_⟩
    · simp only [setActive, installFormattingEngine, setData_engines, LOG_DEBUG_engines]
      split_ifs <;> simp_all
    · simp only [setActive, installFormattingEngine, setData_engines, LOG_DEBUG_engines, if_neg hq]
    · simp [setActive, installFormattingEngine, setData_engines]

/-- The loop of lines 783-798 on a list of properties with pairwise distinct names,
over a live list of non-null engines with pairwise distinct names: every engine
named in the list ends with the formatting engine found for the listed name
and with the listed activity, the engines not named are untouched, and names,
live list, registry and threshold stay. -/
theorem restore_fold (cfg : Build) :
    ∀ (T : List (String × String × Bool)) (t : Logger),
      (∀ p ∈ t.logger_engines, p ≠ 0) →
      (∀ p ∈ t.logger_engines, ∀ q ∈ t.logger_engines,
        (t.engines p).data.name = (t.engines q).data.name → p = q) →
      (T.map (fun tr => tr.1)).Nodup →
      (T.foldl (fun s tr => restore_properties cfg s tr.1 tr.2.1 tr.2.2) t).logger_engines
        = t.logger_engines ∧
      (T.foldl (fun s tr => restore_properties cfg s tr.1 tr.2.1 tr.2.2) t).formatting_engines
        = t.formatting_engines ∧
      (T.foldl (fun s tr => restore_properties cfg s tr.1 tr.2.1 tr.2.2) t).formatters
        = t.formatters ∧
      (T.foldl (fun s tr => restore_properties cfg s tr.1 tr.2.1 tr.2.2) t).global_log_level
        = t.global_log_level ∧
      (∀ p, ((T.foldl (fun s tr => restore_properties cfg s tr.1 tr.2.1 tr.2.2) t).engines
        p).data.name = (t.engines p).data.name) ∧
      (∀ p ∈ t.logger_engines, (t.engines p).data.name ∉ T.map (fun tr => tr.1) →
        (T.foldl (fun s tr => restore_properties cfg s tr.1 tr.2.1 tr.2.2) t).engines p
          = t.engines p) ∧
      (∀ tr ∈ T, ∀ p ∈ t.logger_engines, (t.engines p).data.name = tr.1 →
        ((T.foldl (fun s tr => restore_properties cfg s tr.1 tr.2.1 tr.2.2) t).engines
          p).data.formatting_engine = t.formattingEngineReference tr.2.1 ∧
        ((T.foldl (fun s tr => restore_properties cfg s tr.1 tr.2.1 tr.2.2) t).engines
          p).data.active = tr.2.2) := by
  intro T
  induction T with
  | nil =>
    intro t _ _ _
    simp
  | cons tr T ih =>
    intro t hnz hinj hT
    simp only [List.foldl_cons]
    obtain ⟨r1, r2, r3, r4, r5, r6, r7⟩ := restore_properties_spec cfg t tr.1 tr.2.1 tr.2.2
    have hT' : (T.map (fun tr => tr.1)).Nodup := (List.nodup_cons.mp hT).2
    have hnot : tr.1 ∉ T.map (fun tr => tr.1) := (List.nodup_cons.mp hT).1
    obtain ⟨i1, i2, i3, i4, i5, i6, i7⟩ := ih (restore_properties cfg t tr.1 tr.2.1 tr.2.2)
      (by rw [r1]; exact hnz)
      (by
        rw [r1]
        intro p hp q hq h
        rw [r5 p, r5 q] at h
        exact hinj p hp q hq h)
      hT'
    rw [r1] at i1 i6 i7
    refine ⟨i1, i2.trans r2, i3.trans r3, i4.trans r4, fun p => (i5 p).trans (r5 p),
      fun p hp hn => ?_, fun tr' htr' p hp hn => ?_⟩
    · have hn1 : (t.engines p).data.name ≠ tr.1 := fun h => hn (by rw [h]; simp)
      have hn2 : (t.engines p).data.name ∉ T.map (fun tr => tr.1) :=
        fun h => hn (List.mem_cons_of_mem _ h)
      rw [i6 p hp (by rw [r5 p]; exact hn2)]
      apply r6
      intro hpe
      rcases loggerEngineReference_spec t tr.1 with h | h
      · exact hnz p hp (hpe.trans h)
      · rw [← hpe] at h
        exact hn1 h.2
    · rcases List.mem_cons.mp htr' with h | h
      · subst h
        have hpe : t.loggerEngineReference tr'.1 = p :=
          loggerEngineReference_eq t tr'.1 p hp (hnz p hp) hn
            (fun q hq hqn => hinj q hq p hp (hqn.trans hn.symm))
        rw [i6 p hp (by rw [r5 p, hn]; exact hnot)]
        have := r7 (by rw [hpe]; exact hnz p hp)
        rw [hpe] at this
        exact this
      · have := i7 tr' h p hp (by rw [r5 p]; exact hn)
        rw [formattingEngineReference_congr t _ tr'.2.1 r2 r3] at this
        exact this

/-- On the records that `saveSessionConfig` wrote for engine objects whose export the
factory and the import capability invert, the loop of lines 731-750 creates
one new engine per record, in order, each with the name of the exported one,
stops right after the records and ends with `success`. -/
theorem load_create_encoded (cfg : Build) :
    ∀ (os : List EngineObj) (s : Logger) (rest : List Nat) (l : List Nat),
      (∀ o ∈ os, Reimports cfg s.logger_engine_factory o) → 0 < s.next_engine →
      (load_create cfg os.length s (os.flatMap record_bytes ++ rest) l true).2.1 = rest ∧
      (load_create cfg os.length s (os.flatMap record_bytes ++ rest) l true).2.2.1 =
        l ++ List.range' s.next_engine os.length ∧
      (load_create cfg os.length s (os.flatMap record_bytes ++ rest) l true).2.2.2 = true ∧
      (load_create cfg os.length s (os.flatMap record_bytes ++ rest) l true).1.next_engine =
        s.next_engine + os.length ∧
      Frame s (load_create cfg os.length s (os.flatMap record_bytes ++ rest) l true).1 ∧
      (List.range' s.next_engine os.length).map (fun q =>
        ((load_create cfg os.length s (os.flatMap record_bytes ++ rest) l true).1.engines
          q).data.name) = os.map (fun o => o.data.name) ∧
      (∀ q ∈ List.range' s.next_engine os.length,
        InitializeOk cfg
          ((load_create cfg os.length s (os.flatMap record_bytes ++ rest) l true).1.engines q)) := by
  intro os
  induction os with
  | nil =>
    intro s rest l _ _
    simp [load_create, Frame.refl]
  | cons o os ih =>
    intro s rest l hre hpos
    obtain ⟨hq, obj, hF, hex, himp⟩ := hre o (List.mem_cons_self o os)
    obtain ⟨hi1, hi2, hi3⟩ := himp (os.flatMap record_bytes ++ rest)
    rw [List.length_cons, load_create]
    simp only [Bool.true_eq_false, if_false, List.flatMap_cons, record_bytes, List.append_assoc]
    rw [getString_putString _ _ hq]
    simp only
    have hF1 := Frame.LOG_DEBUG cfg s ("Create factory instance: " ++ o.cls.factoryTag o.data)
    have hn1 : (LOG_DEBUG cfg s ("Create factory instance: " ++
        o.cls.factoryTag o.data)).next_engine = s.next_engine := by simp
    have hfac : (LOG_DEBUG cfg s ("Create factory instance: " ++
        o.cls.factoryTag o.data)).logger_engine_factory = s.logger_engine_factory := by simp
    generalize LOG_DEBUG cfg s ("Create factory instance: " ++ o.cls.factoryTag o.data) = s1
      at hF1 hn1 hfac ⊢
    obtain ⟨hc2, hcn, hce, -⟩ := createInstance_some s1 (o.cls.factoryTag o.data) obj
      (by rw [hfac]; exact hF)
    have hF2 := Frame.createInstance s1 (o.cls.factoryTag o.data)
    have hcf : (s1.createInstance (o.cls.factoryTag o.data)).1.logger_engine_factory =
        s1.logger_engine_factory := by simp
    generalize s1.createInstance (o.cls.factoryTag o.data) = c at hc2 hcn hce hF2 hcf ⊢
    rw [hc2, hce, if_pos (by omega), if_pos hex, hi1]
    generalize (obj.cls.importBinary obj.data
      ((o.cls.exportBinary o.data).1 ++ (os.flatMap record_bytes ++ rest))).1 = d' at hi2 hi3 ⊢
    have hF3 : Frame s1 (c.1.setData s1.next_engine d') := by
      obtain ⟨b1, b2, b3, b4, b5, b6, b7, b8, b9⟩ := hF2
      refine ⟨by simpa using b1, by simpa using b2, by simpa using b3, by simpa using b4,
        by simpa using b5, by simpa using b6, by simpa using b7, by simpa using b8,
        fun q hq => ?_⟩
      rw [setData_engines, if_neg (by omega)]
      exact b9 q hq
    have hnew : (c.1.setData s1.next_engine d').engines s1.next_engine = ⟨obj.cls, d'⟩ := by
      rw [setData_engines, if_pos rfl, hce]
    have hn3 : (c.1.setData s1.next_engine d').next_engine = s.next_engine + 1 := by
      rw [setData_next_engine, hcn, hn1]
    obtain ⟨j1, j2, j3, j4, j5, j6, j7⟩ := ih (c.1.setData s1.next_engine d') rest
      (l ++ [s1.next_engine])
      (by
        intro o' ho'
        have := hre o' (List.mem_cons_of_mem o ho')
        rw [setData_logger_engine_factory, hcf, hfac]
        exact this)
      (by omega)
    have hkeep : (load_create cfg os.length (c.1.setData s1.next_engine d')
        (os.flatMap record_bytes ++ rest) (l ++ [s1.next_engine]) true).1.engines s.next_engine
        = ⟨obj.cls, d'⟩ := by
      rw [j5.2.2.2.2.2.2.2.2 s.next_engine (by omega), ← hn1, hnew]
    rw [hn3] at j2 j4 j6 j7
    refine ⟨j1, ?_, j3, by rw [j4]; omega,
      Frame.trans hF1 (Frame.trans hF3 j5), ?_, ?_⟩
    · rw [j2, hn1, List.range'_succ, List.append_assoc]
      rfl
    · rw [List.range'_succ, List.map_cons, List.map_cons, j6, hkeep, hi2]
    · intro q hq
      rw [List.range'_succ] at hq
      rcases List.mem_cons.mp hq with h | h
      · rw [h, hkeep]
        exact hi3
      · exact j7 q h

theorem detachLoggerEngine_spec (s : Logger) (p : Nat) (hp : p ≠ 0) :
    (s.detachLoggerEngine p).1.logger_engines = s.logger_engines.erase p ∧
    (s.detachLoggerEngine p).1.engines = s.engines ∧
    (s.detachLoggerEngine p).1.formatting_engines = s.formatting_engines ∧
    (s.detachLoggerEngine p).1.formatters = s.formatters ∧
    (s.detachLoggerEngine p).1.global_log_level = s.global_log_level ∧
    (s.detachLoggerEngine p).1.next_engine = s.next_engine := by
  unfold detachLoggerEngine
  rw [if_pos hp]
  by_cases hm : p ∈ s.logger_engines
  · rw [if_pos hm]
    simp [emit_loggerEngineCountChanged]
  · rw [if_neg hm]
    simp [List.erase_of_not_mem hm]

/-- The loop of lines 762-764 removes the listed engines from the live list and
touches no object. -/
theorem load_detach_spec :
    ∀ (X : List Nat) (s : Logger), (∀ x ∈ X, x ≠ 0) →
      (load_detach X s).logger_engines = s.logger_engines.diff X ∧
      (load_detach X s).engines = s.engines ∧
      (load_detach X s).formatting_engines = s.formatting_engines ∧
      (load_detach X s).formatters = s.formatters ∧
      (load_detach X s).global_log_level = s.global_log_level ∧
      (load_detach X s).next_engine = s.next_engine := by
  intro X
  induction X with
  | nil => intro s _; simp [load_detach]
  | cons x X ih =>
    intro s hX
    obtain ⟨d1, d2, d3, d4, d5, d6⟩ := detachLoggerEngine_spec s x (hX x (List.mem_cons_self x X))
    obtain ⟨i1, i2, i3, i4, i5, i6⟩ := ih (s.detachLoggerEngine x).1
      (fun y hy => hX y (List.mem_cons_of_mem x hy))
    rw [load_detach]
    refine ⟨?_, i2.trans d2, i3.trans d3, i4.trans d4, i5.trans d5, i6.trans d6⟩
    rw [i1, d1, List.diff_cons]

theorem attachLoggerEngine_spec (cfg : Build) (s : Logger) (q : Nat) (b : Bool) (hq : q ≠ 0)
    (hinit : b = true →
      ((s.engines q).cls.initializeEngine (s.engines q).data).2 = true ∧
      ((s.engines q).cls.initializeEngine (s.engines q).data).1.name = (s.engines q).data.name) :
    (s.attachLoggerEngine cfg q b).2 = true ∧
    (s.attachLoggerEngine cfg q b).1.logger_engines = s.logger_engines ++ [q] ∧
    (∀ p, ((s.attachLoggerEngine cfg q b).1.engines p).data.name = (s.engines p).data.name) ∧
    (∀ p, p ≠ q → (s.attachLoggerEngine cfg q b).1.engines p = s.engines p) ∧
    (∀ p, ((s.attachLoggerEngine cfg q b).1.engines p).cls = (s.engines p).cls) ∧
    (s.attachLoggerEngine cfg q b).1.formatting_engines = s.formatting_engines ∧
    (s.attachLoggerEngine cfg q b).1.formatters = s.formatters ∧
    (s.attachLoggerEngine cfg q b).1.global_log_level = s.global_log_level := by
  cases b with
  | false =>
    rw [attachLoggerEngine_no_init]
    simp [emit_loggerEngineCountChanged, hq]
  | true =>
    obtain ⟨h1, h2⟩ := hinit rfl
    unfold attachLoggerEngine
    simp only [if_true, h1, Bool.true_eq_false, if_false, ne_eq, hq, not_false_eq_true]
    refine ⟨trivial, by simp [emit_loggerEngineCountChanged], fun p => ?_, fun p hp => ?_,
      fun p => ?_, by simp [emit_loggerEngineCountChanged],
      by simp [emit_loggerEngineCountChanged], by simp [emit_loggerEngineCountChanged]⟩
    · simp only [emit_loggerEngineCountChanged, setData_engines]
      split_ifs with hpq
      · subst hpq; exact h2
      · rfl
    · simp only [emit_loggerEngineCountChanged, setData_engines, if_neg hp]
    · simp only [emit_loggerEngineCountChanged, setData_engines]
      split_ifs with hpq
      · subst hpq; rfl
      · rfl

/-- The loop of lines 766-769 on new, pairwise different, non-null engines whose
`initialize()` (if it is run) succeeds and keeps the name: `success` stays
true, the engines are appended to the live list in order, and every name
stays. -/
theorem load_attach_spec (cfg : Build) :
    ∀ (Q : List Nat) (s : Logger), (∀ q ∈ Q, q ≠ 0) → Q.Nodup →
      (∀ q ∈ Q, InitializeOk cfg (s.engines q)) →
      (load_attach cfg Q s true).2 = true ∧
      (load_attach cfg Q s true).1.logger_engines = s.logger_engines ++ Q ∧
      (∀ p, ((load_attach cfg Q s true).1.engines p).data.name = (s.engines p).data.name) ∧
      (∀ p, p ∉ Q → (load_attach cfg Q s true).1.engines p = s.engines p) ∧
      (load_attach cfg Q s true).1.formatting_engines = s.formatting_engines ∧
      (load_attach cfg Q s true).1.formatters = s.formatters ∧
      (load_attach cfg Q s true).1.global_log_level = s.global_log_level := by
  intro Q
  induction Q with
  | nil => intro s _ _ _; simp [load_attach]
  | cons q Q ih =>
    intro s hnz hnd hok
    obtain ⟨a1, a2, a3, a4, a5, a6, a7, a8⟩ := attachLoggerEngine_spec cfg s q
      cfg.attach_initialize_engine_default (hnz q (List.mem_cons_self q Q))
      (hok q (List.mem_cons_self q Q))
    have hqQ : q ∉ Q := (List.nodup_cons.mp hnd).1
    obtain ⟨i1, i2, i3, i4, i5, i6, i7⟩ :=
      ih (s.attachLoggerEngine cfg q cfg.attach_initialize_engine_default).1
        (fun r hr => hnz r (List.mem_cons_of_mem q hr)) (List.nodup_cons.mp hnd).2
        (by
          intro r hr
          have hrq : r ≠ q := fun h => hqQ (h ▸ hr)
          rw [a4 r hrq]
          exact hok r (List.mem_cons_of_mem q hr))
    rw [load_attach]
    simp only [a1, Bool.true_eq_false, if_false]
    refine ⟨i1, by rw [i2, a2]; simp, fun p => (i3 p).trans (a3 p), fun p hp => ?_,
      i5.trans a6, i6.trans a7, i7.trans a8⟩
    rw [i4 p (fun h => hp (List.mem_cons_of_mem q h)),
      a4 p (fun h => hp (h ▸ List.mem_cons_self q Q))]

/-- The properties of an attached non-null engine whose name no other attached
engine has. -/
theorem engine_properties_of_mem (s : Logger) (p : Nat) (hp : p ∈ s.logger_engines)
    (h0 : p ≠ 0)
    (huniq : ∀ q ∈ s.logger_engines, (s.engines q).data.name = (s.engines p).data.name → q = p) :
    s.engine_properties (s.engines p).data.name =
      some (s.formattingEngineName p, (s.engines p).data.active) := by
  unfold engine_properties
  rw [loggerEngineReference_eq s _ p hp h0 rfl huniq, if_neg h0]

theorem engine_properties_congr (s s' : Logger) (n : String)
    (h1 : s'.logger_engines = s.logger_engines) (h2 : s'.engines = s.engines)
    (h3 : s'.formatters = s.formatters) :
    s'.engine_properties n = s.engine_properties n := by
  unfold engine_properties loggerEngineReference formattingEngineName
  rw [h1, h2, h3]

/-- The part of `loadSessionConfig` after the header, on the records and properties
that `saveSessionConfig` writes for the state `t` itself: the engines are
created, the exportable attached engines are replaced by them, and the loop
over the properties leaves every attached name with the formatting engine name
and the activity it had. -/
theorem load_body_round_trip (cfg : Build) (t : Logger) (tail : List Nat)
    (hnames : t.attachedLoggerEngineNames.Nodup)
    (hpos : 0 < t.next_engine)
    (halloc : ∀ p ∈ t.logger_engines, p ≠ 0 ∧ p < t.next_engine)
    (hnull : (0 : Nat) ∉ t.formatting_engines)
    (hfmt : ∀ p ∈ t.logger_engines,
      (t.engines p).data.formatting_engine ∈ t.formatting_engines)
    (hre : ∀ p ∈ t.export_list, Reimports cfg t.logger_engine_factory (t.engines p))
    (hstr : ∀ p ∈ t.logger_engines,
      QStringOk (t.engines p).data.name ∧ QStringOk (t.formattingEngineName p))
    (hlen : t.logger_engines.length < 2147483648)
    (c : Logger × List Nat × List Nat × Bool)
    (hc : c = load_create cfg t.export_list.length t
      (t.export_list.flatMap (fun p => record_bytes (t.engines p)) ++
        (putU32 t.logger_engines.length ++
          (t.logger_engines.flatMap (fun p => properties_bytes
            ((t.engines p).data.name, t.formattingEngineName p, (t.engines p).data.active))
            ++ tail))) [] true)
    (a : Logger × Bool)
    (ha : a = load_attach cfg c.2.2.1 (load_detach c.1.export_list c.1) true) :
    c.2.2.2 = true ∧ a.2 = true ∧
    (load_properties cfg (toInt32 (getU32 c.2.1).1).toNat a.1 (getU32 c.2.1).2).2 = tail ∧
    (load_properties cfg (toInt32 (getU32 c.2.1).1).toNat a.1
      (getU32 c.2.1).2).1.global_log_level = t.global_log_level ∧
    List.Perm
      (load_properties cfg (toInt32 (getU32 c.2.1).1).toNat a.1
        (getU32 c.2.1).2).1.attachedLoggerEngineNames t.attachedLoggerEngineNames ∧
    ∀ p ∈ t.logger_engines,
      (load_properties cfg (toInt32 (getU32 c.2.1).1).toNat a.1
        (getU32 c.2.1).2).1.engine_properties (t.engines p).data.name =
        some (t.formattingEngineName p, (t.engines p).data.active) := by
  -- the loop that creates the engines
  have hA := load_create_encoded cfg (t.export_list.map t.engines) t
    (putU32 t.logger_engines.length ++
      (t.logger_engines.flatMap (fun p => properties_bytes
        ((t.engines p).data.name, t.formattingEngineName p, (t.engines p).data.active))
        ++ tail)) []
    (by
      intro o ho
      obtain ⟨p, hp, rfl⟩ := List.mem_map.mp ho
      exact hre p hp)
    hpos
  rw [List.flatMap_map, List.length_map, ← hc] at hA
  obtain ⟨c1, c2, c3, c4, cF, c6, c7⟩ := hA
  rw [List.nil_append] at c2
  rw [List.map_map] at c6
  obtain ⟨f1, f2, -, -, f5, f6, -, -, f9⟩ := cF
  have hlive_nodup : t.logger_engines.Nodup := List.Nodup.of_map _ hnames
  have hX : c.1.export_list = t.export_list := by
    unfold export_list
    rw [f1]
    apply List.filter_congr
    intro p hp
    rw [f9 p (halloc p hp).2]
  -- the loop that detaches the exportable engines
  obtain ⟨d1, d2, d3, d4, d5, -⟩ := load_detach_spec t.export_list c.1
    (fun x hx => (halloc x (List.mem_of_mem_filter hx)).1)
  rw [f1, List.Nodup.diff_eq_filter hlive_nodup] at d1
  -- the loop that attaches the created engines
  have hQ0 : ∀ q ∈ List.range' t.next_engine t.export_list.length, q ≠ 0 := by
    intro q hq
    obtain ⟨i, -, rfl⟩ := List.mem_range'.mp hq
    omega
  obtain ⟨a1, a2, a3, a4, a5, a6, a7⟩ := load_attach_spec cfg
    (List.range' t.next_engine t.export_list.length) (load_detach t.export_list c.1) hQ0
    (List.nodup_range' _ _)
    (by
      intro q hq
      rw [d2]
      exact c7 q hq)
  rw [← c2, ← hX, ← ha] at a1 a2 a3 a4 a5 a6 a7
  rw [hX] at a2 a3 a4 a5 a6 a7
  rw [d1] at a2
  rw [d2] at a3 a4
  rw [d3, f5] at a5
  rw [d4, f6] at a6
  rw [d5, f2] at a7
  rw [c2] at a2 a4
  -- the names of the new live list are the old names, in another order
  have hNE : List.filter (fun x => decide (x ∉ t.export_list)) t.logger_engines =
      List.filter (fun x => !(t.engines x).cls.exportable) t.logger_engines := by
    apply List.filter_congr
    intro p hp
    unfold export_list
    cases hexp : (t.engines p).cls.exportable <;>
      simp [List.mem_filter, hp, hexp, (halloc p hp).1]
  have hperm : List.Perm
      (List.filter (fun x => decide (x ∉ t.export_list)) t.logger_engines ++ t.export_list)
      t.logger_engines := by
    rw [hNE, export_list_of_ne_zero t (fun p hp => (halloc p hp).1)]
    exact List.perm_append_comm.trans
      (List.filter_append_perm (fun x => (t.engines x).cls.exportable) t.logger_engines)
  have hmap : a.1.logger_engines.map (fun p => (a.1.engines p).data.name) =
      (List.filter (fun x => decide (x ∉ t.export_list)) t.logger_engines ++ t.export_list).map
        (fun p => (t.engines p).data.name) := by
    rw [a2, List.map_append, List.map_append]
    congr 1
    · apply List.map_congr_left
      intro p hp
      rw [a3 p, f9 p (halloc p (List.mem_of_mem_filter hp)).2]
    · have hc6 : List.map (fun q => (c.1.engines q).data.name)
          (List.range' t.next_engine t.export_list.length) =
          List.map (fun p => (t.engines p).data.name) t.export_list := c6
      rw [← hc6]
      apply List.map_congr_left
      intro q _
      exact a3 q
  have hnd : (a.1.logger_engines.map (fun p => (a.1.engines p).data.name)).Nodup := by
    rw [hmap]
    exact ((hperm.map _).nodup_iff).mpr hnames
  have hinj : ∀ p ∈ a.1.logger_engines, ∀ q ∈ a.1.logger_engines,
      (a.1.engines p).data.name = (a.1.engines q).data.name → p = q :=
    fun p hp q hq h => List.inj_on_of_nodup_map hnd hp hq h
  have hnz : ∀ p ∈ a.1.logger_engines, p ≠ 0 := by
    intro p hp
    rw [a2] at hp
    rcases List.mem_append.mp hp with h | h
    · exact (halloc p (List.mem_of_mem_filter h)).1
    · exact hQ0 p h
  -- the loop over the properties
  have hgu : getU32 c.2.1 = (t.logger_engines.length,
      t.logger_engines.flatMap (fun p => properties_bytes
        ((t.engines p).data.name, t.formattingEngineName p, (t.engines p).data.active))
        ++ tail) := by
    rw [c1, getU32_putU32_of_lt _ _ (by omega)]
  have hprop := load_properties_encoded cfg
    (t.logger_engines.map (fun p =>
      ((t.engines p).data.name, t.formattingEngineName p, (t.engines p).data.active))) a.1 tail
    (by
      intro tr htr
      obtain ⟨p, hp, rfl⟩ := List.mem_map.mp htr
      exact hstr p hp)
  rw [List.flatMap_map, List.length_map] at hprop
  rw [hgu]
  simp only
  rw [toInt32_toNat _ hlen, hprop]
  simp only
  obtain ⟨r1, r2, r3, r4, r5, -, r7⟩ := restore_fold cfg
    (t.logger_engines.map (fun p =>
      ((t.engines p).data.name, t.formattingEngineName p, (t.engines p).data.active))) a.1
    hnz hinj (by rw [List.map_map]; exact hnames)
  refine ⟨c3, a1, trivial, r4.trans a7, ?_, fun p hp => ?_⟩
  · unfold attachedLoggerEngineNames
    rw [r1]
    have hsame : List.map (fun p =>
        ((List.foldl (fun s tr => restore_properties cfg s tr.1 tr.2.1 tr.2.2) a.1
          (t.logger_engines.map (fun p =>
            ((t.engines p).data.name, t.formattingEngineName p,
              (t.engines p).data.active)))).engines p).data.name) a.1.logger_engines =
        List.map (fun p => (a.1.engines p).data.name) a.1.logger_engines :=
      List.map_congr_left (fun p _ => r5 p)
    rw [hsame, hmap]
    exact hperm.map _
  -- the engine of the new live list that has the name of `p`
  have hin : (t.engines p).data.name ∈
      a.1.logger_engines.map (fun p => (a.1.engines p).data.name) := by
    rw [hmap]
    exact (hperm.map _).mem_iff.mpr (List.mem_map_of_mem _ hp)
  obtain ⟨q, hq, hqn⟩ := List.mem_map.mp hin
  obtain ⟨g1, g2⟩ := r7 _ (List.mem_map_of_mem _ hp) q hq hqn
  simp only at g1 g2
  generalize List.foldl (fun s tr => restore_properties cfg s tr.1 tr.2.1 tr.2.2) a.1
    (t.logger_engines.map (fun p =>
      ((t.engines p).data.name, t.formattingEngineName p, (t.engines p).data.active))) = z
    at r1 r2 r3 r4 r5 g1 g2 ⊢
  have href : z.loggerEngineReference (t.engines p).data.name = q := by
    apply loggerEngineReference_eq z _ q (by rw [r1]; exact hq) (hnz q hq)
      (by rw [r5 q]; exact hqn)
    intro q' hq' hn'
    rw [r1] at hq'
    rw [r5 q'] at hn'
    exact hinj q' hq' q hq (hn'.trans hqn.symm)
  -- the formatting engine found for the saved name
  have hfp := hfmt p hp
  have hfp0 : (t.engines p).data.formatting_engine ≠ 0 := fun h => hnull (h ▸ hfp)
  have hname : t.formattingEngineName p =
      (t.formatters (t.engines p).data.formatting_engine).name := by
    unfold formattingEngineName
    rw [if_neg hfp0]
  obtain ⟨k1, k2⟩ := formattingEngineReference_name t _ hfp
  rw [formattingEngineReference_congr t a.1 _ a5 a6, hname] at g1
  unfold engine_properties
  rw [href, if_neg (hnz q hq), g2]
  have hk0 : t.formattingEngineReference
      (t.formatters (t.engines p).data.formatting_engine).name ≠ 0 :=
    fun h => hnull (h ▸ k1)
  unfold formattingEngineName
  rw [g1, if_neg hk0, r3, a6, k2, if_neg hfp0]

/-- The function `saveSessionConfig` changes nothing but the logs of emitted
signals: the configuration, the registries and the whole object store stay. -/
theorem saveSessionConfig_frame (cfg : Build) (s : Logger) (file_name : String)
    (file_open : Bool) :
    Frame s (saveSessionConfig cfg s file_name file_open).1 ∧
    (saveSessionConfig cfg s file_name file_open).1.engines = s.engines := by
  unfold saveSessionConfig
  dsimp only
  generalize hs1 : LOG_DEBUG cfg s ("Logging configuration export started to " ++
    session_file_name cfg file_name) = s1
  have hF1 : Frame s s1 := hs1 ▸ Frame.LOG_DEBUG cfg s _
  have he1 : s1.engines = s.engines := by rw [← hs1]; simp
  cases file_open with
  | false =>
    rw [if_pos rfl]
    exact ⟨Frame.trans hF1 (Frame.LOG_DEBUG cfg s1 _), by simpa using he1⟩
  | true =>
    rw [if_neg (by decide)]
    obtain ⟨hF2, he2, -⟩ := save_records_state cfg s1.export_list s1
      (putU32 cfg.QTILITIES_LOGGER_BINARY_EXPORT_FORMAT ++ putU32 MARKER_LOGGER_CONFIG_TAG ++
        putU32 s1.global_log_level ++ putU32 s1.export_list.length) true
    generalize save_records cfg s1.export_list s1
      (putU32 cfg.QTILITIES_LOGGER_BINARY_EXPORT_FORMAT ++ putU32 MARKER_LOGGER_CONFIG_TAG ++
        putU32 s1.global_log_level ++ putU32 s1.export_list.length) true = r at hF2 he2 ⊢
    cases hsucc : r.2.2 with
    | false =>
      simp only [Bool.false_eq_true, if_false]
      exact ⟨Frame.trans hF1 (Frame.trans hF2 (Frame.LOG_INFO cfg r.1 _)),
        by simpa using he2.trans he1⟩
    | true =>
      simp only [if_true]
      obtain ⟨hF3, he3, -⟩ := save_properties_eq cfg r.1.engines r.1.formatters r.1 rfl rfl
        r.1.logger_engines r.1 (r.2.1 ++ putU32 r.1.logger_engines.length) rfl rfl
      exact ⟨Frame.trans hF1 (Frame.trans hF2 (Frame.trans hF3 (Frame.LOG_INFO cfg _ _))),
        by simpa using he3.trans (he2.trans he1)⟩

/-- When the file opens and every export succeeds, `saveSessionConfig` returns
`true` and writes the eight parts of the layout in order. -/
theorem saveSessionConfig_ok (cfg : Build) (s : Logger) (file_name : String)
    (hexp : ∀ p ∈ s.export_list, ((s.engines p).cls.exportBinary (s.engines p).data).2 = true) :
    (saveSessionConfig cfg s file_name true).2.1 = true ∧
    (saveSessionConfig cfg s file_name true).2.2 =
      putU32 cfg.QTILITIES_LOGGER_BINARY_EXPORT_FORMAT ++
      putU32 MARKER_LOGGER_CONFIG_TAG ++
      putU32 s.global_log_level ++
      putU32 s.export_list.length ++
      s.export_list.flatMap (fun p =>
        putString ((s.engines p).cls.factoryTag (s.engines p).data) ++
          ((s.engines p).cls.exportBinary (s.engines p).data).1) ++
      putU32 s.logger_engines.length ++
      s.logger_engines.flatMap (fun p =>
        putString (s.engines p).data.name ++ putString (s.formattingEngineName p) ++
          putBool (s.engines p).data.active) ++
      putU32 MARKER_LOGGER_CONFIG_TAG := by
  refine ⟨?_, ?_⟩
  · unfold Logger.saveSessionConfig
    dsimp only
    rw [if_neg (by decide)]
    generalize hs1 : Logger.LOG_DEBUG cfg s ("Logging configuration export started to " ++
      Logger.session_file_name cfg file_name) = s1
    have he1 : s1.engines = s.engines := by rw [← hs1]; simp
    have hl1 : s1.logger_engines = s.logger_engines := by rw [← hs1]; simp
    have hx1 : s1.export_list = s.export_list := Logger.export_list_congr s s1 hl1 he1
    have hrec := Logger.save_records_ok cfg s.engines s1.export_list s1
      (putU32 cfg.QTILITIES_LOGGER_BINARY_EXPORT_FORMAT ++ putU32 MARKER_LOGGER_CONFIG_TAG ++
        putU32 s1.global_log_level ++ putU32 s1.export_list.length) he1
      (by rw [hx1]; exact hexp)
    rw [hrec]
    simp
  · unfold Logger.saveSessionConfig
    dsimp only
    rw [if_neg (by decide)]
    generalize hs1 : Logger.LOG_DEBUG cfg s ("Logging configuration export started to " ++
      Logger.session_file_name cfg file_name) = s1
    have he1 : s1.engines = s.engines := by rw [← hs1]; simp
    have hf1 : s1.formatters = s.formatters := by rw [← hs1]; simp
    have hl1 : s1.logger_engines = s.logger_engines := by rw [← hs1]; simp
    have hg1 : s1.global_log_level = s.global_log_level := by rw [← hs1]; simp
    have hx1 : s1.export_list = s.export_list := Logger.export_list_congr s s1 hl1 he1
    have hrec := Logger.save_records_ok cfg s.engines s1.export_list s1
      (putU32 cfg.QTILITIES_LOGGER_BINARY_EXPORT_FORMAT ++ putU32 MARKER_LOGGER_CONFIG_TAG ++
        putU32 s1.global_log_level ++ putU32 s1.export_list.length) he1
      (by rw [hx1]; exact hexp)
    obtain ⟨hF, he2, -⟩ := Logger.save_records_state cfg s1.export_list s1
      (putU32 cfg.QTILITIES_LOGGER_BINARY_EXPORT_FORMAT ++ putU32 MARKER_LOGGER_CONFIG_TAG ++
        putU32 s1.global_log_level ++ putU32 s1.export_list.length) true
    rw [hrec]
    simp only [if_true]
    generalize (Logger.save_records cfg s1.export_list s1
      (putU32 cfg.QTILITIES_LOGGER_BINARY_EXPORT_FORMAT ++ putU32 MARKER_LOGGER_CONFIG_TAG ++
        putU32 s1.global_log_level ++ putU32 s1.export_list.length) true).1 = s2 at hF he2 ⊢
    obtain ⟨-, -, h3⟩ := Logger.save_properties_eq cfg s.engines s.formatters s rfl rfl
      s2.logger_engines s2
      (putU32 cfg.QTILITIES_LOGGER_BINARY_EXPORT_FORMAT ++ putU32 MARKER_LOGGER_CONFIG_TAG ++
        putU32 s1.global_log_level ++ putU32 s1.export_list.length ++
        s1.export_list.flatMap (fun p =>
          putString ((s.engines p).cls.factoryTag (s.engines p).data) ++
            ((s.engines p).cls.exportBinary (s.engines p).data).1) ++
        putU32 s2.logger_engines.length)
      (he2.trans he1) (hF.2.2.2.2.2.1.trans hf1)
    rw [h3, hF.1, hl1, hx1, hg1]

end Logger

namespace Logger

/-- The loop over the exportable engines ends with `success` only if every export
succeeded. -/
theorem save_records_success (cfg : Build) (e : Nat → EngineObj) :
    ∀ (l : List Nat) (s : Logger) (out : List Nat), s.engines = e →
      (save_records cfg l s out true).2.2 = true →
      ∀ p ∈ l, ((e p).cls.exportBinary (e p).data).2 = true := by
  intro l
  induction l with
  | nil => intro s out _ _ p hp; simp at hp
  | cons q l ih =>
    intro s out he hsucc p hp
    rw [save_records] at hsucc
    simp only [if_true] at hsucc
    rw [he] at hsucc
    cases hq : ((e q).cls.exportBinary (e q).data).2 with
    | false =>
      rw [hq] at hsucc
      cases l with
      | nil => simp [save_records] at hsucc
      | cons r l => simp [save_records] at hsucc
    | true =>
      rw [hq] at hsucc
      rcases List.mem_cons.mp hp with h | h
      · rw [h]; exact hq
      · exact ih _ _ (by simpa using he) hsucc p h

/-- A successful `saveSessionConfig` had its file opened and every export
succeeding. -/
theorem saveSessionConfig_success (cfg : Build) (s : Logger) (file_name : String)
    (file_open : Bool) (h : (saveSessionConfig cfg s file_name file_open).2.1 = true) :
    file_open = true ∧
    ∀ p ∈ s.export_list, ((s.engines p).cls.exportBinary (s.engines p).data).2 = true := by
  unfold saveSessionConfig at h
  dsimp only at h
  cases file_open with
  | false => simp at h
  | true =>
    refine ⟨rfl, ?_⟩
    rw [if_neg (by decide)] at h
    generalize hs1 : LOG_DEBUG cfg s ("Logging configuration export started to " ++
      session_file_name cfg file_name) = s1 at h
    have he1 : s1.engines = s.engines := by rw [← hs1]; simp
    have hl1 : s1.logger_engines = s.logger_engines := by rw [← hs1]; simp
    have hx1 : s1.export_list = s.export_list := export_list_congr s s1 hl1 he1
    have hrec := save_records_success cfg s.engines s1.export_list s1
      (putU32 cfg.QTILITIES_LOGGER_BINARY_EXPORT_FORMAT ++ putU32 MARKER_LOGGER_CONFIG_TAG ++
        putU32 s1.global_log_level ++ putU32 s1.export_list.length) he1
    rw [hx1] at hrec
    apply hrec
    rw [hx1] at h
    cases hsucc : (save_records cfg s.export_list s1
      (putU32 cfg.QTILITIES_LOGGER_BINARY_EXPORT_FORMAT ++ putU32 MARKER_LOGGER_CONFIG_TAG ++
        putU32 s1.global_log_level ++ putU32 s.export_list.length) true).2.2 with
    | true => rfl
    | false =>
      rw [hsucc] at h
      simp at h

/-- The shape of `loadSessionConfig` after a good header, when the loop that creates
the engines and the loop that attaches them both end with `success` true. -/
theorem loadSessionConfig_success (cfg : Build) (s : Logger) (file_name : String)
    (content : List Nat)
    (hv : (getU32 content).1 = cfg.QTILITIES_LOGGER_BINARY_EXPORT_FORMAT % 4294967296)
    (hm : (getU32 (getU32 content).2).1 = MARKER_LOGGER_CONFIG_TAG)
    (s0 : Logger)
    (hs0 : s0 = LOG_INFO cfg
      (LOG_DEBUG cfg s
        ("Logging configuration import started from " ++ session_file_name cfg file_name))
      ("Inspecting logger configuration file format: Found binary export file format version: "
        ++ toString (getU32 content).1))
    (c : Logger × List Nat × List Nat × Bool)
    (hc : c = load_create cfg
      (toInt32 (getU32 (getU32 (getU32 (getU32 content).2).2).2).1).toNat s0
      (getU32 (getU32 (getU32 (getU32 content).2).2).2).2 [] true)
    (hok : c.2.2.2 = true)
    (a : Logger × Bool)
    (ha : a = load_attach cfg c.2.2.1 (load_detach c.1.export_list c.1) true)
    (hat : a.2 = true) :
    loadSessionConfig cfg s file_name content =
      (LOG_INFO cfg
        (setGlobalLogLevel cfg
          (load_properties cfg (toInt32 (getU32 c.2.1).1).toNat a.1 (getU32 c.2.1).2).1
          (getU32 (getU32 (getU32 content).2).2).1)
        ("Logging configuration successfully imported from " ++
          session_file_name cfg file_name), true) := by
  subst hs0
  unfold loadSessionConfig
  dsimp only
  rw [if_neg (not_not.mpr hv), if_neg (not_not.mpr hm), ← hc]
  simp only [hok, if_true]
  rw [← ha]
  simp only [hat, if_true]

end Logger

/-- C10: for every logger state, when the file opens and `exportBinary` succeeds for
every exportable attached engine, `saveSessionConfig` returns `true` and the
bytes written are exactly, in this order: the format version, the marker, the
global threshold and the number of exportable engines (each a `quint32`), for
each exportable attached engine in the order of the live list its factory tag
and its exported bytes, the number of attached engines, for every attached
engine in the order of the live list its name, the name of its formatting
engine and its activity, and the marker again; the exportable engines are a
sub-list of the attached engines. -/
theorem C10_save_layout (cfg : Build) (s : Logger) (file_name : String)
    (hexp : ∀ p ∈ s.export_list, ((s.engines p).cls.exportBinary (s.engines p).data).2 = true) :
    (Logger.saveSessionConfig cfg s file_name true).2.1 = true ∧
    (Logger.saveSessionConfig cfg s file_name true).2.2 =
      putU32 cfg.QTILITIES_LOGGER_BINARY_EXPORT_FORMAT ++
      putU32 0xFAC0000F ++
      putU32 s.global_log_level ++
      putU32 s.export_list.length ++
      s.export_list.flatMap (fun p =>
        putString ((s.engines p).cls.factoryTag (s.engines p).data) ++
          ((s.engines p).cls.exportBinary (s.engines p).data).1) ++
      putU32 s.logger_engines.length ++
      s.logger_engines.flatMap (fun p =>
        putString (s.engines p).data.name ++ putString (s.formattingEngineName p) ++
          putBool (s.engines p).data.active) ++
      putU32 0xFAC0000F ∧
    List.Sublist s.export_list s.logger_engines := by
  obtain ⟨h1, h2⟩ := Logger.saveSessionConfig_ok cfg s file_name hexp
  exact ⟨h1, h2, List.filter_sublist _⟩

/-- Witness of C10: the example logger, whose only exportable engine exports with
success. -/
theorem C10_save_layout_witness :
    (∀ p ∈ exampleLogger.export_list,
      ((exampleLogger.engines p).cls.exportBinary (exampleLogger.engines p).data).2 = true) ∧
    (Logger.saveSessionConfig exampleBuild exampleLogger "" true).2.1 = true ∧
    List.Sublist exampleLogger.export_list exampleLogger.logger_engines :=
  have h := C10_save_layout exampleBuild exampleLogger "" (by decide)
  ⟨by decide, h.1, h.2.2⟩

/-- C6: round trip.  For every logger state whose attached engines are allocated,
non-null and have pairwise distinct names and registered formatting engines,
and whose exportable engines are re-created by the factory and the import
capability from what they export (with the name, and with `initialize()`
succeeding where `attachLoggerEngine` runs it): the bytes that a successful
`saveSessionConfig` wrote, whatever follows them in the file, make a following
`loadSessionConfig` return `true`, and afterwards the global threshold is the
one before the save, the attached names are the same, and every name has the
same formatting engine name and activity as before the save. -/
theorem C6_save_load_round_trip (cfg : Build) (s : Logger) (file_name file_name' : String)
    (file_open : Bool) (junk : List Nat)
    (hsave : (Logger.saveSessionConfig cfg s file_name file_open).2.1 = true)
    (hnames : s.attachedLoggerEngineNames.Nodup)
    (hpos : 0 < s.next_engine)
    (halloc : ∀ p ∈ s.logger_engines, p ≠ 0 ∧ p < s.next_engine)
    (hnull : (0 : Nat) ∉ s.formatting_engines)
    (hfmt : ∀ p ∈ s.logger_engines,
      (s.engines p).data.formatting_engine ∈ s.formatting_engines)
    (hre : ∀ p ∈ s.export_list, Logger.Reimports cfg s.logger_engine_factory (s.engines p))
    (hstr : ∀ p ∈ s.logger_engines,
      QStringOk (s.engines p).data.name ∧ QStringOk (s.formattingEngineName p))
    (hlen : s.logger_engines.length < 2147483648)
    (hlevel : s.global_log_level < 4294967296) :
    (Logger.loadSessionConfig cfg (Logger.saveSessionConfig cfg s file_name file_open).1
      file_name' ((Logger.saveSessionConfig cfg s file_name file_open).2.2 ++ junk)).2 = true ∧
    (Logger.loadSessionConfig cfg (Logger.saveSessionConfig cfg s file_name file_open).1
      file_name' ((Logger.saveSessionConfig cfg s file_name file_open).2.2 ++ junk)
      ).1.global_log_level = s.global_log_level ∧
    List.Perm
      (Logger.loadSessionConfig cfg (Logger.saveSessionConfig cfg s file_name file_open).1
        file_name' ((Logger.saveSessionConfig cfg s file_name file_open).2.2 ++ junk)
        ).1.attachedLoggerEngineNames s.attachedLoggerEngineNames ∧
    (∀ n : String,
      (Logger.loadSessionConfig cfg (Logger.saveSessionConfig cfg s file_name file_open).1
        file_name' ((Logger.saveSessionConfig cfg s file_name file_open).2.2 ++ junk)
        ).1.engine_properties n = s.engine_properties n) ∧
    (∀ p ∈ s.logger_engines,
      s.engine_properties (s.engines p).data.name =
        some (s.formattingEngineName p, (s.engines p).data.active)) := by
  obtain ⟨hopen, hexp⟩ := Logger.saveSessionConfig_success cfg s file_name file_open hsave
  subst hopen
  obtain ⟨-, hbytes⟩ := Logger.saveSessionConfig_ok cfg s file_name hexp
  obtain ⟨hF, he⟩ := Logger.saveSessionConfig_frame cfg s file_name true
  rw [hbytes]
  generalize (Logger.saveSessionConfig cfg s file_name true).1 = s1 at hF he ⊢
  obtain ⟨f1, f2, -, -, f5, f6, f7, f8, -⟩ := hF
  have hk : s.export_list.length < 2147483648 :=
    lt_of_le_of_lt (List.length_filter_le _ _) hlen
  -- the parts of the file
  simp only [List.append_assoc]
  generalize hrecs : s.export_list.flatMap (fun p =>
    putString ((s.engines p).cls.factoryTag (s.engines p).data) ++
      ((s.engines p).cls.exportBinary (s.engines p).data).1) = recs
  generalize hprops : s.logger_engines.flatMap (fun p =>
    putString (s.engines p).data.name ++ (putString (s.formattingEngineName p) ++
      putBool (s.engines p).data.active)) = props
  have h4 : getU32 (putU32 s.export_list.length ++ (recs ++ (putU32 s.logger_engines.length ++
      (props ++ (putU32 MARKER_LOGGER_CONFIG_TAG ++ junk))))) =
      (s.export_list.length, recs ++ (putU32 s.logger_engines.length ++
        (props ++ (putU32 MARKER_LOGGER_CONFIG_TAG ++ junk)))) :=
    getU32_putU32_of_lt _ _ (by omega)
  generalize putU32 s.export_list.length ++ (recs ++ (putU32 s.logger_engines.length ++
      (props ++ (putU32 MARKER_LOGGER_CONFIG_TAG ++ junk)))) = R3 at h4 ⊢
  have h3 : getU32 (putU32 s.global_log_level ++ R3) = (s.global_log_level, R3) :=
    getU32_putU32_of_lt _ _ hlevel
  generalize putU32 s.global_log_level ++ R3 = R2 at h3 ⊢
  have h2 : getU32 (putU32 MARKER_LOGGER_CONFIG_TAG ++ R2) = (MARKER_LOGGER_CONFIG_TAG, R2) :=
    getU32_putU32_of_lt _ _ (by decide)
  generalize putU32 MARKER_LOGGER_CONFIG_TAG ++ R2 = R1 at h2 ⊢
  have h1 := getU32_putU32 cfg.QTILITIES_LOGGER_BINARY_EXPORT_FORMAT R1
  generalize putU32 cfg.QTILITIES_LOGGER_BINARY_EXPORT_FORMAT ++ R1 = content at h1 ⊢
  -- the state in which the loop that creates the engines starts
  obtain ⟨t, ht⟩ : ∃ t, t = Logger.LOG_INFO cfg
      (Logger.LOG_DEBUG cfg s1
        ("Logging configuration import started from " ++
          Logger.session_file_name cfg file_name'))
      ("Inspecting logger configuration file format: Found binary export file format version: "
        ++ toString (getU32 content).1) := ⟨_, rfl⟩
  have tl : t.logger_engines = s.logger_engines := by rw [ht]; simpa using f1
  have tg : t.global_log_level = s.global_log_level := by rw [ht]; simpa using f2
  have tfe : t.formatting_engines = s.formatting_engines := by rw [ht]; simpa using f5
  have tfm : t.formatters = s.formatters := by rw [ht]; simpa using f6
  have tfa : t.logger_engine_factory = s.logger_engine_factory := by rw [ht]; simpa using f7
  have tn : s.next_engine ≤ t.next_engine := by rw [ht]; simpa using f8
  have te : t.engines = s.engines := by rw [ht]; simpa using he
  have tx : t.export_list = s.export_list := Logger.export_list_congr s t tl te
  have tfn : t.formattingEngineName = s.formattingEngineName :=
    funext (fun p => Logger.formattingEngineName_congr s t p te tfm)
  have tnames : t.attachedLoggerEngineNames = s.attachedLoggerEngineNames := by
    unfold Logger.attachedLoggerEngineNames
    rw [tl, te]
  -- the three loops, on the state `t`
  obtain ⟨c, hc⟩ : ∃ c, c = Logger.load_create cfg t.export_list.length t
      (t.export_list.flatMap (fun p => Logger.record_bytes (t.engines p)) ++
        (putU32 t.logger_engines.length ++
          (t.logger_engines.flatMap (fun p => Logger.properties_bytes
            ((t.engines p).data.name, t.formattingEngineName p, (t.engines p).data.active))
            ++ (putU32 MARKER_LOGGER_CONFIG_TAG ++ junk)))) [] true := ⟨_, rfl⟩
  obtain ⟨a, ha⟩ : ∃ a, a = Logger.load_attach cfg c.2.2.1
      (Logger.load_detach c.1.export_list c.1) true := ⟨_, rfl⟩
  obtain ⟨hok, hat, -, hg, hperm, hprop⟩ := Logger.load_body_round_trip cfg t
    (putU32 MARKER_LOGGER_CONFIG_TAG ++ junk)
    (by rw [tnames]; exact hnames) (by omega)
    (by rw [tl]; exact fun p hp => ⟨(halloc p hp).1, by have := (halloc p hp).2; omega⟩)
    (by rw [tfe]; exact hnull)
    (by rw [tl, te, tfe]; exact hfmt)
    (by rw [tx, tfa, te]; exact hre)
    (by rw [tl, te, tfn]; exact hstr)
    (by rw [tl]; exact hlen) c hc a ha
  have hc' : c = Logger.load_create cfg
      (toInt32 (getU32 (getU32 (getU32 (getU32 content).2).2).2).1).toNat t
      (getU32 (getU32 (getU32 (getU32 content).2).2).2).2 [] true := by
    rw [hc, h1]
    simp only
    rw [h2]
    simp only
    rw [h3]
    simp only
    rw [h4]
    simp only
    rw [Logger.toInt32_toNat _ hk, tx, tl, te, tfn, ← hrecs, ← hprops]
    simp only [Logger.record_bytes, Logger.properties_bytes, List.append_assoc]
  have hshape := Logger.loadSessionConfig_success cfg s1 file_name' content
    (by rw [h1]) (by rw [h1]; simp only; rw [h2]) t ht c hc' hok a ha hat
  rw [hshape]
  have hlevel' : (getU32 (getU32 (getU32 content).2).2).1 = s.global_log_level := by
    rw [h1]
    simp only
    rw [h2]
    simp only
    rw [h3]
  rw [hlevel']
  generalize Logger.load_properties cfg (toInt32 (getU32 c.2.1).1).toNat a.1 (getU32 c.2.1).2 = pr
    at hg hperm hprop ⊢
  have hset : Logger.setGlobalLogLevel cfg pr.1 s.global_log_level = pr.1 := by
    unfold Logger.setGlobalLogLevel
    rw [if_pos (hg.trans tg)]
  rw [hset]
  have huniq : ∀ p ∈ s.logger_engines, ∀ q ∈ s.logger_engines,
      (s.engines q).data.name = (s.engines p).data.name → q = p :=
    fun p hp q hq h => List.inj_on_of_nodup_map hnames hq hp h
  have hold : ∀ p ∈ s.logger_engines,
      s.engine_properties (s.engines p).data.name =
        some (s.formattingEngineName p, (s.engines p).data.active) :=
    fun p hp => Logger.engine_properties_of_mem s p hp (halloc p hp).1 (huniq p hp)
  have hpermN : List.Perm pr.1.attachedLoggerEngineNames s.attachedLoggerEngineNames := by
    rw [← tnames]
    exact hperm
  refine ⟨rfl, by simpa using hg.trans tg, ?_, fun n => ?_, hold⟩
  · have : (Logger.LOG_INFO cfg pr.1
        ("Logging configuration successfully imported from " ++
          Logger.session_file_name cfg file_name')).attachedLoggerEngineNames =
        pr.1.attachedLoggerEngineNames := by
      unfold Logger.attachedLoggerEngineNames
      simp
    rw [this]
    exact hpermN
  · rw [Logger.engine_properties_congr pr.1 _ n (by simp) (by simp) (by simp)]
    by_cases hn : n ∈ s.attachedLoggerEngineNames
    · obtain ⟨p, hp, rfl⟩ := List.mem_map.mp hn
      rw [hold p hp]
      have := hprop p (by rw [tl]; exact hp)
      rw [te, tfn] at this
      exact this
    · have hn' : n ∉ pr.1.attachedLoggerEngineNames := fun h => hn (hpermN.mem_iff.mp h)
      have e1 : s.loggerEngineReference n = 0 :=
        Logger.loggerEngineReference_none s n
          (fun q hq h => hn (List.mem_map.mpr ⟨q, hq, h⟩))
      have e2 : pr.1.loggerEngineReference n = 0 :=
        Logger.loggerEngineReference_none pr.1 n
          (fun q hq h => hn' (List.mem_map.mpr ⟨q, hq, h⟩))
      unfold Logger.engine_properties
      rw [e1, e2]
      simp

/-- In the example world the factory and the import of the file-like class invert the
export of the attached file engine. -/
theorem exampleLogger_reimports (cfg : Build) :
    ∀ p ∈ exampleLogger.export_list,
      Logger.Reimports cfg exampleLogger.logger_engine_factory (exampleLogger.engines p) := by
  intro p hp
  have hx : exampleLogger.export_list = [2] := by decide
  rw [hx, List.mem_singleton] at hp
  subst hp
  refine ⟨by decide, ⟨fileClass, ⟨"", false, 0, []⟩⟩, rfl, rfl, fun rest => ?_⟩
  have hexp : ((exampleLogger.engines 2).cls.exportBinary (exampleLogger.engines 2).data).1 =
      putString "File1" ++ putU32 2 ++ [7, 8] := rfl
  have hname : (exampleLogger.engines 2).data.name = "File1" := rfl
  rw [hexp, hname]
  have himp : fileClass.importBinary ⟨"", false, 0, []⟩
      (putString "File1" ++ putU32 2 ++ [7, 8] ++ rest) =
      (⟨"File1", false, 0, [7, 8]⟩, rest, true) := by
    show (_, _, _) = _
    simp only [List.append_assoc]
    rw [getString_putString "File1" _ (by decide)]
    simp only
    rw [getU32_putU32_of_lt 2 _ (by decide)]
    rfl
  rw [himp]
  exact ⟨rfl, rfl, fun _ => ⟨rfl, rfl⟩⟩

/-- Witness of C6: the example logger (a console engine and an exportable file
engine) is saved and loaded again. -/
theorem C6_save_load_round_trip_witness :
    (Logger.saveSessionConfig exampleBuild exampleLogger "" true).2.1 = true ∧
    exampleLogger.attachedLoggerEngineNames.Nodup ∧
    (Logger.loadSessionConfig exampleBuild
      (Logger.saveSessionConfig exampleBuild exampleLogger "" true).1 ""
      ((Logger.saveSessionConfig exampleBuild exampleLogger "" true).2.2 ++ [1, 2, 3])).2 = true ∧
    (Logger.loadSessionConfig exampleBuild
      (Logger.saveSessionConfig exampleBuild exampleLogger "" true).1 ""
      ((Logger.saveSessionConfig exampleBuild exampleLogger "" true).2.2 ++ [1, 2, 3])
      ).1.engine_properties "File1" = some ("Default", true) :=
  have h := C6_save_load_round_trip exampleBuild exampleLogger "" "" true [1, 2, 3]
    (by decide) (by decide) (by decide) (by decide) (by decide) (by decide)
    (exampleLogger_reimports exampleBuild) (by decide) (by decide) (by decide)
  ⟨by decide, by decide, h.1, (h.2.2.2.1 "File1").trans (by decide)⟩

/-! ## Theorems: a failed load -/

namespace Logger

/-- Every engine that the loop of lines 731-750 appends to `engine_list` is an
allocated object whose class is the class of an object of the factory. -/
theorem load_create_cls (cfg : Build) :
    ∀ (n : Nat) (s : Logger) (stream : List Nat) (engine_list : List Nat) (success : Bool),
      (∀ p ∈ engine_list, p < s.next_engine ∧
        ∃ tag obj, s.logger_engine_factory tag = some obj ∧ (s.engines p).cls = obj.cls) →
      ∀ p ∈ (load_create cfg n s stream engine_list success).2.2.1,
        ∃ tag obj, s.logger_engine_factory tag = some obj ∧
          ((load_create cfg n s stream engine_list success).1.engines p).cls = obj.cls := by
  intro n
  induction n with
  | zero =>
    intro s stream engine_list success h p hp
    exact (h p hp).2
  | succ n ih =>
    intro s stream engine_list success h
    cases success with
    | false => exact fun p hp => (h p hp).2
    | true =>
      rw [load_create]
      simp only [Bool.true_eq_false, if_false]
      have hn1 : (LOG_DEBUG cfg s ("Create factory instance: " ++
          (getString stream).1)).next_engine = s.next_engine := by simp
      have hfac : (LOG_DEBUG cfg s ("Create factory instance: " ++
          (getString stream).1)).logger_engine_factory = s.logger_engine_factory := by simp
      have he1 : (LOG_DEBUG cfg s ("Create factory instance: " ++
          (getString stream).1)).engines = s.engines := by simp
      generalize LOG_DEBUG cfg s ("Create factory instance: " ++ (getString stream).1) = s1
        at hn1 hfac he1 ⊢
      have hcf : (s1.createInstance (getString stream).1).1.logger_engine_factory =
          s.logger_engine_factory := by simp [hfac]
      obtain ⟨hptr, hle, -, hkeep⟩ := createInstance_cases s1 (getString stream).1
      have hsome : (s1.createInstance (getString stream).1).2 ≠ 0 →
          ∃ obj, s.logger_engine_factory (getString stream).1 = some obj ∧
            (s1.createInstance (getString stream).1).2 = s.next_engine ∧
            (s1.createInstance (getString stream).1).1.next_engine = s.next_engine + 1 ∧
            (s1.createInstance (getString stream).1).1.engines s.next_engine = obj := by
        intro h0
        cases hf : s1.logger_engine_factory (getString stream).1 with
        | none => rw [createInstance_none s1 _ hf] at h0; exact absurd rfl h0
        | some obj =>
          obtain ⟨k1, k2, k3, -⟩ := createInstance_some s1 _ obj hf
          exact ⟨obj, by rw [← hfac]; exact hf, by rw [k1, hn1], by rw [k2, hn1],
            by rw [← hn1]; exact k3⟩
      generalize s1.createInstance (getString stream).1 = c at hcf hptr hle hkeep hsome ⊢
      have hold : ∀ p ∈ engine_list, p < c.1.next_engine ∧
          ∃ tag obj, c.1.logger_engine_factory tag = some obj ∧ (c.1.engines p).cls = obj.cls := by
        intro p hp
        obtain ⟨hlt, tag, obj, hf, hcls⟩ := h p hp
        refine ⟨by omega, tag, obj, by rw [hcf]; exact hf, ?_⟩
        rw [hkeep p (by omega), he1]
        exact hcls
      split_ifs with h0 hex
      · obtain ⟨obj, hf, k1, k2, k3⟩ := hsome h0
        have := ih (c.1.setData c.2 ((c.1.engines c.2).cls.importBinary
          (c.1.engines c.2).data (getString stream).2).1)
          ((c.1.engines c.2).cls.importBinary (c.1.engines c.2).data (getString stream).2).2.1
          (engine_list ++ [c.2]) true
          (by
            intro p hp
            rcases List.mem_append.mp hp with hp | hp
            · obtain ⟨hlt, tag, obj', hf', hcls⟩ := hold p hp
              have hne : p ≠ c.2 := by
                have := (h p hp).1
                omega
              exact ⟨by simpa using hlt, tag, obj', by simpa using hf',
                by rw [setData_engines, if_neg hne]; exact hcls⟩
            · simp only [List.mem_singleton] at hp
              subst hp
              refine ⟨by simp only [setData_next_engine]; omega, (getString stream).1, obj,
                by simp only [setData_logger_engine_factory]; rw [hcf]; exact hf, ?_⟩
              rw [setData_engines, if_pos rfl]
              show (c.1.engines c.2).cls = obj.cls
              rw [k1, k3])
        intro p hp
        obtain ⟨tag, obj', hf', hcls⟩ := this p hp
        exact ⟨tag, obj', by rw [← hcf]; simpa using hf', hcls⟩
      · have := ih c.1 (getString stream).2 engine_list false hold
        intro p hp
        obtain ⟨tag, obj', hf', hcls⟩ := this p hp
        exact ⟨tag, obj', by rw [← hcf]; exact hf', hcls⟩
      · have := ih c.1 (getString stream).2 engine_list false hold
        intro p hp
        obtain ⟨tag, obj', hf', hcls⟩ := this p hp
        exact ⟨tag, obj', by rw [← hcf]; exact hf', hcls⟩

theorem detachLoggerEngine_engines (s : Logger) (p : Nat) :
    (s.detachLoggerEngine p).1.engines = s.engines := by
  unfold detachLoggerEngine
  split_ifs <;> simp

/-- The loop of lines 762-764 touches no object. -/
theorem load_detach_engines : ∀ (X : List Nat) (s : Logger),
    (load_detach X s).engines = s.engines := by
  intro X
  induction X with
  | nil => intro s; rfl
  | cons x X ih =>
    intro s
    rw [load_detach, ih, detachLoggerEngine_engines]

theorem attachLoggerEngine_cls (cfg : Build) (s : Logger) (p : Nat) (b : Bool) (q : Nat) :
    ((s.attachLoggerEngine cfg p b).1.engines q).cls = (s.engines q).cls := by
  have hset : ∀ d, ((s.setData p d).engines q).cls = (s.engines q).cls := by
    intro d
    rw [setData_engines]
    split_ifs with h
    · rw [h]
    · rfl
  cases b with
  | false =>
    rw [attachLoggerEngine_no_init]
    by_cases hp : p ≠ 0 <;> simp [emit_loggerEngineCountChanged, hp]
  | true =>
    unfold attachLoggerEngine
    simp only [if_true]
    by_cases hr : ((s.engines p).cls.initializeEngine (s.engines p).data).2 = false
    · rw [if_pos hr]
      simp only [delete_engine_engines, LOG_ERROR_engines]
      exact hset _
    · rw [if_neg hr]
      by_cases hp : p ≠ 0
      · rw [if_pos hp]
        exact hset _
      · rw [if_neg hp]
        exact hset _

theorem attachLoggerEngine_result (cfg : Build) (s : Logger) (p : Nat) (b : Bool)
    (h : b = true → ((s.engines p).cls.initializeEngine (s.engines p).data).2 = true) :
    (s.attachLoggerEngine cfg p b).2 = true := by
  cases b with
  | false => rw [attachLoggerEngine_no_init]
  | true =>
    have := h rfl
    unfold attachLoggerEngine
    simp [this]

/-- When `attachLoggerEngine` does not run `initialize()` by default, or the
`initialize()` of the classes of the engines to attach cannot fail, the loop
that attaches the created engines leaves `success` true. -/
theorem load_attach_result (cfg : Build) :
    ∀ (Q : List Nat) (s : Logger),
      (cfg.attach_initialize_engine_default = true →
        ∀ p ∈ Q, ∀ d, ((s.engines p).cls.initializeEngine d).2 = true) →
      (load_attach cfg Q s true).2 = true := by
  intro Q
  induction Q with
  | nil => intro s _; rfl
  | cons q Q ih =>
    intro s h
    rw [load_attach]
    rw [attachLoggerEngine_result cfg s q _
      (fun hb => h hb q (List.mem_cons_self q Q) _)]
    simp only [Bool.true_eq_false, if_false]
    apply ih
    intro hb p hp d
    rw [attachLoggerEngine_cls]
    exact h hb p (List.mem_cons_of_mem q hp) d

theorem attachLoggerEngine_global_log_level (cfg : Build) (s : Logger) (p : Nat) (b : Bool) :
    (s.attachLoggerEngine cfg p b).1.global_log_level = s.global_log_level := by
  cases b with
  | false =>
    rw [attachLoggerEngine_no_init]
    by_cases hp : p ≠ 0 <;> simp [emit_loggerEngineCountChanged, hp]
  | true =>
    unfold attachLoggerEngine
    simp only [if_true]
    by_cases hr : ((s.engines p).cls.initializeEngine (s.engines p).data).2 = false
    · rw [if_pos hr]
      simp
    · rw [if_neg hr]
      by_cases hp : p ≠ 0 <;> simp [emit_loggerEngineCountChanged, hp]

theorem load_attach_global_log_level (cfg : Build) :
    ∀ (Q : List Nat) (s : Logger) (success : Bool),
      (load_attach cfg Q s success).1.global_log_level = s.global_log_level := by
  intro Q
  induction Q with
  | nil => intro s success; rfl
  | cons q Q ih =>
    intro s success
    rw [load_attach, ih, attachLoggerEngine_global_log_level]

theorem detachLoggerEngine_global_log_level (s : Logger) (p : Nat) :
    (s.detachLoggerEngine p).1.global_log_level = s.global_log_level := by
  unfold detachLoggerEngine
  split_ifs <;> simp [emit_loggerEngineCountChanged]

theorem load_detach_global_log_level : ∀ (X : List Nat) (s : Logger),
    (load_detach X s).global_log_level = s.global_log_level := by
  intro X
  induction X with
  | nil => intro s; rfl
  | cons x X ih =>
    intro s
    rw [load_detach, ih, detachLoggerEngine_global_log_level]

/-- The shape of `loadSessionConfig` after a good header, when the loop that creates
the engines ends with `success` true and an `attachLoggerEngine` fails: the
exportable engines have been detached, the properties are not read and the
result is `false`. -/
theorem loadSessionConfig_attach_failed (cfg : Build) (s : Logger) (file_name : String)
    (content : List Nat)
    (hv : (getU32 content).1 = cfg.QTILITIES_LOGGER_BINARY_EXPORT_FORMAT % 4294967296)
    (hm : (getU32 (getU32 content).2).1 = MARKER_LOGGER_CONFIG_TAG)
    (s0 : Logger)
    (hs0 : s0 = LOG_INFO cfg
      (LOG_DEBUG cfg s
        ("Logging configuration import started from " ++ session_file_name cfg file_name))
      ("Inspecting logger configuration file format: Found binary export file format version: "
        ++ toString (getU32 content).1))
    (c : Logger × List Nat × List Nat × Bool)
    (hc : c = load_create cfg
      (toInt32 (getU32 (getU32 (getU32 (getU32 content).2).2).2).1).toNat s0
      (getU32 (getU32 (getU32 (getU32 content).2).2).2).2 [] true)
    (hok : c.2.2.2 = true)
    (a : Logger × Bool)
    (ha : a = load_attach cfg c.2.2.1 (load_detach c.1.export_list c.1) true)
    (hat : a.2 = false) :
    loadSessionConfig cfg s file_name content =
      (LOG_INFO cfg a.1
        ("Logging configuration import failed from " ++ session_file_name cfg file_name),
        false) := by
  subst hs0
  unfold loadSessionConfig
  dsimp only
  rw [if_neg (not_not.mpr hv), if_neg (not_not.mpr hm), ← hc]
  simp only [hok, if_true]
  rw [← ha]
  simp only [hat, Bool.false_eq_true, if_false]

end Logger

namespace Logger

/-- When `attachLoggerEngine` cannot fail inside `loadSessionConfig` and the result
is `false`, the live list, the objects of the attached engines and the
threshold are untouched and no attached engine was deleted. -/
theorem loadSessionConfig_false_configuration (cfg : Build) (s : Logger) (file_name : String)
    (content : List Nat)
    (hinit : cfg.attach_initialize_engine_default = true →
      ∀ tag obj, s.logger_engine_factory tag = some obj →
        ∀ d, (obj.cls.initializeEngine d).2 = true)
    (hwf : ∀ p ∈ s.logger_engines, p < s.next_engine)
    (hfalse : (Logger.loadSessionConfig cfg s file_name content).2 = false) :
    (Logger.loadSessionConfig cfg s file_name content).1.logger_engines = s.logger_engines ∧
    (Logger.loadSessionConfig cfg s file_name content).1.global_log_level =
      s.global_log_level ∧
    (∀ p ∈ s.logger_engines,
      (Logger.loadSessionConfig cfg s file_name content).1.engines p = s.engines p) ∧
    (∀ p ∈ s.logger_engines,
      (Logger.loadSessionConfig cfg s file_name content).1.deleted_engines.count p =
        s.deleted_engines.count p) := by
  by_cases hv : (getU32 content).1 = cfg.QTILITIES_LOGGER_BINARY_EXPORT_FORMAT % 4294967296
  swap
  · obtain ⟨_, _, h3, h4, h5, _, h7⟩ :=
      Logger.loadSessionConfig_header_mismatch_fields cfg s file_name content (Or.inl hv)
    exact ⟨h5, h7, fun p _ => by rw [h3], fun p _ => by rw [h4]⟩
  by_cases hm : (getU32 (getU32 content).2).1 = MARKER_LOGGER_CONFIG_TAG
  swap
  · obtain ⟨_, _, h3, h4, h5, _, h7⟩ :=
      Logger.loadSessionConfig_header_mismatch_fields cfg s file_name content (Or.inr hm)
    exact ⟨h5, h7, fun p _ => by rw [h3], fun p _ => by rw [h4]⟩
  obtain ⟨hF, hl⟩ := Logger.load_create_frame cfg
    (toInt32 (getU32 (getU32 (getU32 (getU32 content).2).2).2).1).toNat
    (Logger.LOG_INFO cfg
      (Logger.LOG_DEBUG cfg s
        ("Logging configuration import started from " ++ Logger.session_file_name cfg file_name))
      ("Inspecting logger configuration file format: Found binary export file format version: "
        ++ toString (getU32 content).1))
    (getU32 (getU32 (getU32 (getU32 content).2).2).2).2 [] true
  cases hok : (Logger.load_create cfg
    (toInt32 (getU32 (getU32 (getU32 (getU32 content).2).2).2).1).toNat
    (Logger.LOG_INFO cfg
      (Logger.LOG_DEBUG cfg s
        ("Logging configuration import started from " ++ Logger.session_file_name cfg file_name))
      ("Inspecting logger configuration file format: Found binary export file format version: "
        ++ toString (getU32 content).1))
    (getU32 (getU32 (getU32 (getU32 content).2).2).2).2 [] true).2.2.2 with
  | true =>
    have hcls := Logger.load_create_cls cfg
      (toInt32 (getU32 (getU32 (getU32 (getU32 content).2).2).2).1).toNat
      (Logger.LOG_INFO cfg
        (Logger.LOG_DEBUG cfg s
          ("Logging configuration import started from " ++
            Logger.session_file_name cfg file_name))
        ("Inspecting logger configuration file format: Found binary export file format version: "
          ++ toString (getU32 content).1))
      (getU32 (getU32 (getU32 (getU32 content).2).2).2).2 [] true
      (fun p hp => absurd hp (List.not_mem_nil p))
    simp only [Logger.LOG_INFO_logger_engine_factory, Logger.LOG_DEBUG_logger_engine_factory]
      at hcls
    have hshape := Logger.loadSessionConfig_success cfg s file_name content hv hm _ rfl _ rfl hok
      _ rfl
      (Logger.load_attach_result cfg _ _ (by
        intro hb p hp d
        rw [Logger.load_detach_engines]
        obtain ⟨tag, obj, hf, hc⟩ := hcls p hp
        rw [hc]
        exact hinit hb tag obj hf d))
    rw [hshape] at hfalse
    exact Bool.noConfusion hfalse
  | false =>
    rw [Logger.loadSessionConfig_create_failed cfg s file_name content hv hm _ rfl _ rfl hok]
    obtain ⟨d1, d2, d3, d4⟩ := Logger.load_delete_frame
      (Logger.load_create cfg
        (toInt32 (getU32 (getU32 (getU32 (getU32 content).2).2).2).1).toNat
        (Logger.LOG_INFO cfg
          (Logger.LOG_DEBUG cfg s
            ("Logging configuration import started from " ++
              Logger.session_file_name cfg file_name))
          ("Inspecting logger configuration file format: Found binary export file format version: "
            ++ toString (getU32 content).1))
        (getU32 (getU32 (getU32 (getU32 content).2).2).2).2 [] true).2.2.1
      (Logger.load_create cfg
        (toInt32 (getU32 (getU32 (getU32 (getU32 content).2).2).2).1).toNat
        (Logger.LOG_INFO cfg
          (Logger.LOG_DEBUG cfg s
            ("Logging configuration import started from " ++
              Logger.session_file_name cfg file_name))
          ("Inspecting logger configuration file format: Found binary export file format version: "
            ++ toString (getU32 content).1))
        (getU32 (getU32 (getU32 (getU32 content).2).2).2).2 [] true).2.2.1.length
      (Logger.load_create cfg
        (toInt32 (getU32 (getU32 (getU32 (getU32 content).2).2).2).1).toNat
        (Logger.LOG_INFO cfg
          (Logger.LOG_DEBUG cfg s
            ("Logging configuration import started from " ++
              Logger.session_file_name cfg file_name))
          ("Inspecting logger configuration file format: Found binary export file format version: "
            ++ toString (getU32 content).1))
        (getU32 (getU32 (getU32 (getU32 content).2).2).2).2 [] true).1
    generalize Logger.load_create cfg
        (toInt32 (getU32 (getU32 (getU32 (getU32 content).2).2).2).1).toNat
        (Logger.LOG_INFO cfg
          (Logger.LOG_DEBUG cfg s
            ("Logging configuration import started from " ++
              Logger.session_file_name cfg file_name))
          ("Inspecting logger configuration file format: Found binary export file format version: "
            ++ toString (getU32 content).1))
        (getU32 (getU32 (getU32 (getU32 content).2).2).2).2 [] true = c at hF hl d1 d2 d3 d4 hok ⊢
    obtain ⟨f1, f2, f3, _, _, _, _, f8, f9⟩ := hF
    simp only [Logger.LOG_INFO_logger_engines, Logger.LOG_DEBUG_logger_engines,
      Logger.LOG_INFO_global_log_level, Logger.LOG_DEBUG_global_log_level,
      Logger.LOG_INFO_engines, Logger.LOG_DEBUG_engines, Logger.LOG_INFO_next_engine,
      Logger.LOG_DEBUG_next_engine, Logger.LOG_INFO_deleted_engines,
      Logger.LOG_DEBUG_deleted_engines] at f1 f2 f3 f8 f9 hl ⊢
    refine ⟨d1.trans f1, d2.trans f2, fun p hp => ?_, fun p hp => ?_⟩
    · rw [d3]
      exact f9 p (hwf p hp)
    · have hlt := hwf p hp
      by_cases hnil : c.2.2.1 = []
      · rw [hnil]
        simp only [List.length_nil, Logger.load_delete]
        rw [f3]
      · obtain ⟨q, qs, hcl⟩ := List.exists_cons_of_ne_nil hnil
        have hne : p ≠ c.2.2.1.getD 0 0 := by
          rw [hcl]
          simp only [List.getD_cons_zero]
          rcases hl q (by rw [hcl]; exact List.mem_cons_self q qs) with h | h
          · simp at h
          · omega
        rw [d4 p hne, f3]

/-- Whenever `loadSessionConfig` returns `false`, the global threshold is the one
before the call, whatever happened to the engines. -/
theorem loadSessionConfig_false_global_log_level (cfg : Build) (s : Logger)
    (file_name : String) (content : List Nat)
    (hfalse : (Logger.loadSessionConfig cfg s file_name content).2 = false) :
    (Logger.loadSessionConfig cfg s file_name content).1.global_log_level =
      s.global_log_level := by
  by_cases hv : (getU32 content).1 = cfg.QTILITIES_LOGGER_BINARY_EXPORT_FORMAT % 4294967296
  swap
  · exact (Logger.loadSessionConfig_header_mismatch_fields cfg s file_name content
      (Or.inl hv)).2.2.2.2.2.2
  by_cases hm : (getU32 (getU32 content).2).1 = MARKER_LOGGER_CONFIG_TAG
  swap
  · exact (Logger.loadSessionConfig_header_mismatch_fields cfg s file_name content
      (Or.inr hm)).2.2.2.2.2.2
  obtain ⟨t, ht⟩ : ∃ t, t = Logger.LOG_INFO cfg
      (Logger.LOG_DEBUG cfg s
        ("Logging configuration import started from " ++
          Logger.session_file_name cfg file_name))
      ("Inspecting logger configuration file format: Found binary export file format version: "
        ++ toString (getU32 content).1) := ⟨_, rfl⟩
  have tg : t.global_log_level = s.global_log_level := by rw [ht]; simp
  obtain ⟨c, hc⟩ : ∃ c, c = Logger.load_create cfg
      (toInt32 (getU32 (getU32 (getU32 (getU32 content).2).2).2).1).toNat t
      (getU32 (getU32 (getU32 (getU32 content).2).2).2).2 [] true := ⟨_, rfl⟩
  have cg : c.1.global_log_level = t.global_log_level := by
    rw [hc]
    exact (Logger.load_create_frame cfg _ t _ [] true).1.2.1
  cases hok : c.2.2.2 with
  | false =>
    rw [Logger.loadSessionConfig_create_failed cfg s file_name content hv hm t ht c hc hok]
    simp only [Logger.LOG_INFO_global_log_level]
    rw [(Logger.load_delete_frame c.2.2.1 c.2.2.1.length c.1).2.1, cg, tg]
  | true =>
    obtain ⟨a, ha⟩ : ∃ a, a = Logger.load_attach cfg c.2.2.1
        (Logger.load_detach c.1.export_list c.1) true := ⟨_, rfl⟩
    cases hat : a.2 with
    | true =>
      rw [Logger.loadSessionConfig_success cfg s file_name content hv hm t ht c hc hok a ha hat]
        at hfalse
      exact Bool.noConfusion hfalse
    | false =>
      rw [Logger.loadSessionConfig_attach_failed cfg s file_name content hv hm t ht c hc hok a ha
        hat]
      simp only [Logger.LOG_INFO_global_log_level]
      rw [ha, Logger.load_attach_global_log_level, Logger.load_detach_global_log_level, cg, tg]

end Logger

/-- In the example world the `initialize()` of every class of the factory
succeeds. -/
theorem exampleLogger_initialize_ok :
    exampleBuildInit.attach_initialize_engine_default = true →
      ∀ tag obj, exampleLogger.logger_engine_factory tag = some obj →
        ∀ d, (obj.cls.initializeEngine d).2 = true := by
  intro _ tag obj hf d
  simp only [exampleLogger] at hf
  split_ifs at hf
  · cases hf; rfl
  · cases hf; rfl

/-- C5: for every logger state whose attached engines are allocated objects and every
file content, whenever `loadSessionConfig` returns `false`, the global
threshold is what it was before the call, and so are the live list (same
engines, same order) and the objects of the attached engines, and no attached
engine was deleted.  The second part is for a build in which the call
`attachLoggerEngine(engine_list.at(i))` of line 767 does not run
`initialize()`, that is, in which the default that `Logger.h` declares for
`initialize_engine` is false (the other calls of `attachLoggerEngine` pass
`true` explicitly); it also holds in a build where the default is true when
the `initialize()` of every engine class of the factory succeeds. -/
theorem C5_load_failure_leaves_configuration (cfg : Build) (s : Logger) (file_name : String)
    (content : List Nat)
    (hwf : ∀ p ∈ s.logger_engines, p < s.next_engine)
    (hfalse : (Logger.loadSessionConfig cfg s file_name content).2 = false) :
    (Logger.loadSessionConfig cfg s file_name content).1.global_log_level =
      s.global_log_level ∧
    ((cfg.attach_initialize_engine_default = true →
        ∀ tag obj, s.logger_engine_factory tag = some obj →
          ∀ d, (obj.cls.initializeEngine d).2 = true) →
      (Logger.loadSessionConfig cfg s file_name content).1.logger_engines = s.logger_engines ∧
      (∀ p ∈ s.logger_engines,
        (Logger.loadSessionConfig cfg s file_name content).1.engines p = s.engines p) ∧
      (∀ p ∈ s.logger_engines,
        (Logger.loadSessionConfig cfg s file_name content).1.deleted_engines.count p =
          s.deleted_engines.count p)) := by
  refine ⟨Logger.loadSessionConfig_false_global_log_level cfg s file_name content hfalse,
    fun hinit => ?_⟩
  obtain ⟨h1, -, h3, h4⟩ :=
    Logger.loadSessionConfig_false_configuration cfg s file_name content hinit hwf hfalse
  exact ⟨h1, h3, h4⟩

/-- Witness of C5: a record with an unknown tag makes `loadSessionConfig` return
`false` on the example logger and leaves the threshold `2` and the live list
`[1, 2]`, in the build where `attachLoggerEngine` does not run `initialize()`
by default and in the build where it does. -/
theorem C5_load_failure_leaves_configuration_witness :
    (∀ p ∈ exampleLogger.logger_engines, p < exampleLogger.next_engine) ∧
    exampleBuild.attach_initialize_engine_default = false ∧
    (Logger.loadSessionConfig exampleBuild exampleLogger "" unknownTagFile).2 = false ∧
    (Logger.loadSessionConfig exampleBuild exampleLogger "" unknownTagFile).1.global_log_level
      = 2 ∧
    (Logger.loadSessionConfig exampleBuild exampleLogger "" unknownTagFile).1.logger_engines
      = [1, 2] ∧
    (Logger.loadSessionConfig exampleBuildInit exampleLogger "" unknownTagFile).2 = false ∧
    (Logger.loadSessionConfig exampleBuildInit exampleLogger "" unknownTagFile).1.logger_engines
      = [1, 2] :=
  have h := C5_load_failure_leaves_configuration exampleBuild exampleLogger ""
    unknownTagFile (by decide) (by decide)
  have h' := C5_load_failure_leaves_configuration exampleBuildInit exampleLogger ""
    unknownTagFile (by decide) (by decide)
  ⟨by decide, rfl, by decide, h.1, (h.2 (fun hb => Bool.noConfusion hb)).1, by decide,
    (h'.2 exampleLogger_initialize_ok).1⟩

/-- In a build where `attachLoggerEngine` runs `initialize()` by default, a well-formed
file with one record of a class whose `initialize()` fails makes
`loadSessionConfig` return `false` after the attached exportable engine `2`
was detached and deleted: the live list is `[1]`, it was `[1, 2]`.  In the
build where the default is false the same call returns `true`. -/
theorem loadSessionConfig_failing_attach_example :
    (∀ p ∈ exampleLoggerNoInit.logger_engines, p < exampleLoggerNoInit.next_engine) ∧
    exampleLoggerNoInit.logger_engines = [1, 2] ∧
    exampleLoggerNoInit.deleted_engines = [] ∧
    (Logger.loadSessionConfig exampleBuildInit exampleLoggerNoInit "" noInitFile).2 = false ∧
    (Logger.loadSessionConfig exampleBuildInit exampleLoggerNoInit "" noInitFile).1.logger_engines
      = [1] ∧
    (Logger.loadSessionConfig exampleBuildInit exampleLoggerNoInit "" noInitFile).1.deleted_engines
      = [2, 3] ∧
    (Logger.loadSessionConfig exampleBuild exampleLoggerNoInit "" noInitFile).2 = true := by
  refine ⟨?_, rfl, rfl, ?_, ?_, ?_, ?_⟩ <;> decide

/-! ## Theorems: attach, detach and the single engine operations -/

/-- C12: for every non-null engine: when its `initialize()` returns false,
`attachLoggerEngine(engine, true)` returns false, deletes the engine and leaves
the live list unchanged, so the count is unchanged and, for an engine that was
not attached before, the list of attached names is unchanged; when its
`initialize()` succeeds, or with `initialize_engine` false, it returns true,
the live list is the old one with the engine appended at the end, the engine
is connected to the broadcast and nothing is deleted. -/
theorem C12_attachLoggerEngine (cfg : Build) (s : Logger) (p : Nat) (hp : p ≠ 0) :
    (((s.engines p).cls.initializeEngine (s.engines p).data).2 = false →
      (s.attachLoggerEngine cfg p true).2 = false ∧
      (s.attachLoggerEngine cfg p true).1.deleted_engines = s.deleted_engines ++ [p] ∧
      (s.attachLoggerEngine cfg p true).1.logger_engines = s.logger_engines ∧
      (s.attachLoggerEngine cfg p true).1.attachedLoggerEngineCount =
        s.attachedLoggerEngineCount ∧
      (p ∉ s.logger_engines →
        (s.attachLoggerEngine cfg p true).1.attachedLoggerEngineNames =
          s.attachedLoggerEngineNames)) ∧
    (((s.engines p).cls.initializeEngine (s.engines p).data).2 = true →
      (s.attachLoggerEngine cfg p true).2 = true ∧
      (s.attachLoggerEngine cfg p true).1.logger_engines = s.logger_engines ++ [p] ∧
      (s.attachLoggerEngine cfg p true).1.connections = s.connections ++ [p] ∧
      (s.attachLoggerEngine cfg p true).1.deleted_engines = s.deleted_engines) ∧
    ((s.attachLoggerEngine cfg p false).2 = true ∧
      (s.attachLoggerEngine cfg p false).1.logger_engines = s.logger_engines ++ [p] ∧
      (s.attachLoggerEngine cfg p false).1.connections = s.connections ++ [p] ∧
      (s.attachLoggerEngine cfg p false).1.deleted_engines = s.deleted_engines ∧
      (s.attachLoggerEngine cfg p false).1.engines = s.engines) := by
  refine ⟨fun hf => ?_, fun ht => ?_, ?_⟩
  · have hr : s.attachLoggerEngine cfg p true =
        ((Logger.LOG_ERROR cfg
          (s.setData p ((s.engines p).cls.initializeEngine (s.engines p).data).1)
          "New file logger engine could not be added, it failed during initialization."
          ).delete_engine p, false) := by
      simp [Logger.attachLoggerEngine, hf]
    rw [hr]
    refine ⟨rfl, ?_, by simp, by simp [Logger.attachedLoggerEngineCount], fun hnot => ?_⟩
    · simp [Logger.delete_engine_deleted_engines, hp]
    · unfold Logger.attachedLoggerEngineNames
      simp only [Logger.delete_engine_logger_engines, Logger.LOG_ERROR_logger_engines,
        Logger.setData_logger_engines, Logger.delete_engine_engines, Logger.LOG_ERROR_engines]
      apply List.map_congr_left
      intro q hq
      have hqp : q ≠ p := fun h => hnot (h ▸ hq)
      rw [Logger.setData_engines, if_neg hqp]
  · have hr : s.attachLoggerEngine cfg p true =
        (({ s.setData p ((s.engines p).cls.initializeEngine (s.engines p).data).1 with
            logger_engines := s.logger_engines ++ [p]
            connections := s.connections ++ [p] } : Logger).emit_loggerEngineCountChanged p
          .EngineAdded, true) := by
      simp [Logger.attachLoggerEngine, ht, hp, Logger.setData]
    rw [hr]
    exact ⟨rfl, rfl, rfl, rfl⟩
  · rw [Logger.attachLoggerEngine_no_init]
    simp [Logger.emit_loggerEngineCountChanged, hp]

/-- Witness of C12: attaching the new engine `3`, whose `initialize()` fails, with
initialization returns false, deletes it and leaves the live list `[1, 2]`;
attaching the new engine `4`, whose `initialize()` succeeds, returns true and
appends it. -/
theorem C12_attachLoggerEngine_witness :
    (3 : Nat) ≠ 0 ∧
    ((exampleLoggerWithNew.engines 3).cls.initializeEngine
      (exampleLoggerWithNew.engines 3).data).2 = false ∧
    (exampleLoggerWithNew.attachLoggerEngine exampleBuild 3 true).2 = false ∧
    (exampleLoggerWithNew.attachLoggerEngine exampleBuild 3 true).1.deleted_engines = [3] ∧
    (exampleLoggerWithNew.attachLoggerEngine exampleBuild 3 true).1.logger_engines = [1, 2] ∧
    (exampleLoggerWithNew.attachLoggerEngine exampleBuild 4 true).2 = true ∧
    (exampleLoggerWithNew.attachLoggerEngine exampleBuild 4 true).1.logger_engines =
      [1, 2, 4] :=
  ⟨by decide, rfl,
    ((C12_attachLoggerEngine exampleBuild exampleLoggerWithNew 3 (by decide)).1 rfl).1,
    ((C12_attachLoggerEngine exampleBuild exampleLoggerWithNew 3 (by decide)).1 rfl).2.1,
    ((C12_attachLoggerEngine exampleBuild exampleLoggerWithNew 3 (by decide)).1 rfl).2.2.1,
    ((C12_attachLoggerEngine exampleBuild exampleLoggerWithNew 4 (by decide)).2.1 rfl).1,
    ((C12_attachLoggerEngine exampleBuild exampleLoggerWithNew 4 (by decide)).2.1 rfl).2.1⟩

/-- C13: for every engine that is not in the live list, and for the null pointer,
`detachLoggerEngine` returns false and changes nothing at all (nothing is
deleted, the live list is the same); for a non-null engine in the live list it
returns true, deletes it, and the live list becomes the old one without the
first occurrence of the engine, the order of the others preserved. -/
theorem C13_detachLoggerEngine (s : Logger) (p : Nat) :
    (p ∉ s.logger_engines ∨ p = 0 → s.detachLoggerEngine p = (s, false)) ∧
    (p ∈ s.logger_engines → p ≠ 0 →
      (s.detachLoggerEngine p).2 = true ∧
      (s.detachLoggerEngine p).1.deleted_engines = s.deleted_engines ++ [p] ∧
      (s.detachLoggerEngine p).1.logger_engines = s.logger_engines.erase p ∧
      ∃ before after, p ∉ before ∧ s.logger_engines = before ++ p :: after ∧
        (s.detachLoggerEngine p).1.logger_engines = before ++ after) := by
  refine ⟨fun h => ?_, fun hin h0 => ?_⟩
  · unfold Logger.detachLoggerEngine
    rcases h with h | h
    · by_cases h0 : p ≠ 0
      · rw [if_pos h0, if_neg h]
      · rw [if_neg h0]
    · rw [if_neg (not_not.mpr h)]
  · have hr : s.detachLoggerEngine p =
        ((({ s with logger_engines := s.logger_engines.erase p } :
          Logger).emit_loggerEngineCountChanged p .EngineRemoved).delete_engine p, true) := by
      unfold Logger.detachLoggerEngine
      rw [if_pos h0, if_pos hin]
    rw [hr]
    have hl : ((({ s with logger_engines := s.logger_engines.erase p } :
        Logger).emit_loggerEngineCountChanged p .EngineRemoved).delete_engine p).logger_engines =
        s.logger_engines.erase p := by simp
    refine ⟨rfl, ?_, hl, ?_⟩
    · simp [Logger.delete_engine_deleted_engines, h0]
    · obtain ⟨l1, l2, h1, h2, h3⟩ := List.exists_erase_eq hin
      exact ⟨l1, l2, h1, h2, hl.trans h3⟩

/-- Witness of C13: the attached engine `2` of the example logger is detached. -/
theorem C13_detachLoggerEngine_witness :
    (2 : Nat) ∈ exampleLogger.logger_engines ∧ (2 : Nat) ≠ 0 ∧
    (exampleLogger.detachLoggerEngine 2).1.logger_engines = [1] ∧
    exampleLogger.detachLoggerEngine 3 = (exampleLogger, false) :=
  ⟨by decide, by decide,
    ((C13_detachLoggerEngine exampleLogger 2).2 (by decide) (by decide)).2.2.1.trans (by decide),
    (C13_detachLoggerEngine exampleLogger 3).1 (Or.inl (by decide))⟩

/-- C14, the code at the failing input: on the example logger, whose engine `File1`
is active and whose engine `Console` is inactive, `enableEngine` leaves
`File1` inactive and `Console` inactive, and `disableEngine` leaves both
active: each calls `setActive` with the opposite value.  The live list is
unchanged, and `enableAllLoggerEngines` / `disableAllLoggerEngines` do set the
flags to `true` / `false`. -/
theorem C14_enable_disable_swapped :
    (exampleLogger.engines 2).data.name = "File1" ∧
    (exampleLogger.engines 2).data.active = true ∧
    (exampleLogger.engines 1).data.name = "Console" ∧
    (exampleLogger.engines 1).data.active = false ∧
    ((exampleLogger.enableEngine "File1").engines 2).data.active = false ∧
    ((exampleLogger.enableEngine "Console").engines 1).data.active = false ∧
    ((exampleLogger.disableEngine "File1").engines 2).data.active = true ∧
    ((exampleLogger.disableEngine "Console").engines 1).data.active = true ∧
    (exampleLogger.enableEngine "File1").logger_engines = [1, 2] ∧
    (exampleLogger.enableAllLoggerEngines.engines 1).data.active = true ∧
    (exampleLogger.disableAllLoggerEngines.engines 2).data.active = false := by
  refine ⟨rfl, rfl, rfl, rfl, ?_, ?_, ?_, ?_, ?_, ?_, ?_⟩ <;> decide

/-- C15, the code at every input: the loop condition of `deleteAllLoggerEngines` is
`i << count`, which is `0` at `i = 0`, so the body never runs: for every fuel
and every logger the call terminates and its only effect is to empty the live
list; no engine is deleted.  On the example logger the two attached engines
are dropped from the list and none is destroyed. -/
theorem C15_deleteAllLoggerEngines_deletes_nothing :
    (∀ (fuel : Nat) (s : Logger),
      Logger.deleteAllLoggerEngines fuel s = some { s with logger_engines := [] }) ∧
    exampleLogger.logger_engines = [1, 2] ∧
    (Logger.deleteAllLoggerEngines 0 exampleLogger).map (fun t => t.logger_engines) = some [] ∧
    (Logger.deleteAllLoggerEngines 0 exampleLogger).map (fun t => t.deleted_engines) =
      some [] := by
  have h : ∀ (fuel : Nat) (s : Logger),
      Logger.deleteAllLoggerEngines fuel s = some { s with logger_engines := [] } := by
    intro fuel s
    have hl : Logger.deleteAll_loop fuel 0 s = some s := by
      cases fuel <;> simp [Logger.deleteAll_loop, Logger.shift_left]
    simp [Logger.deleteAllLoggerEngines, hl]
  refine ⟨h, rfl, ?_, ?_⟩
  · rw [h]; rfl
  · rw [h]; rfl

/-- C18, the code at the failing input: loading a file with two good records and a
third record of an unknown tag into the example logger (next free object `3`)
constructs the engines `3` and `4`, returns false, and then deletes the object
`3` twice and the object `4` never; the live list is untouched. -/
theorem C18_load_failure_deletes_first_engine_repeatedly :
    (exampleLogger.loadSessionConfig exampleBuild "f" twoThenUnknownFile).2 = false ∧
    (exampleLogger.loadSessionConfig exampleBuild "f" twoThenUnknownFile).1.next_engine = 5 ∧
    (exampleLogger.loadSessionConfig exampleBuild "f" twoThenUnknownFile).1.deleted_engines =
      [3, 3] ∧
    4 ∉ (exampleLogger.loadSessionConfig exampleBuild "f" twoThenUnknownFile).1.deleted_engines ∧
    (exampleLogger.loadSessionConfig exampleBuild "f" twoThenUnknownFile).1.logger_engines =
      [1, 2] := by
  refine ⟨?_, ?_, ?_, ?_, ?_⟩ <;> decide

/-- C19, the code at the failing input: `deleteEngine("File1")` on the example logger
destroys the engine `2` and leaves it in the live list: the list is still
`[1, 2]`, the count is still 2, `File1` is still among the attached names,
and the lookups by name and by index still return the destroyed engine. -/
theorem C19_deleteEngine_keeps_destroyed_engine :
    (exampleLogger.deleteEngine "File1").deleted_engines = [2] ∧
    (exampleLogger.deleteEngine "File1").logger_engines = [1, 2] ∧
    (exampleLogger.deleteEngine "File1").attachedLoggerEngineCount = 2 ∧
    "File1" ∈ (exampleLogger.deleteEngine "File1").attachedLoggerEngineNames ∧
    (exampleLogger.deleteEngine "File1").loggerEngineReference "File1" = 2 ∧
    (exampleLogger.deleteEngine "File1").loggerEngineReferenceAt 1 = 2 ∧
    (exampleLogger.detachLoggerEngine 2).1.logger_engines = [1] := by
  refine ⟨?_, ?_, ?_, ?_, ?_, ?_, ?_⟩ <;> decide

/-- C20, the code at the failing input: on the example logger, whose registry holds
the formatting engine `1` (`Default`) and whose priority slot is empty, a
first `setPriorityFormattingEngine("Default")` returns true, fills the slot
with the registered engine `1` and deletes nothing; a second one returns true
and fills the slot with `1` again, but first deletes the previous occupant,
which is that same registered engine: afterwards `1` is destroyed and is
still in the registry and in the slot.  The pointer overload replaces the
occupant without deleting it. -/
theorem C20_setPriorityFormattingEngine_deletes_registered_engine :
    exampleLogger.priority_formatting_engine = 0 ∧
    exampleLogger.formatting_engines = [1] ∧
    exampleLogger.availableFormattingEngines = ["Default"] ∧
    (exampleLogger.setPriorityFormattingEngine "Default").2 = true ∧
    (exampleLogger.setPriorityFormattingEngine "Default").1.priority_formatting_engine = 1 ∧
    (exampleLogger.setPriorityFormattingEngine "Default").1.deleted_formatters = [] ∧
    ((exampleLogger.setPriorityFormattingEngine "Default").1.setPriorityFormattingEngine
      "Default").2 = true ∧
    ((exampleLogger.setPriorityFormattingEngine "Default").1.setPriorityFormattingEngine
      "Default").1.deleted_formatters = [1] ∧
    ((exampleLogger.setPriorityFormattingEngine "Default").1.setPriorityFormattingEngine
      "Default").1.formatting_engines = [1] ∧
    ((exampleLogger.setPriorityFormattingEngine "Default").1.setPriorityFormattingEngine
      "Default").1.priority_formatting_engine = 1 ∧
    ((exampleLogger.setPriorityFormattingEngine "Default").1.setPriorityFormattingEnginePtr
      1).deleted_formatters = [] := by
  refine ⟨rfl, rfl, ?_, ?_, ?_, ?_, ?_, ?_, ?_, ?_, ?_⟩ <;> decide

/-! ## Theorems: a failing export -/

namespace Logger

/-- Once `success` is false the record loop writes nothing more. -/
theorem save_records_false (cfg : Build) (l : List Nat) (s : Logger) (out : List Nat) :
    save_records cfg l s out false = (s, out, false) := by
  cases l <;> simp [save_records]

/-- The record loop over a list whose first failing export is that of `q`: the
records of the engines before `q` are complete, the record of `q` is what its
export wrote before failing, and nothing follows. -/
theorem save_records_fail (cfg : Build) (e : Nat → EngineObj) (q : Nat) (post : List Nat)
    (hq : ((e q).cls.exportBinary (e q).data).2 = false) :
    ∀ (pre : List Nat) (s : Logger) (out : List Nat), s.engines = e →
      (∀ p ∈ pre, ((e p).cls.exportBinary (e p).data).2 = true) →
      (save_records cfg (pre ++ q :: post) s out true).2 =
        (out ++ pre.flatMap (fun p =>
          putString ((e p).cls.factoryTag (e p).data) ++ ((e p).cls.exportBinary (e p).data).1)
          ++ putString ((e q).cls.factoryTag (e q).data) ++ ((e q).cls.exportBinary (e q).data).1,
          false) := by
  intro pre
  induction pre with
  | nil =>
    intro s out he _
    rw [List.nil_append, save_records]
    simp only [if_true]
    rw [he, hq, save_records_false]
    simp
  | cons p ps ih =>
    intro s out he hok
    rw [List.cons_append, save_records]
    simp only [if_true]
    rw [he, hok p (List.mem_cons_self p ps)]
    rw [ih _ _ (by simpa using he) (fun x hx => hok x (List.mem_cons_of_mem p hx))]
    simp [List.append_assoc]

/-- A list with an element failing a test splits at the first such element. -/
theorem first_failure_split (f : Nat → Bool) :
    ∀ (l : List Nat), (∃ p ∈ l, f p = false) →
      ∃ pre q post, l = pre ++ q :: post ∧ (∀ p ∈ pre, f p = true) ∧ f q = false := by
  intro l
  induction l with
  | nil => intro ⟨p, hp, _⟩; simp at hp
  | cons a l ih =>
    intro ⟨p, hp, hf⟩
    cases ha : f a with
    | false => exact ⟨[], a, l, rfl, by simp, ha⟩
    | true =>
      have hpl : p ∈ l := by
        rcases List.mem_cons.mp hp with h | h
        · rw [h, ha] at hf; exact Bool.noConfusion hf
        · exact h
      obtain ⟨pre, q, post, h1, h2, h3⟩ := ih ⟨p, hpl, hf⟩
      refine ⟨a :: pre, q, post, by rw [h1]; rfl, ?_, h3⟩
      intro x hx
      rcases List.mem_cons.mp hx with h | h
      · rw [h]; exact ha
      · exact h2 x h

end Logger

/-- C11: `saveSessionConfig` never changes the live list, the global threshold or any
engine, whether the file opens or not; and when the export of some exportable
attached engine fails it returns false, and the list of exportable engines
splits at the first engine `q` whose export fails so that the stream, when
the file opened, is exactly the header, the complete records of the engines
before `q` and what the export of `q` wrote: no record of a later engine, no
count or triples of the second section, no trailing marker. -/
theorem C11_save_aborts_at_first_failing_export (cfg : Build) (s : Logger)
    (file_name : String) (file_open : Bool) :
    ((Logger.saveSessionConfig cfg s file_name file_open).1.logger_engines = s.logger_engines ∧
      (Logger.saveSessionConfig cfg s file_name file_open).1.global_log_level =
        s.global_log_level ∧
      (Logger.saveSessionConfig cfg s file_name file_open).1.engines = s.engines ∧
      (Logger.saveSessionConfig cfg s file_name file_open).1.deleted_engines =
        s.deleted_engines) ∧
    ((∃ p ∈ s.export_list, ((s.engines p).cls.exportBinary (s.engines p).data).2 = false) →
      (Logger.saveSessionConfig cfg s file_name file_open).2.1 = false ∧
      (file_open = false → (Logger.saveSessionConfig cfg s file_name file_open).2.2 = []) ∧
      ∃ pre q post, s.export_list = pre ++ q :: post ∧
        (∀ p ∈ pre, ((s.engines p).cls.exportBinary (s.engines p).data).2 = true) ∧
        ((s.engines q).cls.exportBinary (s.engines q).data).2 = false ∧
        (file_open = true →
          (Logger.saveSessionConfig cfg s file_name file_open).2.2 =
            putU32 cfg.QTILITIES_LOGGER_BINARY_EXPORT_FORMAT ++
            putU32 MARKER_LOGGER_CONFIG_TAG ++
            putU32 s.global_log_level ++
            putU32 s.export_list.length ++
            pre.flatMap (fun p =>
              putString ((s.engines p).cls.factoryTag (s.engines p).data) ++
                ((s.engines p).cls.exportBinary (s.engines p).data).1) ++
            putString ((s.engines q).cls.factoryTag (s.engines q).data) ++
            ((s.engines q).cls.exportBinary (s.engines q).data).1)) := by
  obtain ⟨hF, hE⟩ := Logger.saveSessionConfig_frame cfg s file_name file_open
  refine ⟨⟨hF.1.symm ▸ rfl, hF.2.1.symm ▸ rfl, hE, hF.2.2.1.symm ▸ rfl⟩, fun hfail => ?_⟩
  obtain ⟨pre, q, post, hsplit, hpre, hq⟩ := Logger.first_failure_split
    (fun p => ((s.engines p).cls.exportBinary (s.engines p).data).2) s.export_list hfail
  have key : ∀ s1 : Logger, s1.engines = s.engines → s1.logger_engines = s.logger_engines →
      s1.global_log_level = s.global_log_level →
      (Logger.save_records cfg s1.export_list s1
        (putU32 cfg.QTILITIES_LOGGER_BINARY_EXPORT_FORMAT ++ putU32 MARKER_LOGGER_CONFIG_TAG ++
          putU32 s1.global_log_level ++ putU32 s1.export_list.length) true).2 =
        (putU32 cfg.QTILITIES_LOGGER_BINARY_EXPORT_FORMAT ++
          putU32 MARKER_LOGGER_CONFIG_TAG ++
          putU32 s.global_log_level ++
          putU32 s.export_list.length ++
          pre.flatMap (fun p =>
            putString ((s.engines p).cls.factoryTag (s.engines p).data) ++
              ((s.engines p).cls.exportBinary (s.engines p).data).1) ++
          putString ((s.engines q).cls.factoryTag (s.engines q).data) ++
          ((s.engines q).cls.exportBinary (s.engines q).data).1, false) := by
    intro s1 he1 hl1 hg1
    have hx1 : s1.export_list = s.export_list := Logger.export_list_congr s s1 hl1 he1
    rw [hx1, hg1]
    have h := Logger.save_records_fail cfg s.engines q post hq pre s1
      (putU32 cfg.QTILITIES_LOGGER_BINARY_EXPORT_FORMAT ++ putU32 MARKER_LOGGER_CONFIG_TAG ++
        putU32 s.global_log_level ++ putU32 s.export_list.length) he1 hpre
    rw [← hsplit] at h
    exact h
  have hret : (Logger.saveSessionConfig cfg s file_name file_open).2.1 = false := by
    cases file_open with
    | false => simp [Logger.saveSessionConfig]
    | true =>
      unfold Logger.saveSessionConfig
      dsimp only
      rw [if_neg (by decide)]
      rw [key _ (by simp) (by simp) (by simp)]
      simp
  refine ⟨hret, fun ho => ?_, pre, q, post, hsplit, hpre, hq, fun ho => ?_⟩
  · subst ho
    simp [Logger.saveSessionConfig]
  · subst ho
    unfold Logger.saveSessionConfig
    dsimp only
    rw [if_neg (by decide)]
    rw [key _ (by simp) (by simp) (by simp)]
    simp

/-- Witness of C11: in the logger whose exportable engines are `2`, `4`, `5` and
whose engine `4` fails to export, the save returns false and the stream ends
with the byte the failing export wrote, after the complete record of the
engine `2`. -/
theorem C11_save_aborts_at_first_failing_export_witness :
    exampleLoggerExportFails.export_list = [2, 4, 5] ∧
    (∃ p ∈ exampleLoggerExportFails.export_list,
      ((exampleLoggerExportFails.engines p).cls.exportBinary
        (exampleLoggerExportFails.engines p).data).2 = false) ∧
    (Logger.saveSessionConfig exampleBuild exampleLoggerExportFails "f" true).2.1 = false ∧
    (Logger.saveSessionConfig exampleBuild exampleLoggerExportFails "f" true).2.2 =
      putU32 1 ++ putU32 MARKER_LOGGER_CONFIG_TAG ++ putU32 2 ++ putU32 3 ++
        (putString "File" ++
          ((exampleLoggerExportFails.engines 2).cls.exportBinary
            (exampleLoggerExportFails.engines 2).data).1) ++
        (putString "NoExport" ++ [9]) :=
  ⟨by decide, ⟨4, by decide, rfl⟩,
    ((C11_save_aborts_at_first_failing_export exampleBuild exampleLoggerExportFails "f" true).2
      ⟨4, by decide, rfl⟩).1,
    by decide⟩

/-! ## Theorems: a successful load -/

namespace Logger

/-- Once `success` is false the loop that creates the engines does nothing more. -/
theorem load_create_false (cfg : Build) (n : Nat) (s : Logger) (stream engine_list : List Nat) :
    load_create cfg n s stream engine_list false = (s, stream, engine_list, false) := by
  cases n <;> simp [load_create]

theorem sameStore_createInstance {s s' : Logger} (h : SameStore s s') (tag : String) :
    (s'.createInstance tag).2 = (s.createInstance tag).2 ∧
    SameStore (s.createInstance tag).1 (s'.createInstance tag).1 := by
  obtain ⟨h1, h2, h3⟩ := h
  cases hf : s.logger_engine_factory tag with
  | none =>
    have hf' : s'.logger_engine_factory tag = none := by rw [h1]; exact hf
    rw [createInstance_none s tag hf, createInstance_none s' tag hf']
    exact ⟨rfl, h1, h2, h3⟩
  | some obj =>
    have hf' : s'.logger_engine_factory tag = some obj := by rw [h1]; exact hf
    simp only [Logger.createInstance, hf, hf', SameStore]
    exact ⟨h3, h1, by rw [h2, h3], by rw [h3]⟩

theorem sameStore_setData {s s' : Logger} (h : SameStore s s') (p : Nat) (d : EngineData) :
    SameStore (s.setData p d) (s'.setData p d) := by
  obtain ⟨h1, h2, h3⟩ := h
  refine ⟨by simpa using h1, ?_, by simpa using h3⟩
  funext q
  rw [setData_engines, setData_engines, h2]

/-- The loop that creates the engines reads only the factory and the object store:
on two states that agree on them it consumes the same bytes, builds the same
`engine_list` and ends with the same `success`. -/
theorem load_create_congr (cfg : Build) :
    ∀ (n : Nat) (s s' : Logger) (stream engine_list : List Nat) (success : Bool),
      SameStore s s' →
      (load_create cfg n s' stream engine_list success).2 =
        (load_create cfg n s stream engine_list success).2 ∧
      SameStore (load_create cfg n s stream engine_list success).1
        (load_create cfg n s' stream engine_list success).1 := by
  intro n
  induction n with
  | zero => intro s s' stream engine_list success h; exact ⟨rfl, h⟩
  | succ n ih =>
    intro s s' stream engine_list success h
    cases success with
    | false =>
      rw [load_create_false, load_create_false]
      exact ⟨rfl, h⟩
    | true =>
      have h1 : SameStore (LOG_DEBUG cfg s ("Create factory instance: " ++ (getString stream).1))
          (LOG_DEBUG cfg s' ("Create factory instance: " ++ (getString stream).1)) :=
        ⟨by simpa using h.1, by simpa using h.2.1, by simpa using h.2.2⟩
      obtain ⟨hc2, hc1⟩ := sameStore_createInstance h1 (getString stream).1
      rw [load_create, load_create]
      simp only [Bool.true_eq_false, if_false]
      generalize (LOG_DEBUG cfg s ("Create factory instance: " ++
        (getString stream).1)).createInstance (getString stream).1 = c at hc2 hc1 ⊢
      generalize (LOG_DEBUG cfg s' ("Create factory instance: " ++
        (getString stream).1)).createInstance (getString stream).1 = c' at hc2 hc1 ⊢
      rw [hc2, hc1.2.1]
      by_cases he : c.2 ≠ 0
      · rw [if_pos he, if_pos he]
        by_cases hx : (c.1.engines c.2).cls.exportable = true
        · rw [if_pos hx, if_pos hx]
          exact ih _ _ _ _ _ (sameStore_setData hc1 _ _)
        · rw [if_neg hx, if_neg hx, load_create_false, load_create_false]
          exact ⟨rfl, hc1⟩
      · rw [if_neg he, if_neg he, load_create_false, load_create_false]
        exact ⟨rfl, hc1⟩

/-- When the loop that creates the engines ends with `success` true, each of its
iterations constructed an engine: `engine_list` grew by the next unused
pointers in order, none of them null. -/
theorem load_create_true (cfg : Build) :
    ∀ (n : Nat) (s : Logger) (stream engine_list : List Nat),
      (load_create cfg n s stream engine_list true).2.2.2 = true →
      (load_create cfg n s stream engine_list true).2.2.1 =
        engine_list ++ List.range' s.next_engine n ∧
      (0 < n → s.next_engine ≠ 0) := by
  intro n
  induction n with
  | zero => intro s stream engine_list _; exact ⟨by simp [load_create], fun h => absurd h (by decide)⟩
  | succ n ih =>
    intro s stream engine_list hok
    rw [load_create] at hok ⊢
    simp only [Bool.true_eq_false, if_false] at hok ⊢
    have hcases := createInstance_cases
      (LOG_DEBUG cfg s ("Create factory instance: " ++ (getString stream).1))
      (getString stream).1
    have hnext : ∀ tag obj, (LOG_DEBUG cfg s ("Create factory instance: " ++
        (getString stream).1)).logger_engine_factory tag = some obj →
        ((LOG_DEBUG cfg s ("Create factory instance: " ++
          (getString stream).1)).createInstance tag).1.next_engine = s.next_engine + 1 := by
      intro tag obj h
      have := (createInstance_some _ tag obj h).2.1
      simpa using this
    have hnone : (LOG_DEBUG cfg s ("Create factory instance: " ++
        (getString stream).1)).logger_engine_factory (getString stream).1 = none →
        ((LOG_DEBUG cfg s ("Create factory instance: " ++
          (getString stream).1)).createInstance (getString stream).1).2 = 0 := by
      intro h
      rw [createInstance_none _ _ h]
    cases hf : (LOG_DEBUG cfg s ("Create factory instance: " ++
        (getString stream).1)).logger_engine_factory (getString stream).1 with
    | none =>
      rw [if_neg (not_not.mpr (hnone hf)), load_create_false] at hok
      exact Bool.noConfusion hok
    | some obj =>
      have hn := hnext _ _ hf
      have hp := (createInstance_some _ _ obj hf).1
      simp only [LOG_DEBUG_next_engine] at hp
      generalize (LOG_DEBUG cfg s ("Create factory instance: " ++
        (getString stream).1)).createInstance (getString stream).1 = c at hok hn hp ⊢
      by_cases he : c.2 ≠ 0
      · rw [if_pos he] at hok ⊢
        by_cases hx : (c.1.engines c.2).cls.exportable = true
        · rw [if_pos hx] at hok ⊢
          obtain ⟨i1, _⟩ := ih _ _ _ hok
          rw [i1]
          refine ⟨?_, fun _ => hp ▸ he⟩
          simp only [setData_next_engine, hn, hp, List.append_assoc, List.singleton_append]
          rfl
        · rw [if_neg hx, load_create_false] at hok
          exact Bool.noConfusion hok
      · rw [if_neg he, load_create_false] at hok
        exact Bool.noConfusion hok

/-- Removing from a list, one occurrence for each, the entries that pass a test
leaves the entries that fail it, in order. -/
theorem diff_filter (P : Nat → Bool) : ∀ (l : List Nat),
    l.diff (l.filter P) = l.filter (fun p => !P p) := by
  intro l
  induction l with
  | nil => rfl
  | cons a l ih =>
    cases ha : P a with
    | true =>
      rw [List.filter_cons_of_pos ha, List.filter_cons_of_neg (by simp [ha]), List.diff_cons,
        List.erase_cons_head, ih]
    | false =>
      rw [List.filter_cons_of_neg (by simp [ha]), List.filter_cons_of_pos (by simp [ha]),
        List.cons_diff_of_not_mem, ih]
      intro hmem
      rw [List.mem_filter] at hmem
      rw [ha] at hmem
      exact Bool.noConfusion hmem.2

end Logger

namespace Logger

/-- An attach that cannot fail appends the engine to the live list, deletes nothing
and touches no other object. -/
theorem attachLoggerEngine_ok (cfg : Build) (s : Logger) (q : Nat) (b : Bool) (hq : q ≠ 0)
    (hinit : b = true → ((s.engines q).cls.initializeEngine (s.engines q).data).2 = true) :
    (s.attachLoggerEngine cfg q b).2 = true ∧
    (s.attachLoggerEngine cfg q b).1.logger_engines = s.logger_engines ++ [q] ∧
    (s.attachLoggerEngine cfg q b).1.deleted_engines = s.deleted_engines ∧
    (s.attachLoggerEngine cfg q b).1.global_log_level = s.global_log_level ∧
    (∀ p, p ≠ q → (s.attachLoggerEngine cfg q b).1.engines p = s.engines p) := by
  cases b with
  | false =>
    rw [attachLoggerEngine_no_init]
    simp [emit_loggerEngineCountChanged, hq]
  | true =>
    have ht := hinit rfl
    have hr : s.attachLoggerEngine cfg q true =
        (({ s.setData q ((s.engines q).cls.initializeEngine (s.engines q).data).1 with
            logger_engines := s.logger_engines ++ [q]
            connections := s.connections ++ [q] } : Logger).emit_loggerEngineCountChanged q
          .EngineAdded, true) := by
      simp [attachLoggerEngine, ht, hq, setData]
    rw [hr]
    refine ⟨rfl, rfl, rfl, rfl, fun p hp => ?_⟩
    show (s.setData q ((s.engines q).cls.initializeEngine (s.engines q).data).1).engines p =
      s.engines p
    rw [setData_engines, if_neg hp]

/-- The loop that attaches the created engines, when no `initialize()` fails:
`success` stays true, the engines are appended to the live list in order and
nothing is deleted. -/
theorem load_attach_live (cfg : Build) :
    ∀ (Q : List Nat) (s : Logger), (∀ q ∈ Q, q ≠ 0) → Q.Nodup →
      (cfg.attach_initialize_engine_default = true →
        ∀ q ∈ Q, ((s.engines q).cls.initializeEngine (s.engines q).data).2 = true) →
      (load_attach cfg Q s true).2 = true ∧
      (load_attach cfg Q s true).1.logger_engines = s.logger_engines ++ Q ∧
      (load_attach cfg Q s true).1.deleted_engines = s.deleted_engines ∧
      (load_attach cfg Q s true).1.global_log_level = s.global_log_level := by
  intro Q
  induction Q with
  | nil => intro s _ _ _; simp [load_attach]
  | cons q Q ih =>
    intro s hnz hnd hok
    obtain ⟨a1, a2, a3, a4, a5⟩ := attachLoggerEngine_ok cfg s q
      cfg.attach_initialize_engine_default (hnz q (List.mem_cons_self q Q))
      (fun hb => hok hb q (List.mem_cons_self q Q))
    have hqQ : q ∉ Q := (List.nodup_cons.mp hnd).1
    obtain ⟨i1, i2, i3, i4⟩ :=
      ih (s.attachLoggerEngine cfg q cfg.attach_initialize_engine_default).1
        (fun r hr => hnz r (List.mem_cons_of_mem q hr)) (List.nodup_cons.mp hnd).2
        (by
          intro hb r hr
          have hrq : r ≠ q := fun h => hqQ (h ▸ hr)
          rw [a5 r hrq]
          exact hok hb r (List.mem_cons_of_mem q hr))
    rw [load_attach]
    simp only [a1, Bool.true_eq_false, if_false]
    exact ⟨i1, by rw [i2, a2]; simp, i3.trans a3, i4.trans a4⟩

theorem detachLoggerEngine_deleted_engines (s : Logger) (p : Nat) (hp : p ≠ 0)
    (hin : p ∈ s.logger_engines) :
    (s.detachLoggerEngine p).1.deleted_engines = s.deleted_engines ++ [p] := by
  unfold detachLoggerEngine
  rw [if_pos hp, if_pos hin]
  simp [delete_engine_deleted_engines, hp]

/-- The loop of lines 762-764 over engines of the live list deletes each of them, in
order. -/
theorem load_detach_deleted :
    ∀ (X : List Nat) (s : Logger), (∀ x ∈ X, x ≠ 0) → X.Sublist s.logger_engines →
      (load_detach X s).deleted_engines = s.deleted_engines ++ X := by
  intro X
  induction X with
  | nil => intro s _ _; simp [load_detach]
  | cons x X ih =>
    intro s hX hsub
    have hx0 : x ≠ 0 := hX x (List.mem_cons_self x X)
    have hxin : x ∈ s.logger_engines := hsub.subset (List.mem_cons_self x X)
    have hd := detachLoggerEngine_deleted_engines s x hx0 hxin
    have hl := (detachLoggerEngine_spec s x hx0).1
    have hsub2 : X.Sublist (s.detachLoggerEngine x).1.logger_engines := by
      rw [hl]
      have := List.Sublist.erase x hsub
      rwa [List.erase_cons_head] at this
    rw [load_detach, ih _ (fun y hy => hX y (List.mem_cons_of_mem x hy)) hsub2, hd]
    simp

theorem restore_properties_deleted_engines (cfg : Build) (s : Logger) (n f : String)
    (a : Bool) : (restore_properties cfg s n f a).deleted_engines = s.deleted_engines := by
  unfold restore_properties
  by_cases h0 : s.loggerEngineReference n = 0
  · simp [h0]
  · simp [h0, setActive, installFormattingEngine]

/-- The loop that restores the properties keeps the live list and deletes nothing. -/
theorem load_properties_live (cfg : Build) :
    ∀ (n : Nat) (s : Logger) (stream : List Nat),
      (load_properties cfg n s stream).1.logger_engines = s.logger_engines ∧
      (load_properties cfg n s stream).1.deleted_engines = s.deleted_engines := by
  intro n
  induction n with
  | zero => intro s stream; exact ⟨rfl, rfl⟩
  | succ n ih =>
    intro s stream
    rw [load_properties]
    obtain ⟨i1, i2⟩ := ih (restore_properties cfg s (getString stream).1
      (getString (getString stream).2).1 (getBool (getString (getString stream).2).2).1)
      (getBool (getString (getString stream).2).2).2
    exact ⟨i1.trans (restore_properties_spec cfg s _ _ _).1,
      i2.trans (restore_properties_deleted_engines cfg s _ _ _)⟩

theorem setGlobalLogLevel_fields (cfg : Build) (s : Logger) (v : Nat) :
    (s.setGlobalLogLevel cfg v).global_log_level = v ∧
    (s.setGlobalLogLevel cfg v).logger_engines = s.logger_engines ∧
    (s.setGlobalLogLevel cfg v).deleted_engines = s.deleted_engines := by
  unfold setGlobalLogLevel
  by_cases h : s.global_log_level = v
  · rw [if_pos h]; exact ⟨h, rfl, rfl⟩
  · rw [if_neg h]; simp

end Logger

/-- C17: for every logger whose attached engines are allocated objects and every
file with the expected version and marker on which the loop over the `n`
records reconstructs an engine for each record and the `initialize()` of each
reconstructed engine (when the attach runs it) succeeds, `loadSessionConfig`
returns true; the reconstructed engines are the `n` next unused objects in
record order; the resulting live list is the previously attached engines
without the export capability in their original order followed by the
reconstructed engines in record order; every previously attached exportable
engine is deleted and is no longer in the live list; and the global threshold
is the third word of the file. -/
theorem C17_load_success_live_set (cfg : Build) (s : Logger) (file_name : String)
    (content : List Nat) (n : Nat) (stream : List Nat)
    (hv : (getU32 content).1 = cfg.QTILITIES_LOGGER_BINARY_EXPORT_FORMAT % 4294967296)
    (hm : (getU32 (getU32 content).2).1 = MARKER_LOGGER_CONFIG_TAG)
    (hn : n = (toInt32 (getU32 (getU32 (getU32 (getU32 content).2).2).2).1).toNat)
    (hstream : stream = (getU32 (getU32 (getU32 (getU32 content).2).2).2).2)
    (halloc : ∀ p ∈ s.logger_engines, p ≠ 0 ∧ p < s.next_engine)
    (hrec : (Logger.load_create cfg n s stream [] true).2.2.2 = true)
    (hinit : cfg.attach_initialize_engine_default = true →
      ∀ q ∈ (Logger.load_create cfg n s stream [] true).2.2.1,
        (((Logger.load_create cfg n s stream [] true).1.engines q).cls.initializeEngine
          ((Logger.load_create cfg n s stream [] true).1.engines q).data).2 = true) :
    (Logger.loadSessionConfig cfg s file_name content).2 = true ∧
    (Logger.load_create cfg n s stream [] true).2.2.1 = List.range' s.next_engine n ∧
    (Logger.loadSessionConfig cfg s file_name content).1.logger_engines =
      s.logger_engines.filter (fun p => !(s.engines p).cls.exportable) ++
        List.range' s.next_engine n ∧
    (Logger.loadSessionConfig cfg s file_name content).1.deleted_engines =
      s.deleted_engines ++ s.export_list ∧
    (∀ p ∈ s.export_list,
      p ∉ (Logger.loadSessionConfig cfg s file_name content).1.logger_engines) ∧
    (Logger.loadSessionConfig cfg s file_name content).1.global_log_level =
      (getU32 (getU32 (getU32 content).2).2).1 := by
  -- the state after the two diagnostics of the header
  generalize hs0 : Logger.LOG_INFO cfg
      (Logger.LOG_DEBUG cfg s
        ("Logging configuration import started from " ++ Logger.session_file_name cfg file_name))
      ("Inspecting logger configuration file format: Found binary export file format version: "
        ++ toString (getU32 content).1) = s0
  have hF0 : Logger.Frame s s0 :=
    hs0 ▸ Logger.Frame.trans (Logger.Frame.LOG_DEBUG cfg s _) (Logger.Frame.LOG_INFO cfg _ _)
  have hS0 : Logger.SameStore s s0 := by
    rw [← hs0]; exact ⟨by simp, by simp, by simp⟩
  -- the loop that creates the engines
  obtain ⟨hc2, hcS⟩ := Logger.load_create_congr cfg n s s0 stream [] true hS0
  obtain ⟨hFc, -⟩ := Logger.load_create_frame cfg n s0 stream [] true
  obtain ⟨hQ, hnz⟩ := Logger.load_create_true cfg n s stream [] hrec
  rw [List.nil_append] at hQ
  rw [hQ] at hinit
  generalize hc : Logger.load_create cfg n s stream [] true = c at hc2 hcS hQ hinit hrec
  generalize hc0 : Logger.load_create cfg n s0 stream [] true = c0 at hc2 hcS hFc
  have hQ0 : c0.2.2.1 = List.range' s.next_engine n := by rw [hc2]; exact hQ
  have hok0 : c0.2.2.2 = true := by rw [hc2]; exact hrec
  have hl0 : c0.1.logger_engines = s.logger_engines := hFc.1.trans hF0.1
  have he0 : ∀ p, p < s.next_engine → c0.1.engines p = s.engines p := by
    intro p hp
    have hle : s.next_engine ≤ s0.next_engine := hF0.2.2.2.2.2.2.2.1
    rw [hFc.2.2.2.2.2.2.2.2 p (by omega), hF0.2.2.2.2.2.2.2.2 p hp]
  have hx0 : c0.1.export_list = s.export_list := by
    unfold Logger.export_list
    rw [hl0]
    apply List.filter_congr
    intro p hp
    rw [he0 p (halloc p hp).2]
  have hXnz : ∀ x ∈ s.export_list, x ≠ 0 := by
    intro x hx
    exact (halloc x (List.mem_of_mem_filter hx)).1
  -- the loop that detaches the exportable engines
  obtain ⟨d1, d2, -, -, d5, -⟩ := Logger.load_detach_spec s.export_list c0.1 hXnz
  have d7 := Logger.load_detach_deleted s.export_list c0.1 hXnz
    (by rw [hl0]; exact List.filter_sublist _)
  have hlive1 : (Logger.load_detach s.export_list c0.1).logger_engines =
      s.logger_engines.filter (fun p => !(s.engines p).cls.exportable) := by
    rw [d1, hl0]
    have h1 : s.export_list = s.logger_engines.filter
        (fun p => decide (p ≠ 0) && (s.engines p).cls.exportable) := rfl
    rw [h1, Logger.diff_filter]
    apply List.filter_congr
    intro p hp
    simp [(halloc p hp).1]
  -- the loop that attaches the created engines
  have hQnz : ∀ q ∈ List.range' s.next_engine n, q ≠ 0 := by
    intro q hq
    rw [List.mem_range'_1] at hq
    have hpos : 0 < n := by omega
    have := hnz hpos
    omega
  obtain ⟨a1, a2, a3, a4⟩ := Logger.load_attach_live cfg (List.range' s.next_engine n)
    (Logger.load_detach s.export_list c0.1) hQnz (List.nodup_range' _ _)
    (by
      intro hb q hq
      rw [d2, hcS.2.1]
      exact hinit hb q hq)
  -- the whole function
  have hload := Logger.loadSessionConfig_success cfg s file_name content hv hm s0 hs0.symm c0
    (by rw [← hc0, hn, hstream]) hok0
    (Logger.load_attach cfg c0.2.2.1 (Logger.load_detach c0.1.export_list c0.1) true) rfl
    (by rw [hQ0, hx0]; exact a1)
  rw [hload, hQ0, hx0]
  obtain ⟨p1, p2⟩ := Logger.load_properties_live cfg (toInt32 (getU32 c0.2.1).1).toNat
    (Logger.load_attach cfg (List.range' s.next_engine n)
      (Logger.load_detach s.export_list c0.1) true).1 (getU32 c0.2.1).2
  obtain ⟨g1, g2, g3⟩ := Logger.setGlobalLogLevel_fields cfg
    (Logger.load_properties cfg (toInt32 (getU32 c0.2.1).1).toNat
      (Logger.load_attach cfg (List.range' s.next_engine n)
        (Logger.load_detach s.export_list c0.1) true).1 (getU32 c0.2.1).2).1
    (getU32 (getU32 (getU32 content).2).2).1
  have hlive : (Logger.LOG_INFO cfg
      (Logger.setGlobalLogLevel cfg
        (Logger.load_properties cfg (toInt32 (getU32 c0.2.1).1).toNat
          (Logger.load_attach cfg (List.range' s.next_engine n)
            (Logger.load_detach s.export_list c0.1) true).1 (getU32 c0.2.1).2).1
        (getU32 (getU32 (getU32 content).2).2).1)
      ("Logging configuration successfully imported from " ++
        Logger.session_file_name cfg file_name)).logger_engines =
      s.logger_engines.filter (fun p => !(s.engines p).cls.exportable) ++
        List.range' s.next_engine n := by
    rw [Logger.LOG_INFO_logger_engines, g2, p1, a2, hlive1]
  refine ⟨rfl, hQ, hlive, ?_, ?_, ?_⟩
  · rw [Logger.LOG_INFO_deleted_engines, g3, p2, a3, d7, hFc.2.2.1, hF0.2.2.1]
  · intro p hp hmem
    rw [hlive, List.mem_append] at hmem
    have hpl : p ∈ s.logger_engines := List.mem_of_mem_filter hp
    rcases hmem with h | h
    · have h1 := (List.mem_filter.mp h).2
      have h2 := (List.mem_filter.mp hp).2
      simp at h1 h2
      rw [h2.2] at h1
      exact Bool.noConfusion h1
    · rw [List.mem_range'_1] at h
      have := (halloc p hpl).2
      omega
  · rw [Logger.LOG_INFO_global_log_level, g1]

/-- Witness of C17: loading the file with two records of the file-like class into the
example logger, in the build whose attach runs `initialize()`, returns true;
the live list becomes the console engine `1` followed by the new engines `3`
and `4`, the file engine `2` is deleted, and the threshold is `5`. -/
theorem C17_load_success_live_set_witness :
    (Logger.loadSessionConfig exampleBuildInit exampleLogger "f" twoRecordsFile).2 = true ∧
    (Logger.loadSessionConfig exampleBuildInit exampleLogger "f" twoRecordsFile).1.logger_engines
      = [1, 3, 4] ∧
    (Logger.loadSessionConfig exampleBuildInit exampleLogger "f" twoRecordsFile).1.deleted_engines
      = [2] ∧
    (Logger.loadSessionConfig exampleBuildInit exampleLogger "f"
      twoRecordsFile).1.global_log_level = 5 :=
  have h := C17_load_success_live_set exampleBuildInit exampleLogger "f" twoRecordsFile 2
    (getU32 (getU32 (getU32 (getU32 twoRecordsFile).2).2).2).2
    (by decide) (by decide) (by decide) rfl (by decide) (by decide) (fun _ => by decide)
  ⟨h.1, h.2.2.1.trans (by decide), h.2.2.2.1.trans (by decide), h.2.2.2.2.2.trans (by decide)⟩

/-! ## Theorems: the two permanent engines -/

namespace Logger

theorem quiet_refl (s : Logger) : Quiet s s := ⟨rfl, rfl, rfl, fun _ => rfl, rfl, rfl⟩

theorem quiet_trans {s1 s2 s3 : Logger} (h12 : Quiet s1 s2) (h23 : Quiet s2 s3) :
    Quiet s1 s3 :=
  ⟨h23.1.trans h12.1, h23.2.1.trans h12.2.1, h23.2.2.1.trans h12.2.2.1,
    fun p => (h23.2.2.2.1 p).trans (h12.2.2.2.1 p), h23.2.2.2.2.1.trans h12.2.2.2.2.1,
    h23.2.2.2.2.2.trans h12.2.2.2.2.2⟩

theorem quiet_logMessage (cfg : Build) (s : Logger) (engine_name : String) (t : MessageType)
    (m m1 m2 m3 m4 m5 m6 m7 m8 m9 : QVariant) :
    Quiet s (logMessage cfg s engine_name t m m1 m2 m3 m4 m5 m6 m7 m8 m9) :=
  ⟨by simp, by simp, by simp, fun p => by simp, by simp, by simp⟩

theorem quiet_LOG_DEBUG (cfg : Build) (s : Logger) (text : String) :
    Quiet s (LOG_DEBUG cfg s text) :=
  ⟨by simp, by simp, by simp, fun p => by simp, by simp, by simp⟩

theorem quiet_LOG_INFO (cfg : Build) (s : Logger) (text : String) :
    Quiet s (LOG_INFO cfg s text) :=
  ⟨by simp, by simp, by simp, fun p => by simp, by simp, by simp⟩

theorem quiet_LOG_ERROR (cfg : Build) (s : Logger) (text : String) :
    Quiet s (LOG_ERROR cfg s text) :=
  ⟨by simp, by simp, by simp, fun p => by simp, by simp, by simp⟩

theorem quiet_qDebug (cfg : Build) (s : Logger) (text : String) :
    Quiet s (qDebug cfg s text) := by
  unfold Logger.qDebug
  by_cases h : s.is_qt_message_handler = true
  · rw [if_pos h]; exact quiet_logMessage cfg s _ _ _ _ _ _ _ _ _ _ _ _
  · rw [if_neg h]; exact quiet_refl s

theorem quiet_setData (s : Logger) (p : Nat) (d : EngineData) : Quiet s (s.setData p d) := by
  refine ⟨rfl, rfl, rfl, fun q => ?_, rfl, rfl⟩
  rw [setData_engines]
  by_cases h : q = p
  · rw [if_pos h, h]
  · rw [if_neg h]

theorem quiet_installFormattingEngine (s : Logger) (p f : Nat) :
    Quiet s (s.installFormattingEngine p f) :=
  quiet_setData s p _

theorem quiet_setActive (s : Logger) (p : Nat) (a : Bool) : Quiet s (s.setActive p a) :=
  quiet_setData s p _

theorem quiet_toggleQtMsgEngine (s : Logger) (a : Bool) : Quiet s (s.toggleQtMsgEngine a) := by
  unfold Logger.toggleQtMsgEngine
  split
  · exact quiet_setActive s _ a
  · exact quiet_refl s

theorem quiet_toggleConsoleEngine (s : Logger) (a : Bool) :
    Quiet s (s.toggleConsoleEngine a) := by
  unfold Logger.toggleConsoleEngine
  split
  · exact quiet_setActive s _ a
  · exact quiet_refl s

theorem quiet_installAsQtMessageHandler (cfg : Build) (s : Logger) (b : Bool) :
    Quiet s (installAsQtMessageHandler cfg s b) := by
  unfold Logger.installAsQtMessageHandler
  refine quiet_trans ?_ (quiet_LOG_INFO cfg _ _)
  cases b with
  | false => exact ⟨rfl, rfl, rfl, fun _ => rfl, rfl, rfl⟩
  | true => exact ⟨rfl, rfl, rfl, fun _ => rfl, rfl, rfl⟩

theorem quiet_readSettings (cfg : Build) (env : Startup) (s : Logger) :
    Quiet s (readSettings cfg env s) := by
  unfold Logger.readSettings
  dsimp only
  have h1 : Quiet s (if env.application_details_unset = true then
      Logger.qDebug cfg s ("The logger may not be able to restore paramaters from previous sessions "
        ++ "since the correct details in QCoreApplication have not been set.")
      else s) := by
    split
    · exact quiet_qDebug cfg s _
    · exact quiet_refl s
  generalize (if env.application_details_unset = true then
      Logger.qDebug cfg s ("The logger may not be able to restore paramaters from previous sessions "
        ++ "since the correct details in QCoreApplication have not been set.")
      else s) = s1 at h1 ⊢
  refine quiet_trans h1 ?_
  by_cases h : (s1.settings.getD
      ⟨MessageType.Fatal.toNat, false, true⟩).is_qt_message_handler = true
  · rw [if_pos h]
    have hX := quiet_installAsQtMessageHandler cfg
      ({ s1 with global_log_level :=
          (s1.settings.getD ⟨MessageType.Fatal.toNat, false, true⟩).global_log_level } : Logger)
      false
    exact ⟨hX.1, hX.2.1, hX.2.2.1, hX.2.2.2.1, hX.2.2.2.2.1, hX.2.2.2.2.2⟩
  · rw [if_neg h]
    exact ⟨rfl, rfl, rfl, fun _ => rfl, rfl, rfl⟩

theorem quiet_save_records (cfg : Build) :
    ∀ (l : List Nat) (s : Logger) (out : List Nat) (success : Bool),
      Quiet s (save_records cfg l s out success).1 := by
  intro l
  induction l with
  | nil => intro s out success; exact quiet_refl s
  | cons p ps ih =>
    intro s out success
    cases success with
    | false => exact quiet_refl s
    | true =>
      rw [Logger.save_records]
      simp only [if_true]
      exact quiet_trans (quiet_LOG_DEBUG cfg s _) (ih _ _ _)

theorem quiet_save_properties (cfg : Build) :
    ∀ (l : List Nat) (s : Logger) (out : List Nat),
      Quiet s (save_properties cfg l s out).1 := by
  intro l
  induction l with
  | nil => intro s out; exact quiet_refl s
  | cons p ps ih =>
    intro s out
    rw [Logger.save_properties]
    exact quiet_trans
      (quiet_LOG_DEBUG cfg s ("Saving properties for engine: " ++ (s.engines p).data.name))
      (ih _ _)

theorem quiet_saveSessionConfig (cfg : Build) (s : Logger) (file_name : String)
    (file_open : Bool) : Quiet s (saveSessionConfig cfg s file_name file_open).1 := by
  unfold Logger.saveSessionConfig
  dsimp only
  generalize hs1 : Logger.LOG_DEBUG cfg s ("Logging configuration export started to " ++
    session_file_name cfg file_name) = s1
  have hQ1 : Quiet s s1 := hs1 ▸ quiet_LOG_DEBUG cfg s _
  refine quiet_trans hQ1 ?_
  cases file_open with
  | false =>
    rw [if_pos rfl]
    exact quiet_LOG_DEBUG cfg s1 _
  | true =>
    rw [if_neg (by decide)]
    have h2 := quiet_save_records cfg s1.export_list s1
      (putU32 cfg.QTILITIES_LOGGER_BINARY_EXPORT_FORMAT ++ putU32 MARKER_LOGGER_CONFIG_TAG ++
        putU32 s1.global_log_level ++ putU32 s1.export_list.length) true
    generalize Logger.save_records cfg s1.export_list s1
      (putU32 cfg.QTILITIES_LOGGER_BINARY_EXPORT_FORMAT ++ putU32 MARKER_LOGGER_CONFIG_TAG ++
        putU32 s1.global_log_level ++ putU32 s1.export_list.length) true = r at h2 ⊢
    refine quiet_trans h2 ?_
    cases hsucc : r.2.2 with
    | false =>
      simp only [Bool.false_eq_true, if_false]
      exact quiet_LOG_INFO cfg r.1 _
    | true =>
      simp only [if_true]
      exact quiet_trans (quiet_save_properties cfg _ _ _) (quiet_LOG_INFO cfg _ _)

end Logger

namespace Logger

theorem keeps_refl (p : Nat) (s : Logger) : Keeps p s s := ⟨id, id⟩

theorem keeps_trans {p : Nat} {s1 s2 s3 : Logger} (h12 : Keeps p s1 s2) (h23 : Keeps p s2 s3) :
    Keeps p s1 s3 :=
  ⟨fun h => h23.1 (h12.1 h), fun h => h12.2 (h23.2 h)⟩

theorem keeps_of_eq (p : Nat) {s s' : Logger} (hl : s'.logger_engines = s.logger_engines)
    (hd : s'.deleted_engines = s.deleted_engines) : Keeps p s s' :=
  ⟨fun h => hl ▸ h, fun h => hd ▸ h⟩

theorem keeps_of_quiet (p : Nat) {s s' : Logger} (h : Quiet s s') : Keeps p s s' :=
  keeps_of_eq p h.2.2.2.2.1 h.2.2.2.2.2

theorem keeps_of_frame (p : Nat) {s s' : Logger} (h : Frame s s') : Keeps p s s' :=
  keeps_of_eq p h.1 h.2.2.1

/-- Detaching another engine keeps `p` attached and undeleted. -/
theorem keeps_detachLoggerEngine (s : Logger) (q p : Nat) (h : q ≠ p) :
    Keeps p s (s.detachLoggerEngine q).1 := by
  unfold detachLoggerEngine
  by_cases h0 : q ≠ 0
  · rw [if_pos h0]
    by_cases hin : q ∈ s.logger_engines
    · rw [if_pos hin]
      constructor
      · intro hp
        simp only [delete_engine_logger_engines, emit_loggerEngineCountChanged]
        exact (List.mem_erase_of_ne (Ne.symm h)).mpr hp
      · intro hp
        simp only [delete_engine_deleted_engines, if_neg h0, emit_loggerEngineCountChanged,
          List.mem_append, List.mem_singleton] at hp
        rcases hp with hp | hp
        · exact hp
        · exact absurd hp.symm h
    · rw [if_neg hin]; exact keeps_refl p s
  · rw [if_neg h0]; exact keeps_refl p s

theorem keeps_load_detach (p : Nat) :
    ∀ (X : List Nat) (s : Logger), p ∉ X → Keeps p s (load_detach X s) := by
  intro X
  induction X with
  | nil => intro s _; exact keeps_refl p s
  | cons x X ih =>
    intro s hp
    rw [load_detach]
    exact keeps_trans
      (keeps_detachLoggerEngine s x p (fun h => hp (h ▸ List.mem_cons_self x X)))
      (ih _ (fun h => hp (List.mem_cons_of_mem x h)))

/-- Attaching another engine keeps `p` attached and undeleted, whether the attach
succeeds or not. -/
theorem keeps_attachLoggerEngine (cfg : Build) (s : Logger) (q : Nat) (b : Bool) (p : Nat)
    (h : q ≠ p) : Keeps p s (s.attachLoggerEngine cfg q b).1 := by
  have hadd : ∀ t : Logger, Keeps p t
      ((if q ≠ 0 then
          ({ t with
            logger_engines := t.logger_engines ++ [q]
            connections := t.connections ++ [q] } : Logger)
        else t).emit_loggerEngineCountChanged q .EngineAdded) := by
    intro t
    by_cases h0 : q ≠ 0
    · rw [if_pos h0]
      exact ⟨fun hp => List.mem_append_left _ hp, fun hp => hp⟩
    · rw [if_neg h0]
      exact ⟨fun hp => hp, fun hp => hp⟩
  cases b with
  | false =>
    rw [attachLoggerEngine_no_init]
    exact hadd s
  | true =>
    cases hr : ((s.engines q).cls.initializeEngine (s.engines q).data).2 with
    | false =>
      have hq : s.attachLoggerEngine cfg q true =
          ((Logger.LOG_ERROR cfg
            (s.setData q ((s.engines q).cls.initializeEngine (s.engines q).data).1)
            "New file logger engine could not be added, it failed during initialization."
            ).delete_engine q, false) := by
        simp [attachLoggerEngine, hr]
      rw [hq]
      constructor
      · intro hp
        simpa using hp
      · intro hp
        rw [delete_engine_deleted_engines] at hp
        by_cases h0 : q = 0
        · rw [if_pos h0] at hp
          simpa using hp
        · rw [if_neg h0] at hp
          simp only [LOG_ERROR_deleted_engines, setData_deleted_engines, List.mem_append,
            List.mem_singleton] at hp
          rcases hp with hp | hp
          · exact hp
          · exact absurd hp.symm h
    | true =>
      have hq : s.attachLoggerEngine cfg q true =
          ((if q ≠ 0 then
              ({ s.setData q ((s.engines q).cls.initializeEngine (s.engines q).data).1 with
                logger_engines :=
                  (s.setData q ((s.engines q).cls.initializeEngine
                    (s.engines q).data).1).logger_engines ++ [q]
                connections :=
                  (s.setData q ((s.engines q).cls.initializeEngine
                    (s.engines q).data).1).connections ++ [q] } : Logger)
            else s.setData q ((s.engines q).cls.initializeEngine (s.engines q).data).1
            ).emit_loggerEngineCountChanged q .EngineAdded, true) := by
        simp [attachLoggerEngine, hr]
      rw [hq]
      exact keeps_trans (keeps_of_quiet p (quiet_setData s q _)) (hadd _)

theorem keeps_load_attach (cfg : Build) (p : Nat) :
    ∀ (Q : List Nat) (s : Logger) (success : Bool), p ∉ Q →
      Keeps p s (load_attach cfg Q s success).1 := by
  intro Q
  induction Q with
  | nil => intro s _ _; exact keeps_refl p s
  | cons q Q ih =>
    intro s success hp
    rw [load_attach]
    exact keeps_trans
      (keeps_attachLoggerEngine cfg s q _ p (fun h => hp (h ▸ List.mem_cons_self q Q)))
      (ih _ _ (fun h => hp (List.mem_cons_of_mem q h)))

theorem keeps_load_delete (engine_list : List Nat) (n : Nat) (s : Logger) (p : Nat)
    (h : p ≠ engine_list.getD 0 0) : Keeps p s (load_delete engine_list n s) := by
  obtain ⟨h1, -, -, h4⟩ := load_delete_frame engine_list n s
  refine ⟨fun hp => h1 ▸ hp, fun hp => ?_⟩
  rw [← List.count_pos_iff] at hp ⊢
  rw [← h4 p h]
  exact hp

end Logger

namespace Logger

/-- Whatever the file holds, `loadSessionConfig` keeps an allocated engine without the
export capability attached if it was, and does not delete it. -/
theorem loadSessionConfig_keeps (cfg : Build) (s : Logger) (file_name : String)
    (content : List Nat) (p : Nat) (hp0 : p ≠ 0) (hlt : p < s.next_engine)
    (hx : (s.engines p).cls.exportable = false) :
    Keeps p s (loadSessionConfig cfg s file_name content).1 := by
  by_cases hv : (getU32 content).1 = cfg.QTILITIES_LOGGER_BINARY_EXPORT_FORMAT % 4294967296
  swap
  · obtain ⟨_, _, _, h4, h5, _, _⟩ :=
      loadSessionConfig_header_mismatch_fields cfg s file_name content (Or.inl hv)
    exact keeps_of_eq p h5 h4
  by_cases hm : (getU32 (getU32 content).2).1 = MARKER_LOGGER_CONFIG_TAG
  swap
  · obtain ⟨_, _, _, h4, h5, _, _⟩ :=
      loadSessionConfig_header_mismatch_fields cfg s file_name content (Or.inr hm)
    exact keeps_of_eq p h5 h4
  generalize hs0 : LOG_INFO cfg
      (LOG_DEBUG cfg s
        ("Logging configuration import started from " ++ session_file_name cfg file_name))
      ("Inspecting logger configuration file format: Found binary export file format version: "
        ++ toString (getU32 content).1) = s0
  have hF0 : Frame s s0 :=
    hs0 ▸ Frame.trans (Frame.LOG_DEBUG cfg s _) (Frame.LOG_INFO cfg _ _)
  obtain ⟨hFc, hnew⟩ := load_create_frame cfg
    (toInt32 (getU32 (getU32 (getU32 (getU32 content).2).2).2).1).toNat s0
    (getU32 (getU32 (getU32 (getU32 content).2).2).2).2 [] true
  generalize hc : load_create cfg
    (toInt32 (getU32 (getU32 (getU32 (getU32 content).2).2).2).1).toNat s0
    (getU32 (getU32 (getU32 (getU32 content).2).2).2).2 [] true = c at hFc hnew
  have hle : s.next_engine ≤ s0.next_engine := hF0.2.2.2.2.2.2.2.1
  have hK0 : Keeps p s c.1 := keeps_trans (keeps_of_frame p hF0) (keeps_of_frame p hFc)
  have hpQ : p ∉ c.2.2.1 := by
    intro hin
    rcases hnew p hin with h | h
    · exact absurd h (List.not_mem_nil p)
    · omega
  have hep : c.1.engines p = s.engines p := by
    rw [hFc.2.2.2.2.2.2.2.2 p (by omega), hF0.2.2.2.2.2.2.2.2 p hlt]
  cases hok : c.2.2.2 with
  | false =>
    rw [loadSessionConfig_create_failed cfg s file_name content hv hm s0 hs0.symm c hc.symm hok]
    refine keeps_trans hK0 (keeps_trans (keeps_load_delete c.2.2.1 _ c.1 p ?_)
      (keeps_of_quiet p (quiet_LOG_INFO cfg _ _)))
    cases hl : c.2.2.1 with
    | nil => simpa using hp0
    | cons a l =>
      intro h
      have ha : a ∈ c.2.2.1 := by rw [hl]; exact List.mem_cons_self a l
      simp at h
      exact hpQ (h ▸ ha)
  | true =>
    have hpX : p ∉ c.1.export_list := by
      intro hin
      have := (List.mem_filter.mp hin).2
      rw [hep, hx] at this
      simp at this
    have hKa : Keeps p s (load_attach cfg c.2.2.1 (load_detach c.1.export_list c.1) true).1 :=
      keeps_trans hK0 (keeps_trans (keeps_load_detach p _ c.1 hpX)
        (keeps_load_attach cfg p _ _ true hpQ))
    cases hat : (load_attach cfg c.2.2.1 (load_detach c.1.export_list c.1) true).2 with
    | false =>
      rw [loadSessionConfig_attach_failed cfg s file_name content hv hm s0 hs0.symm c hc.symm hok
        _ rfl hat]
      exact keeps_trans hKa (keeps_of_quiet p (quiet_LOG_INFO cfg _ _))
    | true =>
      rw [loadSessionConfig_success cfg s file_name content hv hm s0 hs0.symm c hc.symm hok
        _ rfl hat]
      obtain ⟨p1, p2⟩ := load_properties_live cfg (toInt32 (getU32 c.2.1).1).toNat
        (load_attach cfg c.2.2.1 (load_detach c.1.export_list c.1) true).1 (getU32 c.2.1).2
      obtain ⟨-, g2, g3⟩ := setGlobalLogLevel_fields cfg
        (load_properties cfg (toInt32 (getU32 c.2.1).1).toNat
          (load_attach cfg c.2.2.1 (load_detach c.1.export_list c.1) true).1
          (getU32 c.2.1).2).1
        (getU32 (getU32 (getU32 content).2).2).1
      exact keeps_trans hKa (keeps_trans (keeps_of_eq p (g2.trans p1) (g3.trans p2))
        (keeps_of_quiet p (quiet_LOG_INFO cfg _ _)))

/-- The loop of `clear` deletes, in order, the entries of the list that are neither of
the two singleton engines (and not null), and changes neither the live list
nor the two singleton pointers. -/
theorem clear_loop_spec (cfg : Build) :
    ∀ (l : List Nat) (s : Logger),
      (clear_loop cfg l s).qtMsgLoggerEngine = s.qtMsgLoggerEngine ∧
      (clear_loop cfg l s).consoleLoggerEngine = s.consoleLoggerEngine ∧
      (clear_loop cfg l s).logger_engines = s.logger_engines ∧
      (clear_loop cfg l s).deleted_engines = s.deleted_engines ++
        l.filter (fun p => decide (p ≠ s.qtMsgLoggerEngine ∧ p ≠ s.consoleLoggerEngine ∧
          p ≠ 0)) := by
  intro l
  induction l with
  | nil => intro s; simp [clear_loop]
  | cons p ps ih =>
    intro s
    rw [clear_loop]
    by_cases h : p ≠ s.qtMsgLoggerEngine ∧ p ≠ s.consoleLoggerEngine
    · rw [if_pos h]
      have hq := quiet_qDebug cfg s ("> Deleting logger engine: " ++ (s.engines p).data.name)
      generalize Logger.qDebug cfg s ("> Deleting logger engine: " ++
        (s.engines p).data.name) = s1 at hq ⊢
      obtain ⟨i1, i2, i3, i4⟩ := ih (s1.delete_engine p)
      simp only [delete_engine_qtMsgLoggerEngine, delete_engine_consoleLoggerEngine,
        delete_engine_logger_engines, hq.1, hq.2.1, hq.2.2.2.2.1] at i1 i2 i3 i4
      refine ⟨i1, i2, i3, ?_⟩
      rw [i4, delete_engine_deleted_engines, hq.2.2.2.2.2]
      by_cases h0 : p = 0
      · rw [if_pos h0, List.filter_cons_of_neg (by simp [h0])]
      · rw [if_neg h0, List.filter_cons_of_pos (by simp [h0, h.1, h.2])]
        simp
    · rw [if_neg h]
      obtain ⟨i1, i2, i3, i4⟩ := ih s
      refine ⟨i1, i2, i3, ?_⟩
      rw [i4, List.filter_cons_of_neg]
      simp only [decide_eq_true_eq]
      intro hh
      exact h ⟨hh.1, hh.2.1⟩

/-- The function `clear` empties the live list and deletes the attached engines that
are neither of the two singleton engines. -/
theorem clear_spec (cfg : Build) (s : Logger) :
    (clear cfg s).logger_engines = [] ∧
    (clear cfg s).qtMsgLoggerEngine = s.qtMsgLoggerEngine ∧
    (clear cfg s).consoleLoggerEngine = s.consoleLoggerEngine ∧
    (clear cfg s).deleted_engines = s.deleted_engines ++
      s.logger_engines.filter (fun p => decide (p ≠ s.qtMsgLoggerEngine ∧
        p ≠ s.consoleLoggerEngine ∧ p ≠ 0)) := by
  unfold clear
  dsimp only
  have hq := quiet_qDebug cfg s "Qtilities Logging Framework, clearing started..."
  generalize Logger.qDebug cfg s "Qtilities Logging Framework, clearing started..." = s1 at hq ⊢
  obtain ⟨i1, i2, i3, i4⟩ := clear_loop_spec cfg s1.logger_engines s1
  have hq2 := quiet_qDebug cfg
    ({ clear_loop cfg s1.logger_engines s1 with logger_engines := [] } : Logger)
    "Qtilities Logging Framework, clearing finished successfully..."
  refine ⟨hq2.2.2.2.2.1, hq2.1.trans (i1.trans hq.1), hq2.2.1.trans (i2.trans hq.2.1), ?_⟩
  rw [hq2.2.2.2.2.2]
  show (clear_loop cfg s1.logger_engines s1).deleted_engines = _
  rw [i4, hq.1, hq.2.1, hq.2.2.2.2.1, hq.2.2.2.2.2]

/-- The function `finalize` empties the live list and deletes the attached engines
that are neither of the two singleton engines. -/
theorem finalize_spec (cfg : Build) (s : Logger) (file_open : Bool) :
    (finalize cfg s file_open).1.logger_engines = [] ∧
    (finalize cfg s file_open).1.deleted_engines = s.deleted_engines ++
      s.logger_engines.filter (fun p => decide (p ≠ s.qtMsgLoggerEngine ∧
        p ≠ s.consoleLoggerEngine ∧ p ≠ 0)) := by
  unfold finalize
  by_cases h : s.remember_session_config = true
  · rw [if_pos h]
    have hq := quiet_saveSessionConfig cfg s "" file_open
    obtain ⟨c1, -, -, c4⟩ := clear_spec cfg (saveSessionConfig cfg s "" file_open).1
    exact ⟨c1, by rw [c4, hq.1, hq.2.1, hq.2.2.2.2.1, hq.2.2.2.2.2]⟩
  · rw [if_neg h]
    obtain ⟨c1, -, -, c4⟩ := clear_spec cfg s
    exact ⟨c1, c4⟩

end Logger

namespace Logger

/-- The function `attachLoggerEngine` allocates nothing and keeps the two singleton
pointers. -/
theorem attachLoggerEngine_fields (cfg : Build) (s : Logger) (q : Nat) (b : Bool) :
    (s.attachLoggerEngine cfg q b).1.qtMsgLoggerEngine = s.qtMsgLoggerEngine ∧
    (s.attachLoggerEngine cfg q b).1.consoleLoggerEngine = s.consoleLoggerEngine ∧
    (s.attachLoggerEngine cfg q b).1.next_engine = s.next_engine := by
  cases b with
  | false =>
    rw [attachLoggerEngine_no_init]
    by_cases h0 : q ≠ 0
    · rw [if_pos h0]; exact ⟨rfl, rfl, rfl⟩
    · rw [if_neg h0]; exact ⟨rfl, rfl, rfl⟩
  | true =>
    cases hr : ((s.engines q).cls.initializeEngine (s.engines q).data).2 with
    | false =>
      have hq : s.attachLoggerEngine cfg q true =
          ((Logger.LOG_ERROR cfg
            (s.setData q ((s.engines q).cls.initializeEngine (s.engines q).data).1)
            "New file logger engine could not be added, it failed during initialization."
            ).delete_engine q, false) := by
        simp [attachLoggerEngine, hr]
      rw [hq]
      exact ⟨by simp, by simp, by simp⟩
    | true =>
      have hq : s.attachLoggerEngine cfg q true =
          ((if q ≠ 0 then
              ({ s.setData q ((s.engines q).cls.initializeEngine (s.engines q).data).1 with
                logger_engines :=
                  (s.setData q ((s.engines q).cls.initializeEngine
                    (s.engines q).data).1).logger_engines ++ [q]
                connections :=
                  (s.setData q ((s.engines q).cls.initializeEngine
                    (s.engines q).data).1).connections ++ [q] } : Logger)
            else s.setData q ((s.engines q).cls.initializeEngine (s.engines q).data).1
            ).emit_loggerEngineCountChanged q .EngineAdded, true) := by
        simp [attachLoggerEngine, hr]
      rw [hq]
      by_cases h0 : q ≠ 0
      · rw [if_pos h0]; exact ⟨rfl, rfl, rfl⟩
      · rw [if_neg h0]; exact ⟨rfl, rfl, rfl⟩

/-- On a logger that is not yet initialized, whose two singleton engines are allocated
objects without the export capability and of classes whose `initialize()`
cannot fail, `initialize` leaves both singleton engines in the live list and
deletes neither. -/
theorem initializeLogger_sinks (cfg : Build) (env : Startup) (s : Logger)
    (hI : s.initialized = false)
    (hq0 : s.qtMsgLoggerEngine ≠ 0) (hc0 : s.consoleLoggerEngine ≠ 0)
    (hqlt : s.qtMsgLoggerEngine < s.next_engine) (hclt : s.consoleLoggerEngine < s.next_engine)
    (hqx : (s.engines s.qtMsgLoggerEngine).cls.exportable = false)
    (hcx : (s.engines s.consoleLoggerEngine).cls.exportable = false)
    (hqi : ∀ d, ((s.engines s.qtMsgLoggerEngine).cls.initializeEngine d).2 = true)
    (hci : ∀ d, ((s.engines s.consoleLoggerEngine).cls.initializeEngine d).2 = true) :
    s.qtMsgLoggerEngine ∈ (initializeLogger cfg env s).logger_engines ∧
    s.consoleLoggerEngine ∈ (initializeLogger cfg env s).logger_engines ∧
    (s.qtMsgLoggerEngine ∈ (initializeLogger cfg env s).deleted_engines →
      s.qtMsgLoggerEngine ∈ s.deleted_engines) ∧
    (s.consoleLoggerEngine ∈ (initializeLogger cfg env s).deleted_engines →
      s.consoleLoggerEngine ∈ s.deleted_engines) := by
  unfold initializeLogger
  rw [if_neg (by simp [hI])]
  lift_lets
  intro t1 t2 t3 t4 t5 t6 t7 t8 t9 t10 t11 t12 t13 t14
  have h1 : Quiet s t1 := quiet_qDebug cfg s _
  have h2 : Quiet t1 t2 := ⟨rfl, rfl, rfl, fun _ => rfl, rfl, rfl⟩
  have h3 : Quiet t2 t3 := ⟨rfl, rfl, rfl, fun _ => rfl, rfl, rfl⟩
  have h4 : Quiet t3 t4 := quiet_qDebug cfg t3 _
  have h5 : Quiet t4 t5 := quiet_qDebug cfg t4 _
  have h6 : Quiet t5 t6 := quiet_installFormattingEngine t5 _ _
  have Q6 : Quiet s t6 :=
    quiet_trans h1 (quiet_trans h2 (quiet_trans h3 (quiet_trans h4 (quiet_trans h5 h6))))
  -- the Qt message engine is attached
  obtain ⟨a1, a2, a3, -, -⟩ := attachLoggerEngine_ok cfg t6 t6.qtMsgLoggerEngine true
    (by rw [Q6.1]; exact hq0) (fun _ => by rw [Q6.2.2.2.1, Q6.1]; exact hqi _)
  obtain ⟨f1, f2, f3⟩ := attachLoggerEngine_fields cfg t6 t6.qtMsgLoggerEngine true
  have c7 : ∀ p, (t7.engines p).cls = (s.engines p).cls := fun p =>
    (attachLoggerEngine_cls cfg t6 t6.qtMsgLoggerEngine true p).trans (Q6.2.2.2.1 p)
  have l7 : t7.logger_engines = s.logger_engines ++ [s.qtMsgLoggerEngine] := by
    rw [← Q6.2.2.2.2.1, ← Q6.1]; exact a2
  have d7 : t7.deleted_engines = s.deleted_engines := a3.trans Q6.2.2.2.2.2
  have h8 : Quiet t7 t8 := quiet_toggleQtMsgEngine t7 false
  have h9 : Quiet t8 t9 := quiet_installFormattingEngine t8 _ _
  have Q9 : Quiet t7 t9 := quiet_trans h8 h9
  have q9 : t9.consoleLoggerEngine = s.consoleLoggerEngine :=
    Q9.2.1.trans (f2.trans Q6.2.1)
  have c9 : ∀ p, (t9.engines p).cls = (s.engines p).cls := fun p =>
    (Q9.2.2.2.1 p).trans (c7 p)
  -- the console engine is attached
  obtain ⟨b1, b2, b3, -, -⟩ := attachLoggerEngine_ok cfg t9 t9.consoleLoggerEngine true
    (by rw [q9]; exact hc0) (fun _ => by rw [c9, q9]; exact hci _)
  obtain ⟨g1, g2, g3⟩ := attachLoggerEngine_fields cfg t9 t9.consoleLoggerEngine true
  have c10 : ∀ p, (t10.engines p).cls = (s.engines p).cls := fun p =>
    (attachLoggerEngine_cls cfg t9 t9.consoleLoggerEngine true p).trans (c9 p)
  have l10 : t10.logger_engines =
      s.logger_engines ++ [s.qtMsgLoggerEngine] ++ [s.consoleLoggerEngine] := by
    rw [← l7, ← Q9.2.2.2.2.1, ← q9]; exact b2
  have d10 : t10.deleted_engines = s.deleted_engines :=
    b3.trans (Q9.2.2.2.2.2.trans d7)
  have n10 : t10.next_engine = s.next_engine :=
    g3.trans (Q9.2.2.1.trans (f3.trans Q6.2.2.1))
  have h11 : Quiet t10 t11 := quiet_toggleConsoleEngine t10 false
  have h12 : Quiet t11 t12 := quiet_readSettings cfg env t11
  have Q12 : Quiet t10 t12 := quiet_trans h11 h12
  have l12 : t12.logger_engines =
      s.logger_engines ++ [s.qtMsgLoggerEngine] ++ [s.consoleLoggerEngine] :=
    Q12.2.2.2.2.1.trans l10
  have d12 : t12.deleted_engines = s.deleted_engines := Q12.2.2.2.2.2.trans d10
  have n12 : t12.next_engine = s.next_engine := Q12.2.2.1.trans n10
  have c12 : ∀ p, (t12.engines p).cls = (s.engines p).cls := fun p =>
    (Q12.2.2.2.1 p).trans (c10 p)
  -- the stored session
  have k13 : ∀ p, p ≠ 0 → p < s.next_engine → (s.engines p).cls.exportable = false →
      Keeps p t12 t13 := by
    intro p hp0 hplt hpx
    show Keeps p t12 (if t12.remember_session_config = true then
      (loadSessionConfig cfg t12 "" env.last_config_file).1 else t12)
    by_cases hr : t12.remember_session_config = true
    · rw [if_pos hr]
      exact loadSessionConfig_keeps cfg t12 "" env.last_config_file p hp0
        (by rw [n12]; exact hplt) (by rw [c12]; exact hpx)
    · rw [if_neg hr]
      exact keeps_refl p t12
  have h14 : Quiet t13 t14 := ⟨rfl, rfl, rfl, fun _ => rfl, rfl, rfl⟩
  have h15 := quiet_qDebug cfg t14
    "Qtilities Logging Framework, initialization finished successfully..."
  have Q15 := quiet_trans h14 h15
  have kq := keeps_trans (k13 _ hq0 hqlt hqx) (keeps_of_quiet s.qtMsgLoggerEngine Q15)
  have kc := keeps_trans (k13 _ hc0 hclt hcx) (keeps_of_quiet s.consoleLoggerEngine Q15)
  refine ⟨kq.1 (by rw [l12]; simp), kc.1 (by rw [l12]; simp), fun h => ?_, fun h => ?_⟩
  · exact d12 ▸ kq.2 h
  · exact d12 ▸ kc.2 h

end Logger

/-- C16, amended: on a logger that is not yet initialized, whose two singleton engines
(the Qt message engine and the console engine) are allocated objects without
the export capability and of classes whose `initialize()` cannot fail,
`initialize` leaves both in the live list and deletes neither.  On every
state, `clear` and `finalize` delete exactly the attached engines other than
these two, so they delete neither of the two; but both leave the live list
empty, so the two engines do not remain members of it. -/
theorem C16_permanent_engines (cfg : Build) (env : Startup) (s : Logger)
    (hI : s.initialized = false)
    (hq0 : s.qtMsgLoggerEngine ≠ 0) (hc0 : s.consoleLoggerEngine ≠ 0)
    (hqlt : s.qtMsgLoggerEngine < s.next_engine) (hclt : s.consoleLoggerEngine < s.next_engine)
    (hqx : (s.engines s.qtMsgLoggerEngine).cls.exportable = false)
    (hcx : (s.engines s.consoleLoggerEngine).cls.exportable = false)
    (hqi : ∀ d, ((s.engines s.qtMsgLoggerEngine).cls.initializeEngine d).2 = true)
    (hci : ∀ d, ((s.engines s.consoleLoggerEngine).cls.initializeEngine d).2 = true) :
    (s.qtMsgLoggerEngine ∈ (Logger.initializeLogger cfg env s).logger_engines ∧
      s.consoleLoggerEngine ∈ (Logger.initializeLogger cfg env s).logger_engines ∧
      (s.qtMsgLoggerEngine ∈ (Logger.initializeLogger cfg env s).deleted_engines →
        s.qtMsgLoggerEngine ∈ s.deleted_engines) ∧
      (s.consoleLoggerEngine ∈ (Logger.initializeLogger cfg env s).deleted_engines →
        s.consoleLoggerEngine ∈ s.deleted_engines)) ∧
    (∀ u : Logger,
      (Logger.clear cfg u).logger_engines = [] ∧
      (Logger.clear cfg u).deleted_engines = u.deleted_engines ++
        u.logger_engines.filter (fun p => decide (p ≠ u.qtMsgLoggerEngine ∧
          p ≠ u.consoleLoggerEngine ∧ p ≠ 0)) ∧
      (u.qtMsgLoggerEngine ∈ (Logger.clear cfg u).deleted_engines →
        u.qtMsgLoggerEngine ∈ u.deleted_engines) ∧
      (u.consoleLoggerEngine ∈ (Logger.clear cfg u).deleted_engines →
        u.consoleLoggerEngine ∈ u.deleted_engines) ∧
      (∀ file_open : Bool,
        (Logger.finalize cfg u file_open).1.logger_engines = [] ∧
        (Logger.finalize cfg u file_open).1.deleted_engines = u.deleted_engines ++
          u.logger_engines.filter (fun p => decide (p ≠ u.qtMsgLoggerEngine ∧
            p ≠ u.consoleLoggerEngine ∧ p ≠ 0)))) := by
  refine ⟨Logger.initializeLogger_sinks cfg env s hI hq0 hc0 hqlt hclt hqx hcx hqi hci,
    fun u => ?_⟩
  obtain ⟨c1, -, -, c4⟩ := Logger.clear_spec cfg u
  have hnot : ∀ p, (p = u.qtMsgLoggerEngine ∨ p = u.consoleLoggerEngine) →
      p ∈ (Logger.clear cfg u).deleted_engines → p ∈ u.deleted_engines := by
    intro p hp hmem
    rw [c4, List.mem_append] at hmem
    rcases hmem with h | h
    · exact h
    · have := (List.mem_filter.mp h).2
      simp only [decide_eq_true_eq] at this
      rcases hp with hp | hp
      · exact absurd hp this.1
      · exact absurd hp this.2.1
  exact ⟨c1, c4, hnot _ (Or.inl rfl), hnot _ (Or.inr rfl),
    fun file_open => Logger.finalize_spec cfg u file_open⟩

/-- Witness of C16: the example logger as its constructor leaves it, with the Qt
message engine `1` and the console engine `2`, has both attached after
`initialize`. -/
theorem C16_permanent_engines_witness :
    exampleFreshLogger.initialized = false ∧
    (1 : Nat) ∈ (Logger.initializeLogger exampleBuild exampleStartup
      exampleFreshLogger).logger_engines ∧
    (2 : Nat) ∈ (Logger.initializeLogger exampleBuild exampleStartup
      exampleFreshLogger).logger_engines :=
  have h := C16_permanent_engines exampleBuild exampleStartup exampleFreshLogger rfl
    (by decide) (by decide) (by decide) (by decide) rfl rfl (fun _ => rfl) (fun _ => rfl)
  ⟨rfl, h.1.1, h.1.2.1⟩

/-- C16, counterexample: after `initialize` on the example logger the live list is the
Qt message engine `1` and the console engine `2`; after `clear` and after
`finalize` the live list is empty, so neither of the two is a member of it
any more, although neither was deleted. -/
theorem C16_counterexample :
    (Logger.initializeLogger exampleBuild exampleStartup exampleFreshLogger).logger_engines
      = [1, 2] ∧
    (1 : Nat) ∉ (Logger.clear exampleBuild (Logger.initializeLogger exampleBuild exampleStartup
      exampleFreshLogger)).logger_engines ∧
    (2 : Nat) ∉ (Logger.clear exampleBuild (Logger.initializeLogger exampleBuild exampleStartup
      exampleFreshLogger)).logger_engines ∧
    (Logger.clear exampleBuild (Logger.initializeLogger exampleBuild exampleStartup
      exampleFreshLogger)).deleted_engines = [] ∧
    (1 : Nat) ∉ (Logger.finalize exampleBuild (Logger.initializeLogger exampleBuild
      exampleStartup exampleFreshLogger) true).1.logger_engines ∧
    (2 : Nat) ∉ (Logger.finalize exampleBuild (Logger.initializeLogger exampleBuild
      exampleStartup exampleFreshLogger) true).1.logger_engines := by
  refine ⟨?_, ?_, ?_, ?_, ?_, ?_⟩ <;> decide

/-! ## Theorems: the level names -/

/-- C22: for each of the eight levels `L`, `stringToLogLevel (logLevelToString L) = L`,
so `logLevelToString` is injective on the enumeration; for every string that
is not the name of one of the eight levels `stringToLogLevel` gives `None`;
and in a debug build `allLogLevelStrings` has eight entries, the entry at the
rank of `L` being `logLevelToString L`. -/
theorem C22_level_names :
    (∀ L : MessageType, Logger.stringToLogLevel (Logger.logLevelToString L.toNat) = L) ∧
    (∀ L L' : MessageType,
      Logger.logLevelToString L.toNat = Logger.logLevelToString L'.toNat → L = L') ∧
    (∀ str : String, (∀ L : MessageType, str ≠ Logger.logLevelToString L.toNat) →
      Logger.stringToLogLevel str = MessageType.None) ∧
    (∀ cfg : Build, cfg.QT_NO_DEBUG = false →
      (Logger.allLogLevelStrings cfg).length = 8 ∧
      ∀ L : MessageType,
        (Logger.allLogLevelStrings cfg)[L.toNat]? = some (Logger.logLevelToString L.toNat)) := by
  have hround : ∀ L : MessageType,
      Logger.stringToLogLevel (Logger.logLevelToString L.toNat) = L := by
    intro L
    cases L <;> decide
  refine ⟨hround, fun L L' h => ?_, fun str h => ?_, fun cfg hd => ?_⟩
  · rw [← hround L, ← hround L', h]
  · have h1 : str ≠ "Information" := h .Info
    have h2 : str ≠ "Warning" := h .Warning
    have h3 : str ≠ "Error" := h .Error
    have h4 : str ≠ "Fatal" := h .Fatal
    have h5 : str ≠ "Debug" := h .Debug
    have h6 : str ≠ "Trace" := h .Trace
    have h7 : str ≠ "All Log Levels" := h .AllLogLevels
    unfold Logger.stringToLogLevel
    rw [if_neg h1, if_neg h2, if_neg h3, if_neg h4, if_neg h5, if_neg h6, if_neg h7]
  · have hs : Logger.allLogLevelStrings cfg =
        ["None", "Information", "Warning", "Error", "Fatal", "Debug", "Trace",
          "All Log Levels"] := by
      unfold Logger.allLogLevelStrings
      simp [hd]
    rw [hs]
    refine ⟨rfl, fun L => ?_⟩
    cases L <;> rfl

/-- Witness of C22: the level `Warning` and the string `Verbose`, which names no
level, in the example build (a debug build). -/
theorem C22_level_names_witness :
    Logger.stringToLogLevel (Logger.logLevelToString MessageType.Warning.toNat) =
      MessageType.Warning ∧
    Logger.stringToLogLevel "Verbose" = MessageType.None ∧
    (Logger.allLogLevelStrings exampleBuild)[MessageType.Trace.toNat]? = some "Trace" :=
  ⟨C22_level_names.1 .Warning,
    C22_level_names.2.2.1 "Verbose" (fun L => by cases L <;> decide),
    ((C22_level_names.2.2.2 exampleBuild rfl).2 .Trace).trans rfl⟩

/-! ## Theorems: the convenience function for file engines -/

/-- C21, the code at the failing input: with a factory whose file engines fail to
initialize, `newFileEngine("Log1", "out.log", "Default")` on the example
logger (next free object `3`) constructs the engine `3`, returns false and
leaves the live list `[1, 2]`, but deletes the engine `3` twice: once inside
`attachLoggerEngine` and once more after it returned false.  On the other
paths of the example the claim holds: an empty file name constructs nothing,
a formatting engine found neither by name nor by extension deletes the new
engine once, and a successful call appends the new engine, named `Log1`, to
the live list. -/
theorem C21_newFileEngine_deletes_twice :
    (Logger.newFileEngine exampleBuild exampleFileApi exampleLoggerFileFails
      "Log1" "out.log" "Default").map
        (fun r => (r.2, r.1.deleted_engines, r.1.logger_engines, r.1.next_engine)) =
      some (false, [3, 3], [1, 2], 4) ∧
    (Logger.newFileEngine exampleBuild exampleFileApi exampleLoggerFileFails
      "Log1" "" "Default").map
        (fun r => (r.2, r.1.deleted_engines, r.1.logger_engines, r.1.next_engine)) =
      some (false, [], [1, 2], 3) ∧
    (Logger.newFileEngine exampleBuild exampleFileApi exampleLogger
      "Log1" "out.xyz" "Nope").map
        (fun r => (r.2, r.1.deleted_engines, r.1.logger_engines, r.1.next_engine)) =
      some (false, [3], [1, 2], 4) ∧
    (Logger.newFileEngine exampleBuild exampleFileApi exampleLogger
      "Log1" "dir.d/out.log" "Nope").map
        (fun r => (r.2, r.1.deleted_engines, r.1.logger_engines, (r.1.engines 3).data.name)) =
      some (true, [], [1, 2, 3], "Log1") := by
  refine ⟨?_, ?_, ?_, ?_⟩ <;> decide

end Qtilities
